import Mathlib

/-!
# celo-explorer-client-go: query construction and response normalisation

A shallow embedding of `celoexplorer/request.go`, `celoexplorer/client.go` and
`response/rpc.go`.

Conventions of the embedding.

* A Go `string` is a sequence of bytes: `GoString = List (Fin 256)`.  Byte arithmetic
  wraps modulo 256 as in Go.  `str` turns a literal into its UTF-8 bytes.
* A nil pointer is `none`; dereferencing it (a Go panic) makes the enclosing
  function return `none`.
* `*big.Int` is `Option Int`; `int` is the 64-bit machine integer, kept as an `Int`
  inside `[-2^63, 2^63)`.
* The standard library functions the repository calls (`net/url`, `strconv`,
  `math/big`, `encoding/hex`, `encoding/json`) are embedded from their Go sources
  at the arguments the repository uses.
-/

namespace CeloExplorer

/-! ## Go strings -/

abbrev Byte := Fin 256

abbrev GoString := List Byte

/-- The bytes of a literal (its UTF-8 encoding). -/
def str (s : String) : GoString :=
  (s.data.flatMap String.utf8EncodeChar).map (fun b => (b.val : Fin 256))

/-- Go's `<` on strings: bytewise lexicographic order. -/
def strLt : GoString → GoString → Bool
  | [], [] => false
  | [], _ :: _ => true
  | _ :: _, [] => false
  | a :: as, b :: bs => if a < b then true else if b < a then false else strLt as bs

/-- `strings.HasPrefix`. -/
def HasPrefix (s pre : GoString) : Bool :=
  decide (pre.length ≤ s.length) && (s.take pre.length == pre)

/-- `strings.TrimPrefix`. -/
def TrimPrefix (s pre : GoString) : GoString :=
  if HasPrefix s pre then s.drop pre.length else s

/-- `strings.Cut(s, sep)` for a one-byte separator: the text before the first `sep` and the
text after it (all of `s` and nothing when `sep` does not occur). -/
def Cut (sep : Byte) : GoString → GoString × GoString
  | [] => ([], [])
  | c :: cs => if c = sep then ([], cs) else ((Cut sep cs).1.cons c, (Cut sep cs).2)

/-- The pieces of `s` between occurrences of `sep`, in order: what repeated
`strings.Cut(s, sep)` visits. -/
def splitOn (sep : Byte) : GoString → List GoString
  | [] => [[]]
  | c :: cs =>
    if c = sep then [] :: splitOn sep cs
    else match splitOn sep cs with
      | [] => [[c]]
      | seg :: segs => (c :: seg) :: segs

/-- `strings.Join(elems, sep)`. -/
def Join (elems : List GoString) (sep : GoString) : GoString :=
  match elems with
  | [] => []
  | [e] => e
  | e :: es => e ++ sep ++ Join es sep

/-! ## `client.go` / `request.go`: prefix helpers -/

/-- `trim0x` of `client.go`. -/
def trim0x (s : GoString) : GoString :=
  TrimPrefix s (str "0x")

/-- `add0x` of `request.go`: a builder that receives "0x" and then `s`. -/
def add0x (s : GoString) : GoString :=
  let sb : GoString := []
  let sb := sb ++ str "0x"
  let sb := sb ++ s
  sb

/-! ## `net/url`: query escaping, `ParseQuery`, `Values` -/

/-- `url.shouldEscape(c, encodeQueryComponent)`: everything but ASCII letters, digits
and `- _ . ~` is escaped. -/
def shouldEscape (c : Byte) : Bool :=
  if (97 ≤ c && c ≤ 122) || (65 ≤ c && c ≤ 90) || (48 ≤ c && c ≤ 57) then false
  else if c = 45 || c = 95 || c = 46 || c = 126 then false
  else true

/-- The table `upperhex = "0123456789ABCDEF"`, indexed. -/
def upperhex (i : Byte) : Byte :=
  (str "0123456789ABCDEF").getD i.val 0

/-- `url.QueryEscape`: a space becomes `+`, an escaped byte becomes `%XX`. -/
def QueryEscape : GoString → GoString
  | [] => []
  | c :: cs =>
    if c = 32 then 43 :: QueryEscape cs
    else if shouldEscape c then 37 :: upperhex (c >>> 4) :: upperhex (c &&& 15) :: QueryEscape cs
    else c :: QueryEscape cs

/-- `url.ishex`. -/
def ishex (c : Byte) : Bool :=
  (48 ≤ c && c ≤ 57) || (97 ≤ c && c ≤ 102) || (65 ≤ c && c ≤ 70)

/-- `url.unhex`. -/
def unhex (c : Byte) : Byte :=
  if 48 ≤ c ∧ c ≤ 57 then c - 48
  else if 97 ≤ c ∧ c ≤ 102 then c - 97 + 10
  else if 65 ≤ c ∧ c ≤ 70 then c - 65 + 10
  else 0

/-- `url.QueryUnescape`: `none` is the `EscapeError` of a `%` not followed by two hex
digits. -/
def QueryUnescape : GoString → Option GoString
  | [] => some []
  | c :: rest =>
    if c = 37 then
      match rest with
      | a :: b :: rest2 =>
        if ishex a && ishex b then
          (QueryUnescape rest2).map (fun t => ((unhex a <<< 4) ||| unhex b) :: t)
        else none
      | _ => none
    else if c = 43 then (QueryUnescape rest).map (fun t => 32 :: t)
    else (QueryUnescape rest).map (fun t => c :: t)

/-- `url.Values`, a `map[string][]string`.  The map is kept as an association list with
strictly increasing keys, so that the list order is the sorted key order in which
`Encode` walks the map. -/
abbrev Values := List (GoString × List GoString)

/-- The map read `v[key]`: `none` when the key is absent. -/
def Values.lookup (v : Values) (key : GoString) : Option (List GoString) :=
  match v with
  | [] => none
  | (k, vs) :: rest => if key = k then some vs else Values.lookup rest key

/-- `Values.Get`: the first value of the key, "" when there is none. -/
def Values.Get (v : Values) (key : GoString) : GoString :=
  match v.lookup key with
  | some (x :: _) => x
  | _ => []

/-- `Values.Has`. -/
def Values.Has (v : Values) (key : GoString) : Bool :=
  (v.lookup key).isSome

/-- The map update `m[key] = append(m[key], value)` of `parseQuery`. -/
def Values.Add (v : Values) (key value : GoString) : Values :=
  match v with
  | [] => [(key, [value])]
  | (k, vs) :: rest =>
    if key = k then (k, vs ++ [value]) :: rest
    else if strLt key k then (key, [value]) :: (k, vs) :: rest
    else (k, vs) :: Values.Add rest key value

/-- `Values.Set`: `v[key] = []string{value}`. -/
def Values.Set (v : Values) (key value : GoString) : Values :=
  match v with
  | [] => [(key, [value])]
  | (k, vs) :: rest =>
    if key = k then (k, [value]) :: rest
    else if strLt key k then (key, [value]) :: (k, vs) :: rest
    else (k, vs) :: Values.Set rest key value

/-- One round of the loop of `url.parseQuery` (Go 1.17 and later) on the piece `seg`
between two `&`: a piece with a `;`, an empty piece and a piece whose key or value does not
unescape are skipped. -/
def parseQueryStep (m : Values) (seg : GoString) : Values :=
  if seg.contains 59 then m
  else if seg = [] then m
  else
    match QueryUnescape (Cut 61 seg).1 with
    | none => m
    | some key =>
      match QueryUnescape (Cut 61 seg).2 with
      | none => m
      | some value => m.Add key value

/-- `url.ParseQuery`, the error dropped as `URL.Query` drops it. -/
def ParseQuery (query : GoString) : Values :=
  (splitOn 38 query).foldl parseQueryStep []

/-- One write of `Values.Encode` into its buffer: `&` when the buffer is not empty, then
`key=value`, both escaped. -/
def encodeWrite (keyEscaped : GoString) (buf : GoString) (v : GoString) : GoString :=
  let buf := if buf.length > 0 then buf ++ [38] else buf
  let buf := buf ++ keyEscaped
  let buf := buf ++ [61]
  buf ++ QueryEscape v

/-- `Values.Encode`: the keys in sorted order, each with all its values. -/
def Values.Encode (v : Values) : GoString :=
  v.foldl (fun buf kv => kv.2.foldl (encodeWrite (QueryEscape kv.1)) buf) []

/-- The maps `ParseQuery` builds: keys strictly increasing, no key without a value. -/
def Values.Canonical (v : Values) : Prop :=
  v.Pairwise (fun a b => strLt a.1 b.1 = true) ∧ ∀ kv ∈ v, kv.2 ≠ []

/-- The `key, value` pairs of a map in the order `Encode` writes them. -/
def Values.pairs (v : Values) : List (GoString × GoString) :=
  v.flatMap (fun kv => kv.2.map (fun x => (kv.1, x)))

/-- The text `key=value` that `Encode` writes for one pair. -/
def encodePair (p : GoString × GoString) : GoString :=
  QueryEscape p.1 ++ 61 :: QueryEscape p.2

/-- A `url.URL`: the query builder reads and writes `RawQuery` only; `Rest` stands for
the text before the `?`. -/
structure URL where
  Rest : GoString
  RawQuery : GoString
  Fragment : GoString
deriving DecidableEq, Repr

/-- `URL.Query`. -/
def URL.Query (u : URL) : Values :=
  ParseQuery u.RawQuery

/-! ## `request.go`: the query builder -/

/-- The builder holds a pointer to the URL it edits; the embedding passes the URL. -/
structure queryBuilder where
  url : URL
deriving DecidableEq, Repr

def newQueryBuilder (u : URL) : queryBuilder :=
  { url := u }

/-- `queryBuilder.set`. -/
def queryBuilder.set (qb : queryBuilder) (key value : GoString) : queryBuilder :=
  let q := qb.url.Query
  let q := q.Set key value
  { url := { qb.url with RawQuery := q.Encode } }

/-- `queryBuilder.setIfExist`. -/
def queryBuilder.setIfExist (qb : queryBuilder) (key : GoString) (value : Option GoString) :
    queryBuilder :=
  match value with
  | some v => qb.set key v
  | none => qb

/-- `queryBuilder.address`. -/
def queryBuilder.address (qb : queryBuilder) (address : GoString) : queryBuilder :=
  qb.set (str "address") (add0x address)

/-- `queryBuilder.txHash`. -/
def queryBuilder.txHash (qb : queryBuilder) (hash : GoString) : queryBuilder :=
  qb.set (str "txhash") (add0x hash)

/-- `queryBuilder.contractAddress`. -/
def queryBuilder.contractAddress (qb : queryBuilder) (address : GoString) : queryBuilder :=
  qb.set (str "contractaddress") (add0x address)

/-- The type `topicOperator string` with its two constants. -/
abbrev topicOperator := GoString

def topicOperator.And : topicOperator := str "and"

def topicOperator.Or : topicOperator := str "or"

structure Topics where
  Topic0 : GoString
  Topic1 : Option GoString
  Topic2 : Option GoString
  Topic3 : Option GoString
  Opr01 : Option topicOperator
  Opr02 : Option topicOperator
  Opr03 : Option topicOperator
  Opr12 : Option topicOperator
  Opr13 : Option topicOperator
  Opr23 : Option topicOperator
deriving DecidableEq, Repr

/-- `queryBuilder.topics`.  Reading through a nil operator pointer (`*topics.Opr01`)
panics: the result is `none`. -/
def queryBuilder.topics (qb : queryBuilder) (topics : Topics) : Option queryBuilder := do
  let qb := qb.set (str "topic0") (add0x topics.Topic0)
  match topics.Topic1 with
  | some topic1 =>
    let qb := qb.set (str "topic1") (add0x topic1)
    let qb := qb.set (str "topic0_1_opr") (add0x (← topics.Opr01))
    match topics.Topic2 with
    | some topic2 =>
      let qb := qb.set (str "topic2") (add0x topic2)
      let qb := qb.set (str "topic0_2_opr") (add0x (← topics.Opr02))
      let qb := qb.set (str "topic1_2_opr") (add0x (← topics.Opr12))
      match topics.Topic3 with
      | some topic3 =>
        let qb := qb.set (str "topic3") (add0x topic3)
        let qb := qb.set (str "topic0_3_opr") (add0x (← topics.Opr03))
        let qb := qb.set (str "topic1_3_opr") (add0x (← topics.Opr13))
        let qb := qb.set (str "topic2_3_opr") (add0x (← topics.Opr23))
        pure qb
      | none => pure qb
    | none =>
      match topics.Topic3 with
      | some topic3 =>
        let qb := qb.set (str "topic3") (add0x topic3)
        let qb := qb.set (str "topic0_3_opr") (add0x (← topics.Opr03))
        let qb := qb.set (str "topic1_3_opr") (add0x (← topics.Opr13))
        pure qb
      | none => pure qb
  | none =>
    match topics.Topic2 with
    | some topic2 =>
      let qb := qb.set (str "topic2") (add0x topic2)
      let qb := qb.set (str "topic0_2_opr") (add0x (← topics.Opr02))
      match topics.Topic3 with
      | some topic3 =>
        let qb := qb.set (str "topic3") (add0x topic3)
        let qb := qb.set (str "topic0_3_opr") (add0x (← topics.Opr03))
        let qb := qb.set (str "topic2_3_opr") (add0x (← topics.Opr23))
        pure qb
      | none => pure qb
    | none =>
      match topics.Topic3 with
      | some topic3 =>
        let qb := qb.set (str "topic3") (add0x topic3)
        let qb := qb.set (str "topic0_3_opr") (add0x (← topics.Opr03))
        pure qb
      | none => pure qb

/-! ### The topic table in the words of the specification -/

/-- Whether topic slot `i` is populated: topic0 always, topic1..3 when non-nil. -/
def Topics.populated (t : Topics) (i : Nat) : Bool :=
  match i with
  | 0 => true
  | 1 => t.Topic1.isSome
  | 2 => t.Topic2.isSome
  | 3 => t.Topic3.isSome
  | _ => false

/-- The operator pointer `Opr{i}{j}`. -/
def Topics.opr (t : Topics) (i j : Nat) : Option topicOperator :=
  match i, j with
  | 0, 1 => t.Opr01
  | 0, 2 => t.Opr02
  | 0, 3 => t.Opr03
  | 1, 2 => t.Opr12
  | 1, 3 => t.Opr13
  | 2, 3 => t.Opr23
  | _, _ => none

/-- The decimal digit `i` as a byte. -/
def digitByte (i : Nat) : Byte :=
  Fin.ofNat (48 + i)

/-- The key `topic{i}`. -/
def topicKey (i : Nat) : GoString :=
  str "topic" ++ [digitByte i]

/-- The key `topic{i}_{j}_opr`. -/
def oprKey (i j : Nat) : GoString :=
  str "topic" ++ [digitByte i] ++ str "_" ++ [digitByte j] ++ str "_opr"

/-- The index pairs `0 <= i < j <= 3`. -/
def topicPairs : List (Nat × Nat) :=
  [(0, 1), (0, 2), (0, 3), (1, 2), (1, 3), (2, 3)]

/-- The keys the specification lets `topics` emit: `topic{i}` for each populated slot and
`topic{i}_{j}_opr` for each pair of populated slots. -/
def Topics.specKeys (t : Topics) : List GoString :=
  (([0, 1, 2, 3].filter t.populated).map topicKey) ++
    ((topicPairs.filter (fun p => t.populated p.1 && t.populated p.2)).map
      (fun p => oprKey p.1 p.2))

/-- The operator of every pair of populated slots is non-nil. -/
def Topics.oprsPresent (t : Topics) : Prop :=
  ∀ p ∈ topicPairs, t.populated p.1 = true → t.populated p.2 = true →
    (t.opr p.1 p.2).isSome = true

instance (t : Topics) : Decidable t.oprsPresent := by
  unfold Topics.oprsPresent; infer_instance

/-- The builder `qb2` differs from `qb` by writes to the keys of `keys`: each of them
carries a single value in the query of `qb2`, every other key carries what it carried in
the query of `qb`. -/
def queryBuilder.Sets (qb qb2 : queryBuilder) (keys : List GoString) : Prop :=
  ∀ k : GoString,
    (k ∈ keys → ∃ v, qb2.url.Query.lookup k = some [v]) ∧
    (k ∉ keys → qb2.url.Query.lookup k = qb.url.Query.lookup k)

/-! ## `strconv` (64-bit platform: `IntSize = 64`) -/

/-- The two failures of the `strconv` parsers. -/
inductive NumError where
  | ErrSyntax
  | ErrRange
deriving DecidableEq, Repr

def maxUint64 : Nat := 2 ^ 64 - 1

/-- `strconv.lower`: `c | ('x' - 'X')`. -/
def lower (c : Byte) : Byte :=
  c ||| (120 - 88)

/-- The digit loop of `strconv.ParseUint` (no underscores: the base is not 0).  `n` is the
`uint64` accumulator. -/
def parseUintLoop (base cutoff maxVal : Nat) : GoString → Nat → Nat × Option NumError
  | [], n => (n, none)
  | c :: cs, n =>
    let d : Option Byte :=
      if 48 ≤ c ∧ c ≤ 57 then some (c - 48)
      else if 97 ≤ lower c ∧ lower c ≤ 122 then some (lower c - 97 + 10)
      else none
    match d with
    | none => (0, some NumError.ErrSyntax)
    | some d =>
      if d.val ≥ base % 256 then (0, some NumError.ErrSyntax)
      else if n ≥ cutoff then (maxVal, some NumError.ErrRange)
      else
        let n := (n * base) % 2 ^ 64
        let n1 := (n + d.val) % 2 ^ 64
        if n1 < n ∨ n1 > maxVal then (maxVal, some NumError.ErrRange)
        else parseUintLoop base cutoff maxVal cs n1

/-- `strconv.ParseUint(s, base, bitSize)` for a base in 2..36 and a bit size in 0..64, the
arguments the repository passes. -/
def ParseUint (s : GoString) (base bitSize : Nat) : Nat × Option NumError :=
  if s = [] then (0, some NumError.ErrSyntax)
  else
    let bitSize := if bitSize = 0 then 64 else bitSize
    let cutoff := maxUint64 / base + 1
    let maxVal := 2 ^ bitSize - 1
    parseUintLoop base cutoff maxVal s 0

/-- `strconv.ParseInt(s, base, bitSize)`. -/
def ParseInt (s : GoString) (base bitSize : Nat) : Int × Option NumError :=
  match s with
  | [] => (0, some NumError.ErrSyntax)
  | c :: cs =>
    let neg : Bool := decide (c = 45)
    let s1 := if c = 43 then cs else if c = 45 then cs else s
    match ParseUint s1 base bitSize with
    | (_, some NumError.ErrSyntax) => (0, some NumError.ErrSyntax)
    | (un, _) =>
      let bitSize := if bitSize = 0 then 64 else bitSize
      let cutoff : Nat := 2 ^ (bitSize - 1)
      if !neg && decide (un ≥ cutoff) then ((cutoff : Int) - 1, some NumError.ErrRange)
      else if neg && decide (un > cutoff) then (-(cutoff : Int), some NumError.ErrRange)
      else
        let n : Int := un
        let n := if neg then -n else n
        (n, none)

/-- The digit loop of the fast path of `strconv.Atoi`. -/
def atoiLoop : GoString → Int → Int × Option NumError
  | [], n => (n, none)
  | ch :: rest, n =>
    let ch := ch - 48
    if ch > 9 then (0, some NumError.ErrSyntax)
    else atoiLoop rest (n * 10 + (ch.val : Int))

/-- `strconv.Atoi`. -/
def Atoi (s : GoString) : Int × Option NumError :=
  let sLen := s.length
  if 0 < sLen ∧ sLen < 19 then
    match s with
    | [] => (0, some NumError.ErrSyntax)
    | c :: cs =>
      let s1 := if c = 45 ∨ c = 43 then cs else s
      if (c = 45 ∨ c = 43) ∧ s1.length < 1 then (0, some NumError.ErrSyntax)
      else
        match atoiLoop s1 0 with
        | (_, some e) => (0, some e)
        | (n, none) => (if c = 45 then -n else n, none)
  else
    ParseInt s 10 0

/-! ### Decimal numerals, in the words of the specification -/

/-- A decimal digit `0`..`9`. -/
def isDigit (c : Byte) : Bool :=
  decide (48 ≤ c) && decide (c ≤ 57)

/-- The text after one leading sign `+` or `-`, if there is one. -/
def unsignedPart (s : GoString) : GoString :=
  match s with
  | [] => []
  | c :: cs => if c = 45 ∨ c = 43 then cs else c :: cs

/-- The number a run of decimal digits denotes, continuing from `n`. -/
def decimalValue (n : Nat) (s : GoString) : Nat :=
  s.foldl (fun a c => a * 10 + (c.val - 48)) n

/-- A wire string that is no decimal numeral: nothing after the optional sign, or a byte
that is no digit among the first 20 bytes after it. -/
def notNumeric (s : GoString) : Prop :=
  unsignedPart s = [] ∨ ((unsignedPart s).take 20).any (fun c => !isDigit c) = true

/-- A decimal numeral above the machine integer range: no minus sign, digits only, value
above `2^63 - 1`. -/
def aboveIntRange (s : GoString) : Prop :=
  s.head? ≠ some 45 ∧ (unsignedPart s).all isDigit = true ∧
    decimalValue 0 (unsignedPart s) > 2 ^ 63 - 1

/-- A decimal numeral below the machine integer range: a minus sign, digits only, absolute
value above `2^63`. -/
def belowIntRange (s : GoString) : Prop :=
  s.head? = some 45 ∧ (unsignedPart s).all isDigit = true ∧
    decimalValue 0 (unsignedPart s) > 2 ^ 63

/-- A digit of a base of at most 36: `0`..`9`, and the letters `a`..`z` or `A`..`Z` for
10..35, with a value below the base. -/
def isBaseDigit (base : Nat) (c : Byte) : Bool :=
  (decide (48 ≤ c ∧ c ≤ 57) && decide (c.val - 48 < base)) ||
  (decide (97 ≤ c ∧ c ≤ 122) && decide (c.val - 97 + 10 < base)) ||
  (decide (65 ≤ c ∧ c ≤ 90) && decide (c.val - 65 + 10 < base))

/-- A numeral of the base: an optional sign, then at least one digit of the base and
nothing else. -/
def validNumeral (base : Nat) (s : GoString) : Prop :=
  unsignedPart s ≠ [] ∧ (unsignedPart s).all (isBaseDigit base) = true

instance (base : Nat) (s : GoString) : Decidable (validNumeral base s) := by
  unfold validNumeral; infer_instance

instance (s : GoString) : Decidable (notNumeric s) := by
  unfold notNumeric; infer_instance

instance (s : GoString) : Decidable (aboveIntRange s) := by
  unfold aboveIntRange; infer_instance

instance (s : GoString) : Decidable (belowIntRange s) := by
  unfold belowIntRange; infer_instance

/-! ## `math/big` -/

/-- The digit value `nat.scan` gives a byte, for a base of at most 36; `MaxBase + 1`
for a byte that is no digit. -/
def bigDigit (ch : Byte) : Nat :=
  if 48 ≤ ch ∧ ch ≤ 57 then (ch - 48).val
  else if 97 ≤ ch ∧ ch ≤ 122 then (ch - 97).val + 10
  else if 65 ≤ ch ∧ ch ≤ 90 then (ch - 65).val + 10
  else 62 + 1

/-- The digit loop of `nat.scan(r, base, false)` for a base that is not 0: the value read,
the number of digits, and the unread rest. -/
def natScan (base : Nat) : GoString → Nat → Nat → Nat × Nat × GoString
  | [], z, count => (z, count, [])
  | ch :: rest, z, count =>
    if bigDigit ch ≥ base then (z, count, ch :: rest)
    else natScan base rest (z * base + bigDigit ch) (count + 1)

/-- `(*big.Int).SetString(s, base)` for a base in 2..36: the returned pointer (`none` is
nil) and the success flag. -/
def bigSetString (s : GoString) (base : Nat) : Option Int × Bool :=
  match s with
  | [] => (none, false)
  | ch :: rest =>
    let neg : Bool := decide (ch = 45)
    let body := if ch = 45 ∨ ch = 43 then rest else s
    match natScan base body 0 0 with
    | (z, count, unread) =>
      if count = 0 then (none, false)
      else if unread ≠ [] then (none, false)
      else (some (if decide (z > 0) && neg then -(z : Int) else (z : Int)), true)

/-- `toBigInt` of `client.go`: `n` is first a fresh `big.Int`, then whatever `SetString`
returns. -/
def toBigInt (value : GoString) (base : Nat) : Option Int :=
  let n : Option Int := some 0
  let n := n.bind (fun _ => (bigSetString value base).1)
  n

/-! ## `encoding/hex` -/

/-- The table `reverseHexTable`: the value of a hex digit, `0xff` for any other byte. -/
def reverseHexTable (c : Byte) : Byte :=
  if 48 ≤ c ∧ c ≤ 57 then c - 48
  else if 97 ≤ c ∧ c ≤ 102 then c - 97 + 10
  else if 65 ≤ c ∧ c ≤ 70 then c - 65 + 10
  else 255

/-- `hex.Decode`: the bytes written to `dst` before the end or the first error, and
whether an error was met. -/
def hexDecode : GoString → List Byte × Bool
  | [] => ([], false)
  | [_] => ([], true)
  | p :: q :: rest =>
    let a := reverseHexTable p
    let b := reverseHexTable q
    if a > 15 then ([], true)
    else if b > 15 then ([], true)
    else (((a <<< 4) ||| b) :: (hexDecode rest).1, (hexDecode rest).2)

/-- `hexToByte` of `client.go`: `dst[:n]`, the error dropped. -/
def hexToByte (s : GoString) : List Byte :=
  let src := s
  (hexDecode src).1

/-! ## Decimal text of integers (`strconv.Itoa`, `(*big.Int).String`) -/

/-- The decimal digits of `n`, most significant first, written in front of `acc`; `fuel`
bounds the number of digits. -/
def decimalAux : Nat → Nat → GoString → GoString
  | 0, _, acc => acc
  | fuel + 1, n, acc =>
    if n < 10 then digitByte n :: acc
    else decimalAux fuel (n / 10) (digitByte (n % 10) :: acc)

/-- The decimal numeral of a natural number ("0" for zero, no leading zeros). -/
def formatNat (n : Nat) : GoString :=
  decimalAux (n + 1) n []

/-- The decimal numeral of an integer: `strconv.Itoa`, `strconv.FormatInt(_, 10)` and
`(*big.Int).String`. -/
def formatInt (x : Int) : GoString :=
  if x < 0 then 45 :: formatNat x.natAbs else formatNat x.natAbs

/-! ## `encoding/json`

A document is kept as its parsed tree; a byte sequence that is no JSON document is `none`
where a document is expected. -/

inductive Json where
  | null
  | bool (b : Bool)
  | number (text : GoString)
  | string (s : GoString)
  | array (elems : List Json)
  | object (members : List (GoString × Json))

/-- The text of a JSON string, `none` for any other value. -/
def Json.string? (doc : Json) : Option GoString :=
  match doc with
  | Json.string s => some s
  | _ => none

/-- The case folding under which the decoder compares an object key with a field name.
The field names of `rpc.go` are ASCII, so a key folds to a name only through ASCII letters,
U+017F (folds to `s`) and U+212A (folds to `k`). -/
def foldName : GoString → GoString
  | [] => []
  | [c] => [if 65 ≤ c ∧ c ≤ 90 then c + 32 else c]
  | [c, d] =>
    if c = 197 ∧ d = 191 then [115]
    else (if 65 ≤ c ∧ c ≤ 90 then c + 32 else c) :: foldName [d]
  | c :: d :: e :: rest =>
    if c = 197 ∧ d = 191 then 115 :: foldName (e :: rest)
    else if c = 226 ∧ d = 132 ∧ e = 170 then 107 :: foldName rest
    else (if 65 ≤ c ∧ c ≤ 90 then c + 32 else c) :: foldName (d :: e :: rest)

/-- Whether the decoder stores the member `key` into the field named `name`: the names are
equal, or equal after folding. -/
def fieldMatch (name key : GoString) : Bool :=
  key == name || foldName key == foldName name

/-- Decoding a value into a `string`: a JSON string is stored, `null` and any other value
leave the target as it is (the latter with an `UnmarshalTypeError`). -/
def storeString (doc : Json) (cur : GoString) : GoString :=
  match doc with
  | Json.string s => s
  | _ => cur

/-- Decoding a value into a `bool`. -/
def storeBool (doc : Json) (cur : Bool) : Bool :=
  match doc with
  | Json.bool b => b
  | _ => cur

/-- Decoding a value into a slice: element `i` of an array is decoded into element `i` of
the slice (a zero element when the slice is shorter), `null` makes the slice nil, any other
value leaves it.  A list keeps no backing array: when a slice that an earlier array under
the same key had filled and a later one shortened is lengthened again, the decoder finds the
old elements past the length where this function starts from zero elements. -/
def storeSlice {α : Type} (zero : α) (store : Json → α → α) (doc : Json) (cur : List α) :
    List α :=
  match doc with
  | Json.array elems => (elems.enum).map (fun ie => store ie.2 (cur.getD ie.1 zero))
  | Json.null => []
  | _ => cur

/-- The members of an object, for a struct target: `null` and any value that is no object
leave the struct as it is. -/
def Json.members (doc : Json) : List (GoString × Json) :=
  match doc with
  | Json.object ms => ms
  | _ => []

/-- The value of the field named `name` after the members were decoded in order. -/
def field {α : Type} (store : Json → α → α) (name : String) (ms : List (GoString × Json))
    (cur : α) : α :=
  ms.foldl (fun cur kv => if fieldMatch (str name) kv.1 then store kv.2 cur else cur) cur

/-- An `interface{}` argument of `json.Unmarshal`: a pointer to a variable, or a copy of
its value. -/
inductive Iface (α : Type) where
  | pointer (pointee : α)
  | value (v : α)

/-- The variable behind the argument after the call. -/
def Iface.get {α : Type} : Iface α → α
  | Iface.pointer x => x
  | Iface.value x => x

/-- `json.Unmarshal(data, v)`, its error dropped as every caller in `request.go` drops it:
nothing is stored when `data` is no JSON document (`SyntaxError`) or when `v` is not a
pointer (`InvalidUnmarshalError`). -/
def jsonUnmarshal {α : Type} (store : Json → α → α) (data : Option Json) (v : Iface α) :
    Iface α :=
  match data, v with
  | some doc, Iface.pointer x => Iface.pointer (store doc x)
  | _, v => v

/-! ## `response/rpc.go`: the wire records and their decoding -/

/-- A Go `error`: nil, or an error with a message. -/
abbrev error := Option GoString

/-- `BaseResponse`; `Result` is a `json.RawMessage` (`none` when no member was stored). -/
structure response.BaseResponse where
  Message : GoString
  Result : Option Json
  Status : GoString

structure response.EthResult where
  Result : GoString
deriving DecidableEq, Repr

structure response.EthError where
  Error : GoString
deriving DecidableEq, Repr

abbrev response.Balance := GoString

structure response.TxList where
  Blockhash : GoString
  Blocknumber : GoString
  Confirmations : GoString
  Contractaddress : GoString
  Cumulativegasused : GoString
  Feecurrency : GoString
  From : GoString
  Gas : GoString
  Gasprice : GoString
  Gasused : GoString
  Gatewayfee : GoString
  Gatewayfeerecipient : GoString
  Hash : GoString
  Input : GoString
  Iserror : GoString
  Nonce : GoString
  Timestamp : GoString
  To : GoString
  Transactionindex : GoString
  TxreceiptStatus : GoString
  Value : GoString
deriving DecidableEq, Repr

structure response.TokenTx where
  Blockhash : GoString
  Blocknumber : GoString
  Confirmations : GoString
  Contractaddress : GoString
  Cumulativegasused : GoString
  From : GoString
  Gas : GoString
  Gasprice : GoString
  Gasused : GoString
  Hash : GoString
  Input : GoString
  Logindex : GoString
  Nonce : GoString
  Timestamp : GoString
  To : GoString
  Tokendecimal : GoString
  Tokenname : GoString
  Tokensymbol : GoString
  Transactionindex : GoString
  Value : GoString
deriving DecidableEq, Repr

/-- The anonymous element type of `GetTxInfo.Logs`. -/
structure response.GetTxInfoLog where
  Address : GoString
  Data : GoString
  Index : GoString
  Topics : List GoString
deriving DecidableEq, Repr

structure response.GetTxInfo where
  Revertreason : GoString
  Blocknumber : GoString
  Confirmations : GoString
  Feecurrency : GoString
  From : GoString
  Gaslimit : GoString
  Gasprice : GoString
  Gasused : GoString
  Gatewayfee : GoString
  Gatewayfeerecipient : GoString
  Hash : GoString
  Input : GoString
  Logs : List response.GetTxInfoLog
  Success : Bool
  Timestamp : GoString
  To : GoString
  Value : GoString
deriving DecidableEq, Repr

def response.BaseResponse.zero : response.BaseResponse :=
  { Message := [], Result := none, Status := [] }

def response.TxList.zero : response.TxList :=
  ⟨[], [], [], [], [], [], [], [], [], [], [], [], [], [], [], [], [], [], [], [], []⟩

def response.TokenTx.zero : response.TokenTx :=
  ⟨[], [], [], [], [], [], [], [], [], [], [], [], [], [], [], [], [], [], [], []⟩

def response.GetTxInfoLog.zero : response.GetTxInfoLog :=
  ⟨[], [], [], []⟩

def response.GetTxInfo.zero : response.GetTxInfo :=
  ⟨[], [], [], [], [], [], [], [], [], [], [], [], [], false, [], [], []⟩

/-- Decoding into a `BaseResponse`, by the `json` tags of its fields. -/
def storeBaseResponse (doc : Json) (v : response.BaseResponse) : response.BaseResponse :=
  let ms := doc.members
  { Message := field storeString "message" ms v.Message
    Result := field (fun val _ => some val) "result" ms v.Result
    Status := field storeString "status" ms v.Status }

def storeEthResult (doc : Json) (v : response.EthResult) : response.EthResult :=
  { Result := field storeString "result" doc.members v.Result }

def storeEthError (doc : Json) (v : response.EthError) : response.EthError :=
  { Error := field storeString "error" doc.members v.Error }

def storeTxList (doc : Json) (v : response.TxList) : response.TxList :=
  let ms := doc.members
  { Blockhash := field storeString "blockHash" ms v.Blockhash
    Blocknumber := field storeString "blockNumber" ms v.Blocknumber
    Confirmations := field storeString "confirmations" ms v.Confirmations
    Contractaddress := field storeString "contractAddress" ms v.Contractaddress
    Cumulativegasused := field storeString "cumulativeGasUsed" ms v.Cumulativegasused
    Feecurrency := field storeString "feeCurrency" ms v.Feecurrency
    From := field storeString "from" ms v.From
    Gas := field storeString "gas" ms v.Gas
    Gasprice := field storeString "gasPrice" ms v.Gasprice
    Gasused := field storeString "gasUsed" ms v.Gasused
    Gatewayfee := field storeString "gatewayFee" ms v.Gatewayfee
    Gatewayfeerecipient := field storeString "gatewayFeeRecipient" ms v.Gatewayfeerecipient
    Hash := field storeString "hash" ms v.Hash
    Input := field storeString "input" ms v.Input
    Iserror := field storeString "isError" ms v.Iserror
    Nonce := field storeString "nonce" ms v.Nonce
    Timestamp := field storeString "timeStamp" ms v.Timestamp
    To := field storeString "to" ms v.To
    Transactionindex := field storeString "transactionIndex" ms v.Transactionindex
    TxreceiptStatus := field storeString "txreceipt_status" ms v.TxreceiptStatus
    Value := field storeString "value" ms v.Value }

def storeTokenTx (doc : Json) (v : response.TokenTx) : response.TokenTx :=
  let ms := doc.members
  { Blockhash := field storeString "blockHash" ms v.Blockhash
    Blocknumber := field storeString "blockNumber" ms v.Blocknumber
    Confirmations := field storeString "confirmations" ms v.Confirmations
    Contractaddress := field storeString "contractAddress" ms v.Contractaddress
    Cumulativegasused := field storeString "cumulativeGasUsed" ms v.Cumulativegasused
    From := field storeString "from" ms v.From
    Gas := field storeString "gas" ms v.Gas
    Gasprice := field storeString "gasPrice" ms v.Gasprice
    Gasused := field storeString "gasUsed" ms v.Gasused
    Hash := field storeString "hash" ms v.Hash
    Input := field storeString "input" ms v.Input
    Logindex := field storeString "logIndex" ms v.Logindex
    Nonce := field storeString "nonce" ms v.Nonce
    Timestamp := field storeString "timeStamp" ms v.Timestamp
    To := field storeString "to" ms v.To
    Tokendecimal := field storeString "tokenDecimal" ms v.Tokendecimal
    Tokenname := field storeString "tokenName" ms v.Tokenname
    Tokensymbol := field storeString "tokenSymbol" ms v.Tokensymbol
    Transactionindex := field storeString "transactionIndex" ms v.Transactionindex
    Value := field storeString "value" ms v.Value }

def storeGetTxInfoLog (doc : Json) (v : response.GetTxInfoLog) : response.GetTxInfoLog :=
  let ms := doc.members
  { Address := field storeString "address" ms v.Address
    Data := field storeString "data" ms v.Data
    Index := field storeString "index" ms v.Index
    Topics := field (storeSlice [] storeString) "topics" ms v.Topics }

def storeGetTxInfo (doc : Json) (v : response.GetTxInfo) : response.GetTxInfo :=
  let ms := doc.members
  { Revertreason := field storeString "revertReason" ms v.Revertreason
    Blocknumber := field storeString "blockNumber" ms v.Blocknumber
    Confirmations := field storeString "confirmations" ms v.Confirmations
    Feecurrency := field storeString "feeCurrency" ms v.Feecurrency
    From := field storeString "from" ms v.From
    Gaslimit := field storeString "gasLimit" ms v.Gaslimit
    Gasprice := field storeString "gasPrice" ms v.Gasprice
    Gasused := field storeString "gasUsed" ms v.Gasused
    Gatewayfee := field storeString "gatewayFee" ms v.Gatewayfee
    Gatewayfeerecipient := field storeString "gatewayFeeRecipient" ms v.Gatewayfeerecipient
    Hash := field storeString "hash" ms v.Hash
    Input := field storeString "input" ms v.Input
    Logs := field (storeSlice response.GetTxInfoLog.zero storeGetTxInfoLog) "logs" ms v.Logs
    Success := field storeBool "success" ms v.Success
    Timestamp := field storeString "timeStamp" ms v.Timestamp
    To := field storeString "to" ms v.To
    Value := field storeString "value" ms v.Value }

/-! ## `request.go`: transport, URL templates, optional setters, endpoints -/

/-- What reading the body of a response gives: an error of `ioutil.ReadAll`, or the bytes
(`none` when they are no JSON document). -/
inductive HttpBody where
  | readError (err : GoString)
  | data (doc : Option Json)

/-- What `http.Get` gives: an error, or a response with its status code and body. -/
inductive HttpResult where
  | failed (err : GoString)
  | response (StatusCode : Int) (Body : HttpBody)

/-- `RequestClient`: the HTTP client is the answer it gives to each URL. -/
structure RequestClient where
  http : URL → HttpResult
  base : GoString

def ethGetBalanceUrl : GoString :=
  str "?module=account&action=eth_get_balance&address={addressHash}"

def balanceUrl : GoString :=
  str "?module=account&action=balance&address={addressHash}"

def txListUrl : GoString :=
  str "?module=account&action=txlist&address={addressHash}"

def tokenTxUrl : GoString :=
  str "?module=account&action=tokentx&address={addressHash}"

def ethBlockNumberUrl : GoString :=
  str "?module=block&action=eth_block_number"

def getTxInfoUrl : GoString :=
  str "?module=transaction&action=gettxinfo&txhash={transactionHash}"

def getLogsUrl : GoString :=
  str ("?module=logs&action=getLogs&fromBlock={blockNumber}&toBlock={blockNumber}" ++
    "&address={addressHash}&topic0={firstTopic}")

/-- `buildUrl`: the pieces are concatenated and parsed; a parse error panics (`none`).
Of `url.Parse` the embedding keeps the split at the first `#` and the first `?` and the
rejection of ASCII control bytes; its other rejections (scheme, authority, escapes of the
path and the fragment) are not represented. -/
def buildUrl (ss : List GoString) : Option URL :=
  let sb : GoString := ss.foldl (fun sb s => sb ++ s) []
  let u := (Cut 35 sb).1
  let frag := (Cut 35 sb).2
  if u.any (fun b => decide (b < 32) || decide (b = 127)) then none
  else some { Rest := (Cut 63 u).1, RawQuery := (Cut 63 u).2, Fragment := frag }

/-- `queryBuilder.addressMulti`. -/
def queryBuilder.addressMulti (qb : queryBuilder) (address : List GoString) : queryBuilder :=
  let formatAddress := address.map add0x
  qb.set (str "address") (Join formatAddress (str ","))

/-- `queryBuilder.block`. -/
def queryBuilder.block (qb : queryBuilder) (number : Option Int) : queryBuilder :=
  match number with
  | some n => qb.set (str "block") (formatInt n)
  | none => qb

/-- `queryBuilder.blockNo`. -/
def queryBuilder.blockNo (qb : queryBuilder) (number : Option Int) : queryBuilder :=
  match number with
  | some n => qb.set (str "blockno") (formatInt n)
  | none => qb

structure PageRange where
  Page : Int
  Offset : Int
deriving DecidableEq, Repr

structure BlockRange where
  StartBlock : Option Int
  EndBlock : Option Int
deriving DecidableEq, Repr

/-- `TimeRange`; a `time.Time` is kept as its Unix time in seconds. -/
structure TimeRange where
  Start : Int
  End : Int
deriving DecidableEq, Repr

abbrev sortDirection := GoString

abbrev filterDirection := GoString

abbrev filterContract := GoString

/-- `queryBuilder.pageRange`. -/
def queryBuilder.pageRange (qb : queryBuilder) (pages : Option PageRange) : queryBuilder :=
  match pages with
  | some pg =>
    let qb := qb.set (str "page") (formatInt pg.Page)
    qb.set (str "offset") (formatInt pg.Offset)
  | none => qb

/-- `queryBuilder.sort`. -/
def queryBuilder.sort (qb : queryBuilder) (direction : Option sortDirection) : queryBuilder :=
  match direction with
  | some d => qb.set (str "sort") d
  | none => qb

/-- `queryBuilder.blockRange`. -/
def queryBuilder.blockRange (qb : queryBuilder) (block : Option BlockRange) : queryBuilder :=
  match block with
  | some b =>
    let qb := match b.StartBlock with
      | some n => qb.set (str "startblock") (formatInt n)
      | none => qb
    match b.EndBlock with
    | some n => qb.set (str "endblock") (formatInt n)
    | none => qb
  | none => qb

/-- `queryBuilder.filterByDirection`. -/
def queryBuilder.filterByDirection (qb : queryBuilder) (filter : Option filterDirection) :
    queryBuilder :=
  match filter with
  | some f => qb.set (str "filterby") f
  | none => qb

/-- `queryBuilder.filterContract`. -/
def queryBuilder.filterContract (qb : queryBuilder) (filter : Option filterContract) :
    queryBuilder :=
  match filter with
  | some f => qb.set (str "filter") f
  | none => qb

/-- `queryBuilder.notDecompiledWithVersion`. -/
def queryBuilder.notDecompiledWithVersion (qb : queryBuilder) (version : Option GoString) :
    queryBuilder :=
  qb.setIfExist (str "not_decompiled_with_version") version

/-- `queryBuilder.ignoreProxy`. -/
def queryBuilder.ignoreProxy (qb : queryBuilder) (ignore : Option Bool) : queryBuilder :=
  match ignore with
  | some ig =>
    let text := if ig then str "true" else str "false"
    qb.set (str "ignoreProxy") text
  | none => qb

/-- `queryBuilder.timeRange`. -/
def queryBuilder.timeRange (qb : queryBuilder) (timeRange : Option TimeRange) : queryBuilder :=
  match timeRange with
  | some tr =>
    let qb := qb.set (str "starttimestamp") (formatInt tr.Start)
    qb.set (str "endtimestamp") (formatInt tr.End)
  | none => qb

/-- `queryBuilder.index`. -/
def queryBuilder.index (qb : queryBuilder) (num : Option Int) : queryBuilder :=
  match num with
  | some n => qb.set (str "index") (formatInt n)
  | none => qb

/-- `RequestClient.jsonResponse`: the variable behind `respObject` after the call, and the
error returned. -/
def RequestClient.jsonResponse {α : Type} (r : RequestClient) (u : URL)
    (store : Json → α → α) (respObject : Iface α) : Iface α × error :=
  match r.http u with
  | HttpResult.failed err => (respObject, some err)
  | HttpResult.response _ (HttpBody.readError err) => (respObject, some err)
  | HttpResult.response _ (HttpBody.data body) =>
    let baseResp := (jsonUnmarshal storeBaseResponse body (Iface.pointer response.BaseResponse.zero)).get
    if baseResp.Status = str "1" then
      (jsonUnmarshal store baseResp.Result respObject, none)
    else
      (respObject, some baseResp.Message)

/-- `RequestClient.jsonResponseDiff`: the variables behind the two arguments after the
call, the success flag and the error. -/
def RequestClient.jsonResponseDiff {α β : Type} (r : RequestClient) (u : URL)
    (storeSuccess : Json → α → α) (storeFailure : Json → β → β)
    (respSuccess : Iface α) (respFailure : Iface β) : Iface α × Iface β × Bool × error :=
  match r.http u with
  | HttpResult.failed err => (respSuccess, respFailure, false, some err)
  | HttpResult.response _ (HttpBody.readError err) => (respSuccess, respFailure, false, some err)
  | HttpResult.response StatusCode (HttpBody.data body) =>
    if StatusCode ≥ 200 ∧ StatusCode < 300 then
      (jsonUnmarshal storeSuccess body respSuccess, respFailure, true, none)
    else
      (respSuccess, jsonUnmarshal storeFailure body respFailure, false, none)

/-- `RequestClient.EthGetBalance`.  `ethResult` and `ethError` are handed to
`jsonResponseDiff` as values, so the two local variables keep what they held. -/
def RequestClient.EthGetBalance (r : RequestClient) (address : GoString) (block : Option Int) :
    Option (GoString × error) := do
  let u ← buildUrl [r.base, ethGetBalanceUrl]
  let qb := newQueryBuilder u
  let qb := qb.address address
  let qb := qb.block block
  let ethResult : response.EthResult := { Result := [] }
  let ethError : response.EthError := { Error := [] }
  match r.jsonResponseDiff qb.url storeEthResult storeEthError
      (Iface.value ethResult) (Iface.value ethError) with
  | (_, _, _, some err) => pure ([], some err)
  | (_, _, ok, none) =>
    if !ok then pure ([], some ethError.Error)
    else pure (ethResult.Result, none)

/-- `RequestClient.EthBlockNumber`. -/
def RequestClient.EthBlockNumber (r : RequestClient) : Option (GoString × error) := do
  let u ← buildUrl [r.base, ethBlockNumberUrl]
  let ethResult : response.EthResult := { Result := [] }
  let ethError : response.EthError := { Error := [] }
  match r.jsonResponseDiff u storeEthResult storeEthError
      (Iface.value ethResult) (Iface.value ethError) with
  | (_, _, _, some err) => pure ([], some err)
  | (_, _, ok, none) =>
    if !ok then pure ([], some ethError.Error)
    else pure (ethResult.Result, none)

/-- `RequestClient.Balance`. -/
def RequestClient.Balance (r : RequestClient) (address : GoString) :
    Option (response.Balance × error) := do
  let u ← buildUrl [r.base, balanceUrl]
  let qb := newQueryBuilder u
  let qb := qb.address address
  let balance : response.Balance := []
  match r.jsonResponse qb.url storeString (Iface.pointer balance) with
  | (balance, err) => pure (balance.get, err)

/-- `RequestClient.TxList`. -/
def RequestClient.TxList (r : RequestClient) (address : GoString)
    (sort : Option sortDirection) (block : Option BlockRange) (page : Option PageRange)
    (filter : Option filterDirection) (timeRange : Option TimeRange) :
    Option (List response.TxList × error) := do
  let u ← buildUrl [r.base, txListUrl]
  let qb := newQueryBuilder u
  let qb := qb.address address
  let qb := qb.sort sort
  let qb := qb.blockRange block
  let qb := qb.pageRange page
  let qb := qb.filterByDirection filter
  let qb := qb.timeRange timeRange
  let txList : List response.TxList := []
  match r.jsonResponse qb.url (storeSlice response.TxList.zero storeTxList) (Iface.pointer txList) with
  | (txList, err) => pure (txList.get, err)

/-- `RequestClient.TokenTx`. -/
def RequestClient.TokenTx (r : RequestClient) (address : GoString)
    (contractAddress : Option GoString) (sort : Option sortDirection)
    (block : Option BlockRange) (page : Option PageRange) :
    Option (List response.TokenTx × error) := do
  let u ← buildUrl [r.base, tokenTxUrl]
  let qb := newQueryBuilder u
  let qb := qb.address address
  let qb := match contractAddress with
    | some a => qb.contractAddress a
    | none => qb
  let qb := qb.sort sort
  let qb := qb.blockRange block
  let qb := qb.pageRange page
  let tokenTx : List response.TokenTx := []
  match r.jsonResponse qb.url (storeSlice response.TokenTx.zero storeTokenTx) (Iface.pointer tokenTx) with
  | (tokenTx, err) => pure (tokenTx.get, err)

/-- `RequestClient.GetTxInfo`. -/
def RequestClient.GetTxInfo (r : RequestClient) (txhash : GoString) (index : Option Int) :
    Option (response.GetTxInfo × error) := do
  let u ← buildUrl [r.base, getTxInfoUrl]
  let qb := newQueryBuilder u
  let qb := qb.txHash txhash
  let qb := qb.index index
  let getTxInfo : response.GetTxInfo := response.GetTxInfo.zero
  match r.jsonResponse qb.url storeGetTxInfo (Iface.pointer getTxInfo) with
  | (getTxInfo, err) => pure (getTxInfo.get, err)

/-! ## `client.go`: the typed client -/

structure Client where
  req : RequestClient

/-- `Client.EthGetBalance`. -/
def Client.EthGetBalance (c : Client) (address : GoString) (block : Option Int) :
    Option (Option Int × error) := do
  match ← c.req.EthGetBalance address block with
  | (_, some err) => pure (none, some err)
  | (bal, none) =>
    let b := toBigInt (trim0x bal) 16
    pure (b, none)

/-- `Client.Balance`. -/
def Client.Balance (c : Client) (address : GoString) : Option (Option Int × error) := do
  match ← c.req.Balance address with
  | (_, some err) => pure (none, some err)
  | (bal, none) =>
    let b := toBigInt bal 10
    pure (b, none)

/-- `Transaction`; `Timestamp` is the Unix time in seconds. -/
structure Transaction where
  BlockHash : GoString
  BlockNumber : Option Int
  Confirmations : Option Int
  Contractaddress : GoString
  CumulativeGasUsed : Int
  Feecurrency : GoString
  From : GoString
  Gas : Int
  GasPrice : Option Int
  GasUsed : Int
  GatewayFee : Int
  GatewayFeeRecipient : GoString
  Hash : GoString
  Input : List Byte
  IsError : Bool
  Nonce : Int
  Timestamp : Int
  To : GoString
  TransactionIndex : Int
  TxReceiptStatus : Bool
  Value : Option Int
deriving DecidableEq, Repr

/-- The body of the loop of `Client.TxList`: the record built from one wire record. -/
def Client.TxList.convert (v : response.TxList) : Transaction :=
  { BlockHash := trim0x v.Blockhash
    BlockNumber := toBigInt v.Blocknumber 10
    Confirmations := toBigInt v.Confirmations 10
    Contractaddress := trim0x v.Contractaddress
    CumulativeGasUsed := (Atoi v.Cumulativegasused).1
    Feecurrency := v.Feecurrency
    From := trim0x v.From
    Gas := (Atoi v.Gas).1
    GasPrice := toBigInt v.Gasprice 10
    GasUsed := (Atoi v.Gasused).1
    GatewayFee := (Atoi v.Gatewayfee).1
    GatewayFeeRecipient := trim0x v.Gatewayfeerecipient
    Hash := trim0x v.Hash
    Input := hexToByte (trim0x v.Input)
    IsError := if v.Iserror = str "0" then false else true
    Nonce := (Atoi v.Nonce).1
    Timestamp := (ParseInt v.Timestamp 10 64).1
    To := trim0x v.To
    TransactionIndex := (Atoi v.Transactionindex).1
    TxReceiptStatus := if v.TxreceiptStatus = str "1" then true else false
    Value := toBigInt v.Value 10 }

/-- The machine-integer fields of a `Transaction`, each with the wire string it is
derived from. -/
def Client.TxList.intFields (v : response.TxList) (t : Transaction) : List (GoString × Int) :=
  [(v.Cumulativegasused, t.CumulativeGasUsed), (v.Gas, t.Gas), (v.Gasused, t.GasUsed),
   (v.Gatewayfee, t.GatewayFee), (v.Nonce, t.Nonce), (v.Transactionindex, t.TransactionIndex)]

/-- `Client.TxList`. -/
def Client.TxList (c : Client) (address : GoString) (sort : Option sortDirection)
    (block : Option BlockRange) (page : Option PageRange) (filter : Option filterDirection)
    (timeRange : Option TimeRange) : Option (List Transaction × error) := do
  match ← c.req.TxList address sort block page filter timeRange with
  | (_, some err) => pure ([], some err)
  | (txList, none) =>
    let transactions := txList.map Client.TxList.convert
    pure (transactions, none)

/-- `TokenTransfer`. -/
structure TokenTransfer where
  Value : Option Int
  BlockHash : GoString
  BlockNumber : Option Int
  Confirmations : Option Int
  ContractAddress : GoString
  CumulativeGasUsed : Int
  From : GoString
  To : GoString
  Gas : Int
  Gasprice : Option Int
  Gasused : Int
  Hash : GoString
  Input : List Byte
  LogIndex : Int
  Nonce : Int
  Timestamp : Int
  TokenDecimal : Int
  TokenName : GoString
  TokenSymbol : GoString
  TransactionIndex : Int
deriving DecidableEq, Repr

/-- The body of the loop of `Client.TokenTx`. -/
def Client.TokenTx.convert (v : response.TokenTx) : TokenTransfer :=
  { Value := toBigInt v.Value 10
    BlockHash := trim0x v.Blockhash
    BlockNumber := toBigInt v.Blocknumber 10
    Confirmations := toBigInt v.Confirmations 10
    ContractAddress := trim0x v.Contractaddress
    CumulativeGasUsed := (Atoi v.Cumulativegasused).1
    From := trim0x v.From
    To := trim0x v.To
    Gas := (Atoi v.Gas).1
    Gasprice := toBigInt v.Gasprice 10
    Gasused := (Atoi v.Gasused).1
    Hash := trim0x v.Hash
    Input := hexToByte (trim0x v.Input)
    LogIndex := (Atoi v.Logindex).1
    Nonce := (Atoi v.Nonce).1
    Timestamp := (ParseInt v.Timestamp 10 64).1
    TokenDecimal := (Atoi v.Tokendecimal).1
    TokenName := v.Tokenname
    TokenSymbol := v.Tokensymbol
    TransactionIndex := (Atoi v.Transactionindex).1 }

/-- The machine-integer fields of a `TokenTransfer`, each with the wire string it is
derived from. -/
def Client.TokenTx.intFields (v : response.TokenTx) (t : TokenTransfer) :
    List (GoString × Int) :=
  [(v.Cumulativegasused, t.CumulativeGasUsed), (v.Gas, t.Gas), (v.Gasused, t.Gasused),
   (v.Logindex, t.LogIndex), (v.Nonce, t.Nonce), (v.Tokendecimal, t.TokenDecimal),
   (v.Transactionindex, t.TransactionIndex)]

/-- `Client.TokenTx`. -/
def Client.TokenTx (c : Client) (address : GoString) (contractAddress : Option GoString)
    (sort : Option sortDirection) (block : Option BlockRange) (page : Option PageRange) :
    Option (List TokenTransfer × error) := do
  match ← c.req.TokenTx address contractAddress sort block page with
  | (_, some err) => pure ([], some err)
  | (tokensList, none) =>
    let tokens := tokensList.map Client.TokenTx.convert
    pure (tokens, none)

structure TxLog where
  Address : GoString
  Data : List Byte
  Index : Int
  Topics : List GoString
deriving DecidableEq, Repr

structure TransactionWithLogs where
  BlockNumber : Option Int
  Confirmations : Option Int
  Feecurrency : GoString
  From : GoString
  GasLimit : Option Int
  GasPrice : Option Int
  GasUsed : Int
  GatewayFee : Option Int
  GatewayFeeRecipient : GoString
  Hash : GoString
  Input : List Byte
  Logs : List TxLog
  RevertReason : GoString
  Success : Bool
  Timestamp : Int
  To : GoString
  Value : Option Int
deriving DecidableEq, Repr

/-- The zero value `TransactionWithLogs{}`; the Unix time of the zero `time.Time`
(January 1, year 1, 00:00 UTC) is -62135596800. -/
def TransactionWithLogs.zero : TransactionWithLogs :=
  ⟨none, none, [], [], none, none, 0, none, [], [], [], [], [], false, -62135596800, [],
    none⟩

/-- The body of the loop over `txInfo.Logs` in `Client.GetTxInfo`. -/
def Client.GetTxInfo.convertLog (v : response.GetTxInfoLog) : TxLog :=
  let index := (Atoi v.Index).1
  let array := v.Topics.map trim0x
  { Address := trim0x v.Address
    Data := trim0x v.Data
    Index := index
    Topics := array }

/-- `Client.GetTxInfo`. -/
def Client.GetTxInfo (c : Client) (txHash : GoString) :
    Option (TransactionWithLogs × error) := do
  match ← c.req.GetTxInfo txHash none with
  | (_, some err) => pure (TransactionWithLogs.zero, some err)
  | (txInfo, none) =>
    let gasUsed := (Atoi txInfo.Gasused).1
    let iTime := (ParseInt (trim0x txInfo.Timestamp) 10 64).1
    let timestamp := iTime
    let logs := txInfo.Logs.map Client.GetTxInfo.convertLog
    pure ({ BlockNumber := toBigInt txInfo.Blocknumber 10
            Confirmations := toBigInt txInfo.Confirmations 10
            Feecurrency := trim0x txInfo.Feecurrency
            From := trim0x txInfo.From
            GasLimit := toBigInt txInfo.Gaslimit 10
            GasPrice := toBigInt txInfo.Gasused 10
            GasUsed := gasUsed
            GatewayFee := toBigInt txInfo.Gatewayfee 10
            GatewayFeeRecipient := trim0x txInfo.Gatewayfeerecipient
            Hash := trim0x txInfo.Hash
            Input := trim0x txInfo.Input
            Logs := logs
            RevertReason := txInfo.Revertreason
            Success := txInfo.Success
            Timestamp := timestamp
            To := trim0x txInfo.To
            Value := toBigInt txInfo.Value 10 }, none)

/-! ## Further wire records, endpoints and client methods -/

structure response.GetTxReceiptStatus where
  Status : GoString
deriving DecidableEq, Repr

structure response.GetStatus where
  Errdescription : GoString
  Iserror : GoString
deriving DecidableEq, Repr

/-- `GetBlockReward`; the two `interface{}` fields hold whatever value was decoded
(`none` is nil). -/
structure response.GetBlockReward where
  Blockminer : GoString
  Blocknumber : GoString
  Blockreward : GoString
  Timestamp : GoString
  Uncleinclusionreward : Option Json
  Uncles : Option Json

structure response.GetLogs where
  Address : GoString
  Blocknumber : GoString
  Data : GoString
  Feecurrency : GoString
  Gasprice : GoString
  Gasused : GoString
  Gatewayfee : GoString
  Gatewayfeerecipient : GoString
  Logindex : GoString
  Timestamp : GoString
  Topics : List GoString
  Transactionhash : GoString
  Transactionindex : GoString
deriving DecidableEq, Repr

def response.GetBlockReward.zero : response.GetBlockReward :=
  ⟨[], [], [], [], none, none⟩

def response.GetLogs.zero : response.GetLogs :=
  ⟨[], [], [], [], [], [], [], [], [], [], [], [], []⟩

def storeGetTxReceiptStatus (doc : Json) (v : response.GetTxReceiptStatus) :
    response.GetTxReceiptStatus :=
  { Status := field storeString "status" doc.members v.Status }

def storeGetStatus (doc : Json) (v : response.GetStatus) : response.GetStatus :=
  let ms := doc.members
  { Errdescription := field storeString "errDescription" ms v.Errdescription
    Iserror := field storeString "isError" ms v.Iserror }

/-- Decoding into an `interface{}`: `null` gives nil, any other value is kept. -/
def storeAny (doc : Json) (_cur : Option Json) : Option Json :=
  match doc with
  | Json.null => none
  | d => some d

def storeGetBlockReward (doc : Json) (v : response.GetBlockReward) : response.GetBlockReward :=
  let ms := doc.members
  { Blockminer := field storeString "blockMiner" ms v.Blockminer
    Blocknumber := field storeString "blockNumber" ms v.Blocknumber
    Blockreward := field storeString "blockReward" ms v.Blockreward
    Timestamp := field storeString "timeStamp" ms v.Timestamp
    Uncleinclusionreward := field storeAny "uncleInclusionReward" ms v.Uncleinclusionreward
    Uncles := field storeAny "uncles" ms v.Uncles }

def storeGetLogs (doc : Json) (v : response.GetLogs) : response.GetLogs :=
  let ms := doc.members
  { Address := field storeString "address" ms v.Address
    Blocknumber := field storeString "blockNumber" ms v.Blocknumber
    Data := field storeString "data" ms v.Data
    Feecurrency := field storeString "feeCurrency" ms v.Feecurrency
    Gasprice := field storeString "gasPrice" ms v.Gasprice
    Gasused := field storeString "gasUsed" ms v.Gasused
    Gatewayfee := field storeString "gatewayFee" ms v.Gatewayfee
    Gatewayfeerecipient := field storeString "gatewayFeeRecipient" ms v.Gatewayfeerecipient
    Logindex := field storeString "logIndex" ms v.Logindex
    Timestamp := field storeString "timeStamp" ms v.Timestamp
    Topics := field (storeSlice [] storeString) "topics" ms v.Topics
    Transactionhash := field storeString "transactionHash" ms v.Transactionhash
    Transactionindex := field storeString "transactionIndex" ms v.Transactionindex }

def getBlockRewardUrl : GoString :=
  str "?module=block&action=getblockreward&blockno={blockNumber}"

def getTxReceiptStatusUrl : GoString :=
  str "?module=transaction&action=gettxreceiptstatus&txhash={transactionHash}"

def getStatusUrl : GoString :=
  str "?module=transaction&action=getstatus&txhash={transactionHash}"

/-- `(*big.Int).String`: "<nil>" for a nil pointer, else the decimal numeral. -/
def bigString (x : Option Int) : GoString :=
  match x with
  | none => str "<nil>"
  | some n => formatInt n

structure BlockRangeAdv where
  FromBlock : Option Int
  ToBlock : Option Int
  ToLatest : Bool
deriving DecidableEq, Repr

/-- `queryBuilder.blockRangeAdv`. -/
def queryBuilder.blockRangeAdv (qb : queryBuilder) (block : BlockRangeAdv) : queryBuilder :=
  let qb := qb.set (str "fromBlock") (bigString block.FromBlock)
  if block.ToLatest then
    qb.set (str "toBlock") (str "latest")
  else
    qb.set (str "toBlock") (bigString block.ToBlock)

/-- The URL `RequestClient.GetBlockReward` requests. -/
def RequestClient.GetBlockReward.url (r : RequestClient) (blockNumber : Option Int) :
    Option URL := do
  let u ← buildUrl [r.base, getBlockRewardUrl]
  let qb := newQueryBuilder u
  let qb := qb.blockNo blockNumber
  pure qb.url

/-- `RequestClient.GetBlockReward`. -/
def RequestClient.GetBlockReward (r : RequestClient) (blockNumber : Option Int) :
    Option (response.GetBlockReward × error) := do
  let u ← RequestClient.GetBlockReward.url r blockNumber
  let getBlockReward : response.GetBlockReward := response.GetBlockReward.zero
  match r.jsonResponse u storeGetBlockReward (Iface.pointer getBlockReward) with
  | (getBlockReward, err) => pure (getBlockReward.get, err)

/-- `RequestClient.GetLogs`; the panic of `topics` on a nil operator is `none`. -/
def RequestClient.GetLogs (r : RequestClient) (block : BlockRangeAdv)
    (contractAddress : GoString) (topics : Topics) :
    Option (List response.GetLogs × error) := do
  let u ← buildUrl [r.base, getLogsUrl]
  let qb := newQueryBuilder u
  let qb := qb.blockRangeAdv block
  let qb := qb.address contractAddress
  let qb ← qb.topics topics
  let getLogs : List response.GetLogs := []
  match r.jsonResponse qb.url (storeSlice response.GetLogs.zero storeGetLogs)
      (Iface.pointer getLogs) with
  | (getLogs, err) => pure (getLogs.get, err)

/-- `RequestClient.GetTxReceiptStatus`. -/
def RequestClient.GetTxReceiptStatus (r : RequestClient) (txhash : GoString) :
    Option (response.GetTxReceiptStatus × error) := do
  let u ← buildUrl [r.base, getTxReceiptStatusUrl]
  let qb := newQueryBuilder u
  let qb := qb.txHash txhash
  let getTxReceiptStatus : response.GetTxReceiptStatus := { Status := [] }
  match r.jsonResponse qb.url storeGetTxReceiptStatus (Iface.pointer getTxReceiptStatus) with
  | (getTxReceiptStatus, err) => pure (getTxReceiptStatus.get, err)

/-- `RequestClient.GetStatus`. -/
def RequestClient.GetStatus (r : RequestClient) (txhash : GoString) :
    Option (response.GetStatus × error) := do
  let u ← buildUrl [r.base, getStatusUrl]
  let qb := newQueryBuilder u
  let qb := qb.txHash txhash
  let getStatus : response.GetStatus := { Errdescription := [], Iserror := [] }
  match r.jsonResponse qb.url storeGetStatus (Iface.pointer getStatus) with
  | (getStatus, err) => pure (getStatus.get, err)

structure ContractInfo where
  AddressHash : GoString
  Name : GoString
  CompilerVersion : GoString
  Optimization : Bool
  ContractSourceCode : GoString
  ConstructorArguments : Option GoString
  AutodetectConstructorArguments : Option Bool
  EvmVersion : Option GoString
  OptimizationRuns : Option Int
  ProxyAddress : Option GoString
  Library1Name : Option GoString
  Library1Address : Option GoString
  Library2Name : Option GoString
  Library2Address : Option GoString
  Library3Name : Option GoString
  Library3Address : Option GoString
  Library4Name : Option GoString
  Library4Address : Option GoString
  Library5Name : Option GoString
  Library5Address : Option GoString
deriving DecidableEq, Repr

/-- `queryBuilder.verify`. -/
def queryBuilder.verify (qb : queryBuilder) (contract : ContractInfo) : queryBuilder :=
  let qb := qb.set (str "addressHash") (add0x contract.AddressHash)
  let qb := qb.set (str "name") contract.Name
  let qb := qb.set (str "compilerVersion") contract.CompilerVersion
  let qb :=
    if contract.Optimization then qb.set (str "optimization") (str "true")
    else qb.set (str "optimization") (str "false")
  let qb := qb.set (str "contractSourceCode") contract.ContractSourceCode
  let qb := qb.setIfExist (str "constructorArguments") contract.ConstructorArguments
  let qb :=
    match contract.AutodetectConstructorArguments with
    | some auto =>
      if auto then qb.set (str "autoDetectConstructorArguments") (str "true")
      else qb.set (str "autoDetectConstructorArguments") (str "false")
    | none => qb
  let qb := qb.setIfExist (str "evmVersion") contract.EvmVersion
  let qb :=
    match contract.OptimizationRuns with
    | some runs => qb.set (str "optimizationRuns") (formatInt runs)
    | none => qb
  let qb := qb.setIfExist (str "proxyAddress") contract.ProxyAddress
  let qb := qb.setIfExist (str "library1Name") contract.Library1Name
  let qb := qb.setIfExist (str "library2Name") contract.Library2Name
  let qb := qb.setIfExist (str "library3Name") contract.Library3Name
  let qb := qb.setIfExist (str "library4Name") contract.Library4Name
  let qb := qb.setIfExist (str "library5Name") contract.Library5Name
  let qb :=
    match contract.Library1Address with
    | some a => qb.set (str "library1Address") (add0x a)
    | none => qb
  let qb :=
    match contract.Library2Address with
    | some a => qb.set (str "library2Address") (add0x a)
    | none => qb
  let qb :=
    match contract.Library3Address with
    | some a => qb.set (str "library3Address") (add0x a)
    | none => qb
  let qb :=
    match contract.Library4Address with
    | some a => qb.set (str "library4Address") (add0x a)
    | none => qb
  let qb :=
    match contract.Library5Address with
    | some a => qb.set (str "library5Address") (add0x a)
    | none => qb
  qb

/-- The pointer `Library{i}Name`, `i` in 1..5. -/
def ContractInfo.libraryName (c : ContractInfo) (i : Nat) : Option GoString :=
  match i with
  | 1 => c.Library1Name
  | 2 => c.Library2Name
  | 3 => c.Library3Name
  | 4 => c.Library4Name
  | 5 => c.Library5Name
  | _ => none

/-- The pointer `Library{i}Address`, `i` in 1..5. -/
def ContractInfo.libraryAddress (c : ContractInfo) (i : Nat) : Option GoString :=
  match i with
  | 1 => c.Library1Address
  | 2 => c.Library2Address
  | 3 => c.Library3Address
  | 4 => c.Library4Address
  | 5 => c.Library5Address
  | _ => none

/-- The key `library{i}Name`. -/
def libraryNameKey (i : Nat) : GoString :=
  str "library" ++ [digitByte i] ++ str "Name"

/-- The key `library{i}Address`. -/
def libraryAddressKey (i : Nat) : GoString :=
  str "library" ++ [digitByte i] ++ str "Address"

structure EventLog where
  Address : GoString
  BlockNumber : Option Int
  Data : GoString
  FeeCurrency : GoString
  GasPrice : Option Int
  GasUsed : Int
  GatewayFee : Option Int
  GatewayfeeRecipient : GoString
  LogIndex : Int
  Timestamp : Int
  Topics : List GoString
  TransactionHash : GoString
  TransactionIndex : Int
deriving DecidableEq, Repr

/-- The body of the loop of `Client.GetLogs`. -/
def Client.GetLogs.convert (v : response.GetLogs) : EventLog :=
  let gasUsed := (ParseInt (trim0x v.Gasused) 16 64).1
  let lIndex := (ParseInt (trim0x v.Logindex) 16 64).1
  let iTime := (ParseInt (trim0x v.Timestamp) 16 64).1
  let array := v.Topics.map trim0x
  let tIndex := (ParseInt (trim0x v.Transactionindex) 16 64).1
  { Address := trim0x v.Address
    BlockNumber := toBigInt (trim0x v.Blocknumber) 16
    Data := trim0x v.Data
    FeeCurrency := trim0x v.Feecurrency
    GasPrice := toBigInt (trim0x v.Gasprice) 16
    GasUsed := gasUsed
    GatewayFee := toBigInt v.Gatewayfee 10
    GatewayfeeRecipient := trim0x v.Gatewayfeerecipient
    LogIndex := lIndex
    Timestamp := iTime
    Topics := array
    TransactionHash := trim0x v.Transactionhash
    TransactionIndex := tIndex }

/-- `Client.GetLogs`. -/
def Client.GetLogs (c : Client) (block : BlockRangeAdv) (contractAddress : GoString)
    (topics : Topics) : Option (List EventLog × error) := do
  match ← c.req.GetLogs block contractAddress topics with
  | (_, some err) => pure ([], some err)
  | (logList, none) =>
    let logs := logList.map Client.GetLogs.convert
    pure (logs, none)

/-- `Client.GetTxReceiptStatus`. -/
def Client.GetTxReceiptStatus (c : Client) (txHash : GoString) : Option (Bool × error) := do
  match ← c.req.GetTxReceiptStatus txHash with
  | (_, some err) => pure (false, some err)
  | (status, none) =>
    if status.Status = str "1" then pure (true, none)
    else pure (false, none)

/-- `Client.GetStatus`. -/
def Client.GetStatus (c : Client) (txHash : GoString) :
    Option (Bool × GoString × error) := do
  match ← c.req.GetStatus txHash with
  | (_, some err) => pure (false, [], some err)
  | (status, none) =>
    if status.Iserror = str "0" then pure (true, status.Errdescription, none)
    else pure (false, status.Errdescription, none)

/-- One leading "0x" removed when present, the string unchanged otherwise: the
normalisation of a topic hash in the words of the specification. -/
def stripOne0x (s : GoString) : GoString :=
  match s with
  | 48 :: 120 :: rest => rest
  | _ => s

/-- The byte a pair of hex digits denotes. -/
def hexPairValue (p q : Byte) : Byte :=
  ⟨(bigDigit p * 16 + bigDigit q) % 256, Nat.mod_lt _ (by norm_num)⟩

/-- A hex digit `0`..`9`, `a`..`f`, `A`..`F`. -/
def isHexDigit (c : Byte) : Bool :=
  isBaseDigit 16 c

/-- The bytes denoted by the leading pairs of hex digits of `s`, up to the first pair
that is not two hex digits or to the odd last byte. -/
def decodedPairs : GoString → List Byte
  | p :: q :: rest =>
    if isHexDigit p && isHexDigit q then hexPairValue p q :: decodedPairs rest else []
  | _ => []

/-- A valid hex encoding: an even number of bytes, all hex digits. -/
def validHex (s : GoString) : Prop :=
  s.length % 2 = 0 ∧ s.all isHexDigit = true

instance (s : GoString) : Decidable (validHex s) := by
  unfold validHex; infer_instance

/-- The text "0x"+a1 + "," + ... + "," + "0x"+an for the addresses a1, ..., an, in the
words of the specification. -/
def prefixedJoined (address : List GoString) : GoString :=
  (str ",").intercalate (address.map (fun a => str "0x" ++ a))

/-! ### Hexadecimal numerals, in the words of the specification -/

/-- The value of a hex digit: `0`..`9`, `a`..`f` or `A`..`F`. -/
def hexDigitValue (c : Byte) : Nat :=
  if 48 ≤ c ∧ c ≤ 57 then c.val - 48
  else if 97 ≤ c ∧ c ≤ 102 then c.val - 87
  else if 65 ≤ c ∧ c ≤ 70 then c.val - 55
  else 0

/-- The number a run of hex digits denotes. -/
def hexValue (h : GoString) : Nat :=
  h.foldl (fun a c => a * 16 + hexDigitValue c) 0

/-- A hexadecimal representation: at least one digit, hex digits only, of either case. -/
def isHexNumeral (h : GoString) : Prop :=
  h ≠ [] ∧ h.all isHexDigit = true

instance (h : GoString) : Decidable (isHexNumeral h) := by
  unfold isHexNumeral; infer_instance

/-- The hex digit of the value `d`, in upper or in lower case. -/
def hexDigitByte (upper : Bool) (d : Nat) : Byte :=
  Fin.ofNat (if d < 10 then 48 + d else if upper then 55 + d else 87 + d)

/-- The hex digits of `n`, most significant first, written in front of `acc`; `fuel`
bounds the number of digits. -/
def hexAux (upper : Bool) : Nat → Nat → GoString → GoString
  | 0, _, acc => acc
  | fuel + 1, n, acc =>
    if n < 16 then hexDigitByte upper n :: acc
    else hexAux upper fuel (n / 16) (hexDigitByte upper (n % 16) :: acc)

/-- The hexadecimal numeral of a natural number without leading zeros, with upper or
lower case digits. -/
def formatHex (upper : Bool) (n : Nat) : GoString :=
  hexAux upper (n + 1) n []

/-! ### The wire fields of a JSON object, in the words of the specification -/

/-- The text a JSON object carries on the wire under a field name: the text of the last
member of that name whose value is a JSON string, the empty string when there is none.
Names are compared as the decoder compares them. -/
def wireString (name : String) (ms : List (GoString × Json)) : GoString :=
  match ms.reverse.find? (fun kv => fieldMatch (str name) kv.1 && kv.2.string?.isSome) with
  | some kv => kv.2.string?.getD []
  | none => []

/-- The texts of a list of JSON strings, `none` when an element is no string. -/
def Json.strings? : List Json → Option (List GoString)
  | [] => some []
  | Json.string s :: rest => (Json.strings? rest).map (fun ts => s :: ts)
  | _ :: _ => none

/-- The array a JSON object carries on the wire under a field name, for an object in which
at most one member has that name: the elements of the member's array, and no element when
the member is absent or `null`.  `none` for any other object. -/
def wireArray (name : String) (ms : List (GoString × Json)) : Option (List Json) :=
  match ms.filter (fun kv => fieldMatch (str name) kv.1) with
  | [] => some []
  | [(_, Json.array elems)] => some elems
  | [(_, Json.null)] => some []
  | _ => none

/-- The list of strings a JSON object carries on the wire under a field name: the texts of
the elements of its array when all of them are JSON strings. -/
def wireStringList (name : String) (ms : List (GoString × Json)) : Option (List GoString) :=
  (wireArray name ms).bind Json.strings?

/-! # Properties

## Bytes and the order of strings -/

theorem str_0x : str "0x" = [48, 120] := by decide

set_option maxRecDepth 1000000 in
theorem escape_byte_unescape : ∀ c : Byte, shouldEscape c = true →
    (ishex (upperhex (c >>> 4)) && ishex (upperhex (c &&& 15))) = true ∧
    ((unhex (upperhex (c >>> 4)) <<< 4) ||| unhex (upperhex (c &&& 15))) = c := by
  decide

set_option maxRecDepth 1000000 in
theorem upperhex_plain : ∀ c : Byte,
    upperhex c ≠ 38 ∧ upperhex c ≠ 61 ∧ upperhex c ≠ 59 := by
  decide

set_option maxRecDepth 1000000 in
theorem unescaped_byte_plain : ∀ c : Byte, shouldEscape c = false →
    c ≠ 37 ∧ c ≠ 43 ∧ c ≠ 38 ∧ c ≠ 61 ∧ c ≠ 59 ∧ c ≠ 32 := by
  decide

theorem strLt_irrefl (a : GoString) : strLt a a = false := by
  induction a with
  | nil => rfl
  | cons x xs ih => simp [strLt, ih]

theorem strLt_trans : ∀ (a b c : GoString), strLt a b = true → strLt b c = true →
    strLt a c = true := by
  intro a
  induction a with
  | nil =>
    intro b c hab hbc
    cases b with
    | nil => simp [strLt] at hab
    | cons y ys =>
      cases c with
      | nil => simp [strLt] at hbc
      | cons z zs => simp [strLt]
  | cons x xs ih =>
    intro b c hab hbc
    cases b with
    | nil => simp [strLt] at hab
    | cons y ys =>
      cases c with
      | nil => simp [strLt] at hbc
      | cons z zs =>
        simp only [strLt] at hab hbc ⊢
        rcases lt_trichotomy x y with hxy | hxy | hxy
        · rcases lt_trichotomy y z with hyz | hyz | hyz
          · simp [lt_trans hxy hyz]
          · subst hyz; simp [hxy]
          · simp [hyz, not_lt_of_lt hyz] at hbc
        · subst hxy
          rcases lt_trichotomy x z with hyz | hyz | hyz
          · simp [hyz]
          · subst hyz
            simp only [lt_irrefl, if_false] at hab hbc ⊢
            exact ih _ _ hab hbc
          · simp [hyz, not_lt_of_lt hyz] at hbc
        · simp [hxy, not_lt_of_lt hxy] at hab

theorem strLt_connex : ∀ (a b : GoString), strLt a b = false → a ≠ b → strLt b a = true := by
  intro a
  induction a with
  | nil =>
    intro b h hne
    cases b with
    | nil => exact absurd rfl hne
    | cons y ys => simp [strLt] at h
  | cons x xs ih =>
    intro b h hne
    cases b with
    | nil => simp [strLt]
    | cons y ys =>
      simp only [strLt] at h ⊢
      rcases lt_trichotomy x y with hxy | hxy | hxy
      · simp [hxy] at h
      · subst hxy
        simp only [lt_irrefl, if_false] at h ⊢
        exact ih ys h (fun e => hne (by rw [e]))
      · simp [hxy]

/-! ## Escaping and splitting -/

theorem QueryUnescape_cons_other (c : Byte) (rest : GoString) (h1 : c ≠ 37) :
    QueryUnescape (c :: rest) =
      (QueryUnescape rest).map (fun t => (if c = 43 then 32 else c) :: t) := by
  rcases rest with _ | ⟨a, _ | ⟨b, rest2⟩⟩ <;>
    by_cases h2 : c = 43 <;> simp [QueryUnescape, h1, h2]

theorem QueryUnescape_cons_pct (a b : Byte) (rest : GoString)
    (h : (ishex a && ishex b) = true) :
    QueryUnescape (37 :: a :: b :: rest) =
      (QueryUnescape rest).map (fun t => ((unhex a <<< 4) ||| unhex b) :: t) := by
  rw [QueryUnescape]
  simp only [if_true]
  rw [if_pos h]

theorem QueryUnescape_QueryEscape (s : GoString) : QueryUnescape (QueryEscape s) = some s := by
  induction s with
  | nil => rfl
  | cons c cs ih =>
    by_cases h32 : c = 32
    · subst h32
      have e : QueryEscape (32 :: cs) = 43 :: QueryEscape cs := by simp [QueryEscape]
      rw [e, QueryUnescape_cons_other _ _ (by decide), ih]
      rfl
    · by_cases hesc : shouldEscape c = true
      · have h := escape_byte_unescape c hesc
        have e : QueryEscape (c :: cs) =
            37 :: upperhex (c >>> 4) :: upperhex (c &&& 15) :: QueryEscape cs := by
          simp [QueryEscape, h32, hesc]
        rw [e, QueryUnescape_cons_pct _ _ _ h.1, ih, h.2]
        rfl
      · have hesc2 : shouldEscape c = false := by simpa using hesc
        have h := unescaped_byte_plain c hesc2
        have e : QueryEscape (c :: cs) = c :: QueryEscape cs := by
          simp [QueryEscape, h32, hesc2]
        rw [e, QueryUnescape_cons_other _ _ h.1, ih, if_neg h.2.1]
        rfl

theorem QueryEscape_plain (s : GoString) :
    ∀ c ∈ QueryEscape s, c ≠ 38 ∧ c ≠ 61 ∧ c ≠ 59 := by
  induction s with
  | nil => intro c hc; simp [QueryEscape] at hc
  | cons x xs ih =>
    intro c hc
    by_cases h32 : x = 32
    · subst h32
      have e : QueryEscape (32 :: xs) = 43 :: QueryEscape xs := by simp [QueryEscape]
      rw [e, List.mem_cons] at hc
      rcases hc with hc | hc
      · subst hc; decide
      · exact ih c hc
    · by_cases hesc : shouldEscape x = true
      · have e : QueryEscape (x :: xs) =
            37 :: upperhex (x >>> 4) :: upperhex (x &&& 15) :: QueryEscape xs := by
          simp [QueryEscape, h32, hesc]
        rw [e] at hc
        simp only [List.mem_cons] at hc
        rcases hc with hc | hc | hc | hc
        · subst hc; decide
        · subst hc; exact upperhex_plain _
        · subst hc; exact upperhex_plain _
        · exact ih c hc
      · have hesc2 : shouldEscape x = false := by simpa using hesc
        have h := unescaped_byte_plain x hesc2
        have e : QueryEscape (x :: xs) = x :: QueryEscape xs := by
          simp [QueryEscape, h32, hesc2]
        rw [e, List.mem_cons] at hc
        rcases hc with hc | hc
        · subst hc; exact ⟨h.2.2.1, h.2.2.2.1, h.2.2.2.2.1⟩
        · exact ih c hc

theorem Cut_append (sep : Byte) (a b : GoString) (h : sep ∉ a) :
    Cut sep (a ++ sep :: b) = (a, b) := by
  induction a with
  | nil => simp [Cut]
  | cons x xs ih =>
    have hx : x ≠ sep := fun e => h (by simp [e])
    have hxs : sep ∉ xs := fun e => h (by simp [e])
    simp [Cut, hx, ih hxs]

theorem splitOn_ne_nil (sep : Byte) (s : GoString) : splitOn sep s ≠ [] := by
  induction s with
  | nil => simp [splitOn]
  | cons x xs ih =>
    by_cases hx : x = sep
    · simp [splitOn, hx]
    · simp only [splitOn, hx, if_false]
      split <;> simp

theorem splitOn_absent (sep : Byte) (s : GoString) (h : sep ∉ s) : splitOn sep s = [s] := by
  induction s with
  | nil => simp [splitOn]
  | cons x xs ih =>
    have hx : x ≠ sep := fun e => h (by simp [e])
    have hxs : sep ∉ xs := fun e => h (by simp [e])
    simp [splitOn, hx, ih hxs]

theorem splitOn_append (sep : Byte) (a b : GoString) (h : sep ∉ a) :
    splitOn sep (a ++ sep :: b) = a :: splitOn sep b := by
  induction a with
  | nil => simp [splitOn]
  | cons x xs ih =>
    have hx : x ≠ sep := fun e => h (by simp [e])
    have hxs : sep ∉ xs := fun e => h (by simp [e])
    simp [splitOn, hx, ih hxs]

/-! ## `Values`: `ParseQuery` reads back what `Encode` writes -/

theorem Values.Add_append (acc t : Values) (k x : GoString)
    (h : ∀ kv ∈ acc, strLt kv.1 k = true) :
    Values.Add (acc ++ t) k x = acc ++ Values.Add t k x := by
  induction acc with
  | nil => rfl
  | cons a rest ih =>
    obtain ⟨k0, vs⟩ := a
    have h0 : strLt k0 k = true := h (k0, vs) (by simp)
    have hne : k ≠ k0 := by
      intro e
      rw [e, strLt_irrefl] at h0
      exact absurd h0 (by simp)
    have hnlt : strLt k k0 = false := by
      cases hlt : strLt k k0 with
      | false => rfl
      | true =>
        have := strLt_trans _ _ _ h0 hlt
        rw [strLt_irrefl] at this
        exact absurd this (by simp)
    have ih2 := ih (fun kv hkv => h kv (by simp [hkv]))
    simp only [List.cons_append, Values.Add, hne, if_false, hnlt]
    simp only [Bool.false_eq_true, if_false, List.cons.injEq, true_and]
    exact ih2

theorem Values.Add_same (k : GoString) (l : List GoString) (x : GoString) :
    Values.Add [(k, l)] k x = [(k, l ++ [x])] := by
  simp [Values.Add]

theorem Values.foldl_Add_group (acc : Values) (k : GoString) (vs l : List GoString)
    (h : ∀ kv ∈ acc, strLt kv.1 k = true) :
    (vs.map (fun x => (k, x))).foldl (fun m p => Values.Add m p.1 p.2) (acc ++ [(k, l)]) =
      acc ++ [(k, l ++ vs)] := by
  induction vs generalizing l with
  | nil => simp
  | cons x xs ih =>
    simp only [List.map_cons, List.foldl_cons]
    rw [Values.Add_append acc _ k x h, Values.Add_same, ih]
    simp

theorem Values.foldl_Add_pairs (v : Values) :
    ∀ acc : Values, (acc ++ v).Pairwise (fun a b => strLt a.1 b.1 = true) →
      (∀ kv ∈ v, kv.2 ≠ []) →
      v.pairs.foldl (fun m p => Values.Add m p.1 p.2) acc = acc ++ v := by
  induction v with
  | nil => intro acc _ _; simp [Values.pairs]
  | cons a rest ih =>
    intro acc hp hne
    obtain ⟨k, vs⟩ := a
    have hacc : ∀ kv ∈ acc, strLt kv.1 k = true := by
      intro kv hkv
      have := List.pairwise_append.mp hp
      exact this.2.2 kv hkv (k, vs) (by simp)
    cases vs with
    | nil => exact absurd rfl (hne (k, []) (by simp))
    | cons x xs =>
      have e : Values.pairs ((k, x :: xs) :: rest) =
          (k, x) :: ((xs.map (fun y => (k, y))) ++ Values.pairs rest) := by
        simp [Values.pairs]
      rw [e, List.foldl_cons, List.foldl_append]
      have e1 : Values.Add acc k x = acc ++ [(k, [x])] := by
        have := Values.Add_append acc [] k x hacc
        simpa [Values.Add] using this
      simp only []
      rw [e1, Values.foldl_Add_group acc k xs [x] hacc]
      have hp2 : ((acc ++ [(k, [x] ++ xs)]) ++ rest).Pairwise
          (fun a b => strLt a.1 b.1 = true) := by
        simpa using hp
      rw [ih (acc ++ [(k, [x] ++ xs)]) hp2 (fun kv hkv => hne kv (by simp [hkv]))]
      simp

theorem encodeWrite_nil (k x : GoString) :
    encodeWrite (QueryEscape k) [] x = encodePair (k, x) := by
  simp [encodeWrite, encodePair]

theorem encodeWrite_ne_nil (k x buf : GoString) (h : buf ≠ []) :
    encodeWrite (QueryEscape k) buf x = buf ++ 38 :: encodePair (k, x) := by
  have hl : buf.length > 0 := List.length_pos.mpr h
  simp [encodeWrite, encodePair, hl]

theorem encodePair_ne_nil (p : GoString × GoString) : encodePair p ≠ [] := by
  simp [encodePair]

theorem Values.Encode_eq_foldl (v : Values) :
    v.Encode = v.pairs.foldl (fun buf p => encodeWrite (QueryEscape p.1) buf p.2) [] := by
  unfold Values.Encode Values.pairs
  generalize ([] : GoString) = buf
  induction v generalizing buf with
  | nil => rfl
  | cons a rest ih =>
    simp only [List.foldl_cons, List.flatMap_cons, List.foldl_append, List.foldl_map]
    exact ih _

theorem foldl_encodeWrite (ps : List (GoString × GoString)) :
    ∀ buf : GoString, buf ≠ [] →
      ps.foldl (fun buf p => encodeWrite (QueryEscape p.1) buf p.2) buf =
        buf ++ ps.flatMap (fun p => 38 :: encodePair p) := by
  induction ps with
  | nil => intro buf _; simp
  | cons p rest ih =>
    intro buf hb
    simp only [List.foldl_cons, List.flatMap_cons]
    rw [encodeWrite_ne_nil _ _ _ hb, ih _ (by simp)]
    simp

theorem amp_not_mem_encodePair (p : GoString × GoString) : (38 : Byte) ∉ encodePair p := by
  intro h
  simp only [encodePair, List.mem_append, List.mem_cons] at h
  rcases h with h | h | h
  · exact (QueryEscape_plain _ _ h).1 rfl
  · exact absurd h (by decide)
  · exact (QueryEscape_plain _ _ h).1 rfl

theorem splitOn_joined (ps : List (GoString × GoString)) :
    ∀ p : GoString × GoString,
      splitOn 38 (encodePair p ++ ps.flatMap (fun q => 38 :: encodePair q)) =
        encodePair p :: ps.map encodePair := by
  induction ps with
  | nil =>
    intro p
    simpa using splitOn_absent 38 _ (amp_not_mem_encodePair p)
  | cons q rest ih =>
    intro p
    simp only [List.flatMap_cons, List.map_cons, List.cons_append]
    rw [splitOn_append 38 _ _ (amp_not_mem_encodePair p), ih q]

theorem parseQueryStep_encodePair (m : Values) (p : GoString × GoString) :
    parseQueryStep m (encodePair p) = m.Add p.1 p.2 := by
  have hsemi : (encodePair p).contains 59 = false := by
    rw [Bool.eq_false_iff]
    intro h
    rw [List.contains_iff_exists_mem_beq] at h
    obtain ⟨c, hc, hc2⟩ := h
    have hc3 : 59 = c := by simpa using hc2
    subst hc3
    simp only [encodePair, List.mem_append, List.mem_cons] at hc
    rcases hc with h | h | h
    · exact (QueryEscape_plain _ _ h).2.2 rfl
    · exact absurd h (by decide)
    · exact (QueryEscape_plain _ _ h).2.2 rfl
  have hcut : Cut 61 (encodePair p) = (QueryEscape p.1, QueryEscape p.2) :=
    Cut_append 61 _ _ (fun h => (QueryEscape_plain _ _ h).2.1 rfl)
  unfold parseQueryStep
  rw [hsemi, if_neg (by simp), if_neg (encodePair_ne_nil p), hcut]
  simp [QueryUnescape_QueryEscape]

theorem ParseQuery_Encode (v : Values) (h : v.Canonical) : ParseQuery v.Encode = v := by
  rw [Values.Encode_eq_foldl]
  have key : ParseQuery (v.pairs.foldl (fun buf p => encodeWrite (QueryEscape p.1) buf p.2) []) =
      v.pairs.foldl (fun m p => Values.Add m p.1 p.2) [] := by
    cases hps : v.pairs with
    | nil => simp [ParseQuery, splitOn, parseQueryStep]
    | cons p rest =>
      rw [List.foldl_cons, encodeWrite_nil, foldl_encodeWrite _ _ (encodePair_ne_nil _)]
      unfold ParseQuery
      rw [splitOn_joined, ← List.map_cons, List.foldl_map]
      simp only [parseQueryStep_encodePair]
  rw [key, Values.foldl_Add_pairs v [] (by simpa using h.1) h.2]
  simp

theorem Values.Add_keys (m : Values) (k x : GoString) :
    ∀ kv ∈ Values.Add m k x, kv.1 = k ∨ ∃ kv2 ∈ m, kv2.1 = kv.1 := by
  induction m with
  | nil =>
    intro kv hkv
    simp only [Values.Add, List.mem_singleton] at hkv
    left; rw [hkv]
  | cons a rest ih =>
    obtain ⟨k0, vs⟩ := a
    intro kv hkv
    simp only [Values.Add] at hkv
    split_ifs at hkv with h1 h2
    · simp only [List.mem_cons] at hkv
      rcases hkv with e | e
      · left; rw [e, h1]
      · right; exact ⟨kv, by simp [e], rfl⟩
    · simp only [List.mem_cons] at hkv
      rcases hkv with e | e | e
      · left; rw [e]
      · right; exact ⟨(k0, vs), by simp, by rw [e]⟩
      · right; exact ⟨kv, by simp [e], rfl⟩
    · simp only [List.mem_cons] at hkv
      rcases hkv with e | e
      · right; exact ⟨(k0, vs), by simp, by rw [e]⟩
      · rcases ih kv e with h | ⟨kv2, hm, he⟩
        · left; exact h
        · right; exact ⟨kv2, by simp [hm], he⟩

theorem Values.Set_keys (m : Values) (k x : GoString) :
    ∀ kv ∈ Values.Set m k x, kv.1 = k ∨ ∃ kv2 ∈ m, kv2.1 = kv.1 := by
  induction m with
  | nil =>
    intro kv hkv
    simp only [Values.Set, List.mem_singleton] at hkv
    left; rw [hkv]
  | cons a rest ih =>
    obtain ⟨k0, vs⟩ := a
    intro kv hkv
    simp only [Values.Set] at hkv
    split_ifs at hkv with h1 h2
    · simp only [List.mem_cons] at hkv
      rcases hkv with e | e
      · left; rw [e, h1]
      · right; exact ⟨kv, by simp [e], rfl⟩
    · simp only [List.mem_cons] at hkv
      rcases hkv with e | e | e
      · left; rw [e]
      · right; exact ⟨(k0, vs), by simp, by rw [e]⟩
      · right; exact ⟨kv, by simp [e], rfl⟩
    · simp only [List.mem_cons] at hkv
      rcases hkv with e | e
      · right; exact ⟨(k0, vs), by simp, by rw [e]⟩
      · rcases ih kv e with h | ⟨kv2, hm, he⟩
        · left; exact h
        · right; exact ⟨kv2, by simp [hm], he⟩

theorem Values.Canonical_nil : Values.Canonical [] := by
  simp [Values.Canonical]

theorem Values.Canonical_Add (m : Values) (k x : GoString) (h : m.Canonical) :
    (Values.Add m k x).Canonical := by
  induction m with
  | nil => simp [Values.Add, Values.Canonical]
  | cons a rest ih =>
    obtain ⟨k0, vs⟩ := a
    obtain ⟨hp, hne⟩ := h
    rw [List.pairwise_cons] at hp
    have hrest : Values.Canonical rest := ⟨hp.2, fun kv hkv => hne kv (by simp [hkv])⟩
    simp only [Values.Add]
    split_ifs with h1 h2
    · refine ⟨List.pairwise_cons.mpr ⟨hp.1, hp.2⟩, ?_⟩
      intro kv hkv
      simp only [List.mem_cons] at hkv
      rcases hkv with e | e
      · rw [e]; simp
      · exact hne kv (by simp [e])
    · refine ⟨List.pairwise_cons.mpr ⟨?_, List.pairwise_cons.mpr hp⟩, ?_⟩
      · intro kv hkv
        simp only [List.mem_cons] at hkv
        rcases hkv with e | e
        · rw [e]; exact h2
        · exact strLt_trans _ _ _ h2 (hp.1 kv e)
      · intro kv hkv
        simp only [List.mem_cons] at hkv
        rcases hkv with e | e | e
        · rw [e]; simp
        · exact hne kv (by simp [e])
        · exact hne kv (by simp [e])
    · have hc := ih hrest
      refine ⟨List.pairwise_cons.mpr ⟨?_, hc.1⟩, ?_⟩
      · intro kv hkv
        rcases Values.Add_keys rest k x kv hkv with e | ⟨kv2, hm, he⟩
        · rw [e]
          exact strLt_connex _ _ (by simpa using h2) h1
        · show strLt k0 kv.1 = true
          rw [← he]; exact hp.1 kv2 hm
      · intro kv hkv
        simp only [List.mem_cons] at hkv
        rcases hkv with e | e
        · exact hne kv (by simp [e])
        · exact hc.2 kv e

theorem Values.Canonical_Set (m : Values) (k x : GoString) (h : m.Canonical) :
    (Values.Set m k x).Canonical := by
  induction m with
  | nil => simp [Values.Set, Values.Canonical]
  | cons a rest ih =>
    obtain ⟨k0, vs⟩ := a
    obtain ⟨hp, hne⟩ := h
    rw [List.pairwise_cons] at hp
    have hrest : Values.Canonical rest := ⟨hp.2, fun kv hkv => hne kv (by simp [hkv])⟩
    simp only [Values.Set]
    split_ifs with h1 h2
    · refine ⟨List.pairwise_cons.mpr ⟨hp.1, hp.2⟩, ?_⟩
      intro kv hkv
      simp only [List.mem_cons] at hkv
      rcases hkv with e | e
      · rw [e]; simp
      · exact hne kv (by simp [e])
    · refine ⟨List.pairwise_cons.mpr ⟨?_, List.pairwise_cons.mpr hp⟩, ?_⟩
      · intro kv hkv
        simp only [List.mem_cons] at hkv
        rcases hkv with e | e
        · rw [e]; exact h2
        · exact strLt_trans _ _ _ h2 (hp.1 kv e)
      · intro kv hkv
        simp only [List.mem_cons] at hkv
        rcases hkv with e | e | e
        · rw [e]; simp
        · exact hne kv (by simp [e])
        · exact hne kv (by simp [e])
    · have hc := ih hrest
      refine ⟨List.pairwise_cons.mpr ⟨?_, hc.1⟩, ?_⟩
      · intro kv hkv
        rcases Values.Set_keys rest k x kv hkv with e | ⟨kv2, hm, he⟩
        · rw [e]
          exact strLt_connex _ _ (by simpa using h2) h1
        · show strLt k0 kv.1 = true
          rw [← he]; exact hp.1 kv2 hm
      · intro kv hkv
        simp only [List.mem_cons] at hkv
        rcases hkv with e | e
        · exact hne kv (by simp [e])
        · exact hc.2 kv e

theorem parseQueryStep_Canonical (m : Values) (seg : GoString) (h : m.Canonical) :
    (parseQueryStep m seg).Canonical := by
  unfold parseQueryStep
  split_ifs
  · exact h
  · exact h
  · split
    · exact h
    · split
      · exact h
      · exact Values.Canonical_Add _ _ _ h

theorem ParseQuery_Canonical (query : GoString) : (ParseQuery query).Canonical := by
  unfold ParseQuery
  generalize splitOn 38 query = segs
  have : ∀ m : Values, m.Canonical → (segs.foldl parseQueryStep m).Canonical := by
    induction segs with
    | nil => intro m hm; exact hm
    | cons sg rest ih =>
      intro m hm
      exact ih _ (parseQueryStep_Canonical m sg hm)
  exact this [] Values.Canonical_nil

/-- Reading the query after `set` gives the map before it with the key replaced. -/
theorem queryBuilder.Query_set (qb : queryBuilder) (key value : GoString) :
    (qb.set key value).url.Query = qb.url.Query.Set key value := by
  unfold queryBuilder.set URL.Query
  exact ParseQuery_Encode _ (Values.Canonical_Set _ _ _ (ParseQuery_Canonical _))

theorem Values.lookup_Set (m : Values) (k x k2 : GoString) :
    (Values.Set m k x).lookup k2 = if k2 = k then some [x] else m.lookup k2 := by
  induction m with
  | nil => simp [Values.Set, Values.lookup]
  | cons a rest ih =>
    obtain ⟨k0, vs⟩ := a
    by_cases hk : k2 = k
    · subst hk
      rw [if_pos rfl] at ih ⊢
      simp only [Values.Set]
      split_ifs with h1 h2
      · simp [Values.lookup, h1]
      · simp [Values.lookup]
      · simp [Values.lookup, h1, ih]
    · rw [if_neg hk] at ih ⊢
      simp only [Values.Set]
      split_ifs with h1 h2
      · subst h1
        simp [Values.lookup, hk]
      · simp [Values.lookup, hk]
      · simp [Values.lookup, ih]

/-- After `set`, the key carries the single value and every other key what it carried. -/
theorem queryBuilder.lookup_set (qb : queryBuilder) (key value k : GoString) :
    (qb.set key value).url.Query.lookup k =
      if k = key then some [value] else qb.url.Query.lookup k := by
  rw [queryBuilder.Query_set, Values.lookup_Set]

/-! ## The query builder -/

theorem queryBuilder.Sets.refl (qb : queryBuilder) : qb.Sets qb [] := by
  intro k
  simp

theorem queryBuilder.Sets.set {qb qb2 : queryBuilder} {keys : List GoString}
    (h : qb.Sets qb2 keys) (key value : GoString) :
    qb.Sets (qb2.set key value) (key :: keys) := by
  intro k
  rw [queryBuilder.lookup_set]
  by_cases hk : k = key
  · simp [hk]
  · simp only [hk, if_false, List.mem_cons, false_or]
    exact h k

theorem queryBuilder.Sets.congr {qb qb2 : queryBuilder} {keys keys2 : List GoString}
    (h : qb.Sets qb2 keys) (hk : ∀ k, k ∈ keys2 ↔ k ∈ keys) : qb.Sets qb2 keys2 := by
  intro k
  rw [hk k]
  exact h k

theorem topicKey_0 : topicKey 0 = str "topic0" := by decide

theorem topicKey_1 : topicKey 1 = str "topic1" := by decide

theorem topicKey_2 : topicKey 2 = str "topic2" := by decide

theorem topicKey_3 : topicKey 3 = str "topic3" := by decide

theorem oprKey_0_1 : oprKey 0 1 = str "topic0_1_opr" := by decide

theorem oprKey_0_2 : oprKey 0 2 = str "topic0_2_opr" := by decide

theorem oprKey_0_3 : oprKey 0 3 = str "topic0_3_opr" := by decide

theorem oprKey_1_2 : oprKey 1 2 = str "topic1_2_opr" := by decide

theorem oprKey_1_3 : oprKey 1 3 = str "topic1_3_opr" := by decide

theorem oprKey_2_3 : oprKey 2 3 = str "topic2_3_opr" := by decide

theorem add0x_eq (s : GoString) : add0x s = str "0x" ++ s := by
  simp [add0x]

/-- C1 (as amended): for every address string `A`, `queryBuilder.address(A)` sets the
`address` query parameter to the single value "0x" followed by `A` itself, whether or not
`A` already starts with "0x", and leaves every other parameter as it was. -/
theorem C1_address_prepends_0x (qb : queryBuilder) (A : GoString) :
    (qb.address A).url.Query.lookup (str "address") = some [str "0x" ++ A] ∧
    (qb.address A).url.Query.Get (str "address") = str "0x" ++ A ∧
    ∀ k, k ≠ str "address" →
      (qb.address A).url.Query.lookup k = qb.url.Query.lookup k := by
  have h : (qb.address A).url.Query.lookup (str "address") = some [str "0x" ++ A] := by
    unfold queryBuilder.address
    rw [queryBuilder.lookup_set, if_pos rfl, add0x_eq]
  refine ⟨h, ?_, ?_⟩
  · unfold Values.Get
    rw [h]
  · intro k hk
    unfold queryBuilder.address
    rw [queryBuilder.lookup_set, if_neg hk]

/-- C1 as amended, an instance: on the balance URL the address "ab" gives the value
"0xab", the address "0xab" the value "0x0xab". -/
theorem C1_address_prepends_0x_witness :
    ((newQueryBuilder ⟨str "https://explorer.celo.org/api",
        str "module=account&action=balance&address={addressHash}", []⟩).address
          (str "0xab")).url.Query.Get (str "address") = str "0x" ++ str "0xab" :=
  (C1_address_prepends_0x _ (str "0xab")).2.1

/-- C1, the claim as stated fails: on the balance URL of the mainnet explorer the address
"0xab", which already starts with "0x", gives the query `address=0x0xab`, so the value of
the parameter is "0x0xab" and not "0xab". -/
theorem C1_counterexample :
    HasPrefix (str "0xab") (str "0x") = true ∧
    (buildUrl [str "https://explorer.celo.org/api", balanceUrl]).map
        (fun u => ((newQueryBuilder u).address (str "0xab")).url.RawQuery) =
      some (str "action=balance&address=0x0xab&module=account") ∧
    (buildUrl [str "https://explorer.celo.org/api", balanceUrl]).map
        (fun u => ((newQueryBuilder u).address (str "0xab")).url.Query.Get (str "address")) =
      some (str "0x0xab") ∧
    str "0x0xab" ≠ str "0xab" := by
  decide

theorem Topics.oprsPresent_iff (t : Topics) : t.oprsPresent ↔
    ((t.Topic1.isSome = true → t.Opr01.isSome = true) ∧
     (t.Topic2.isSome = true → t.Opr02.isSome = true) ∧
     (t.Topic3.isSome = true → t.Opr03.isSome = true) ∧
     (t.Topic1.isSome = true → t.Topic2.isSome = true → t.Opr12.isSome = true) ∧
     (t.Topic1.isSome = true → t.Topic3.isSome = true → t.Opr13.isSome = true) ∧
     (t.Topic2.isSome = true → t.Topic3.isSome = true → t.Opr23.isSome = true)) := by
  simp [Topics.oprsPresent, topicPairs, Topics.populated, Topics.opr]

/-- C2: for every `Topics` value whose operator is non-nil for every pair of populated
topics, `queryBuilder.topics` returns, and the keys it writes are exactly `topic{i}` for the
populated slots (topic0 always) and `topic{i}_{j}_opr` for the pairs of populated slots:
each of these carries a single value afterwards, every other key is left as it was. -/
theorem C2_topics_keys (qb : queryBuilder) (t : Topics) (h : t.oprsPresent) :
    ∃ qb2, qb.topics t = some qb2 ∧ qb.Sets qb2 t.specKeys := by
  rw [Topics.oprsPresent_iff] at h
  obtain ⟨h01, h02, h03, h12, h13, h23⟩ := h
  obtain ⟨T0, T1, T2, T3, o01, o02, o03, o12, o13, o23⟩ := t
  simp only at h01 h02 h03 h12 h13 h23
  rcases T1 with _ | a <;> rcases T2 with _ | b <;> rcases T3 with _ | c
  · have e : queryBuilder.topics qb ⟨T0, none, none, none,
        o01, o02, o03, o12, o13, o23⟩ = some (qb
          |>.set (str "topic0") (add0x T0)) := by
      simp only [queryBuilder.topics]
      rfl
    refine ⟨_, e, ?_⟩
    have hs := (queryBuilder.Sets.refl qb)
      |>.set (str "topic0") (add0x T0)
    refine hs.congr ?_
    intro k
    simp only [Topics.specKeys, Topics.populated, topicPairs, List.filter, Option.isSome,
      List.map, List.append_nil, Bool.and_false, Bool.and_true, Bool.false_and, Bool.and_self,
      List.cons_append, List.nil_append, topicKey_0, topicKey_1, topicKey_2, topicKey_3,
      oprKey_0_1, oprKey_0_2, oprKey_0_3, oprKey_1_2, oprKey_1_3, oprKey_2_3, List.mem_cons,
      List.mem_singleton, List.not_mem_nil, or_false]
  · obtain ⟨x03, hx03⟩ := Option.isSome_iff_exists.mp (h03 rfl)
    subst hx03
    have e : queryBuilder.topics qb ⟨T0, none, none, some c,
        o01, o02, some x03, o12, o13, o23⟩ = some (qb
          |>.set (str "topic0") (add0x T0)
          |>.set (str "topic3") (add0x c)
          |>.set (str "topic0_3_opr") (add0x x03)) := by
      simp only [queryBuilder.topics]
      rfl
    refine ⟨_, e, ?_⟩
    have hs := (queryBuilder.Sets.refl qb)
      |>.set (str "topic0") (add0x T0)
      |>.set (str "topic3") (add0x c)
      |>.set (str "topic0_3_opr") (add0x x03)
    refine hs.congr ?_
    intro k
    simp only [Topics.specKeys, Topics.populated, topicPairs, List.filter, Option.isSome,
      List.map, List.append_nil, Bool.and_false, Bool.and_true, Bool.false_and, Bool.and_self,
      List.cons_append, List.nil_append, topicKey_0, topicKey_1, topicKey_2, topicKey_3,
      oprKey_0_1, oprKey_0_2, oprKey_0_3, oprKey_1_2, oprKey_1_3, oprKey_2_3, List.mem_cons,
      List.mem_singleton, List.not_mem_nil, or_false]
    generalize (k = str "topic0") = P_topic0
    generalize (k = str "topic3") = P_topic3
    generalize (k = str "topic0_3_opr") = P_topic0_3_opr
    clear hs e h01 h02 h03 h12 h13 h23
    tauto
  · obtain ⟨x02, hx02⟩ := Option.isSome_iff_exists.mp (h02 rfl)
    subst hx02
    have e : queryBuilder.topics qb ⟨T0, none, some b, none,
        o01, some x02, o03, o12, o13, o23⟩ = some (qb
          |>.set (str "topic0") (add0x T0)
          |>.set (str "topic2") (add0x b)
          |>.set (str "topic0_2_opr") (add0x x02)) := by
      simp only [queryBuilder.topics]
      rfl
    refine ⟨_, e, ?_⟩
    have hs := (queryBuilder.Sets.refl qb)
      |>.set (str "topic0") (add0x T0)
      |>.set (str "topic2") (add0x b)
      |>.set (str "topic0_2_opr") (add0x x02)
    refine hs.congr ?_
    intro k
    simp only [Topics.specKeys, Topics.populated, topicPairs, List.filter, Option.isSome,
      List.map, List.append_nil, Bool.and_false, Bool.and_true, Bool.false_and, Bool.and_self,
      List.cons_append, List.nil_append, topicKey_0, topicKey_1, topicKey_2, topicKey_3,
      oprKey_0_1, oprKey_0_2, oprKey_0_3, oprKey_1_2, oprKey_1_3, oprKey_2_3, List.mem_cons,
      List.mem_singleton, List.not_mem_nil, or_false]
    generalize (k = str "topic0") = P_topic0
    generalize (k = str "topic2") = P_topic2
    generalize (k = str "topic0_2_opr") = P_topic0_2_opr
    clear hs e h01 h02 h03 h12 h13 h23
    tauto
  · obtain ⟨x02, hx02⟩ := Option.isSome_iff_exists.mp (h02 rfl)
    subst hx02
    obtain ⟨x03, hx03⟩ := Option.isSome_iff_exists.mp (h03 rfl)
    subst hx03
    obtain ⟨x23, hx23⟩ := Option.isSome_iff_exists.mp (h23 rfl rfl)
    subst hx23
    have e : queryBuilder.topics qb ⟨T0, none, some b, some c,
        o01, some x02, some x03, o12, o13, some x23⟩ = some (qb
          |>.set (str "topic0") (add0x T0)
          |>.set (str "topic2") (add0x b)
          |>.set (str "topic0_2_opr") (add0x x02)
          |>.set (str "topic3") (add0x c)
          |>.set (str "topic0_3_opr") (add0x x03)
          |>.set (str "topic2_3_opr") (add0x x23)) := by
      simp only [queryBuilder.topics]
      rfl
    refine ⟨_, e, ?_⟩
    have hs := (queryBuilder.Sets.refl qb)
      |>.set (str "topic0") (add0x T0)
      |>.set (str "topic2") (add0x b)
      |>.set (str "topic0_2_opr") (add0x x02)
      |>.set (str "topic3") (add0x c)
      |>.set (str "topic0_3_opr") (add0x x03)
      |>.set (str "topic2_3_opr") (add0x x23)
    refine hs.congr ?_
    intro k
    simp only [Topics.specKeys, Topics.populated, topicPairs, List.filter, Option.isSome,
      List.map, List.append_nil, Bool.and_false, Bool.and_true, Bool.false_and, Bool.and_self,
      List.cons_append, List.nil_append, topicKey_0, topicKey_1, topicKey_2, topicKey_3,
      oprKey_0_1, oprKey_0_2, oprKey_0_3, oprKey_1_2, oprKey_1_3, oprKey_2_3, List.mem_cons,
      List.mem_singleton, List.not_mem_nil, or_false]
    generalize (k = str "topic0") = P_topic0
    generalize (k = str "topic2") = P_topic2
    generalize (k = str "topic0_2_opr") = P_topic0_2_opr
    generalize (k = str "topic3") = P_topic3
    generalize (k = str "topic0_3_opr") = P_topic0_3_opr
    generalize (k = str "topic2_3_opr") = P_topic2_3_opr
    clear hs e h01 h02 h03 h12 h13 h23
    tauto
  · obtain ⟨x01, hx01⟩ := Option.isSome_iff_exists.mp (h01 rfl)
    subst hx01
    have e : queryBuilder.topics qb ⟨T0, some a, none, none,
        some x01, o02, o03, o12, o13, o23⟩ = some (qb
          |>.set (str "topic0") (add0x T0)
          |>.set (str "topic1") (add0x a)
          |>.set (str "topic0_1_opr") (add0x x01)) := by
      simp only [queryBuilder.topics]
      rfl
    refine ⟨_, e, ?_⟩
    have hs := (queryBuilder.Sets.refl qb)
      |>.set (str "topic0") (add0x T0)
      |>.set (str "topic1") (add0x a)
      |>.set (str "topic0_1_opr") (add0x x01)
    refine hs.congr ?_
    intro k
    simp only [Topics.specKeys, Topics.populated, topicPairs, List.filter, Option.isSome,
      List.map, List.append_nil, Bool.and_false, Bool.and_true, Bool.false_and, Bool.and_self,
      List.cons_append, List.nil_append, topicKey_0, topicKey_1, topicKey_2, topicKey_3,
      oprKey_0_1, oprKey_0_2, oprKey_0_3, oprKey_1_2, oprKey_1_3, oprKey_2_3, List.mem_cons,
      List.mem_singleton, List.not_mem_nil, or_false]
    generalize (k = str "topic0") = P_topic0
    generalize (k = str "topic1") = P_topic1
    generalize (k = str "topic0_1_opr") = P_topic0_1_opr
    clear hs e h01 h02 h03 h12 h13 h23
    tauto
  · obtain ⟨x01, hx01⟩ := Option.isSome_iff_exists.mp (h01 rfl)
    subst hx01
    obtain ⟨x03, hx03⟩ := Option.isSome_iff_exists.mp (h03 rfl)
    subst hx03
    obtain ⟨x13, hx13⟩ := Option.isSome_iff_exists.mp (h13 rfl rfl)
    subst hx13
    have e : queryBuilder.topics qb ⟨T0, some a, none, some c,
        some x01, o02, some x03, o12, some x13, o23⟩ = some (qb
          |>.set (str "topic0") (add0x T0)
          |>.set (str "topic1") (add0x a)
          |>.set (str "topic0_1_opr") (add0x x01)
          |>.set (str "topic3") (add0x c)
          |>.set (str "topic0_3_opr") (add0x x03)
          |>.set (str "topic1_3_opr") (add0x x13)) := by
      simp only [queryBuilder.topics]
      rfl
    refine ⟨_, e, ?_⟩
    have hs := (queryBuilder.Sets.refl qb)
      |>.set (str "topic0") (add0x T0)
      |>.set (str "topic1") (add0x a)
      |>.set (str "topic0_1_opr") (add0x x01)
      |>.set (str "topic3") (add0x c)
      |>.set (str "topic0_3_opr") (add0x x03)
      |>.set (str "topic1_3_opr") (add0x x13)
    refine hs.congr ?_
    intro k
    simp only [Topics.specKeys, Topics.populated, topicPairs, List.filter, Option.isSome,
      List.map, List.append_nil, Bool.and_false, Bool.and_true, Bool.false_and, Bool.and_self,
      List.cons_append, List.nil_append, topicKey_0, topicKey_1, topicKey_2, topicKey_3,
      oprKey_0_1, oprKey_0_2, oprKey_0_3, oprKey_1_2, oprKey_1_3, oprKey_2_3, List.mem_cons,
      List.mem_singleton, List.not_mem_nil, or_false]
    generalize (k = str "topic0") = P_topic0
    generalize (k = str "topic1") = P_topic1
    generalize (k = str "topic0_1_opr") = P_topic0_1_opr
    generalize (k = str "topic3") = P_topic3
    generalize (k = str "topic0_3_opr") = P_topic0_3_opr
    generalize (k = str "topic1_3_opr") = P_topic1_3_opr
    clear hs e h01 h02 h03 h12 h13 h23
    tauto
  · obtain ⟨x01, hx01⟩ := Option.isSome_iff_exists.mp (h01 rfl)
    subst hx01
    obtain ⟨x02, hx02⟩ := Option.isSome_iff_exists.mp (h02 rfl)
    subst hx02
    obtain ⟨x12, hx12⟩ := Option.isSome_iff_exists.mp (h12 rfl rfl)
    subst hx12
    have e : queryBuilder.topics qb ⟨T0, some a, some b, none,
        some x01, some x02, o03, some x12, o13, o23⟩ = some (qb
          |>.set (str "topic0") (add0x T0)
          |>.set (str "topic1") (add0x a)
          |>.set (str "topic0_1_opr") (add0x x01)
          |>.set (str "topic2") (add0x b)
          |>.set (str "topic0_2_opr") (add0x x02)
          |>.set (str "topic1_2_opr") (add0x x12)) := by
      simp only [queryBuilder.topics]
      rfl
    refine ⟨_, e, ?_⟩
    have hs := (queryBuilder.Sets.refl qb)
      |>.set (str "topic0") (add0x T0)
      |>.set (str "topic1") (add0x a)
      |>.set (str "topic0_1_opr") (add0x x01)
      |>.set (str "topic2") (add0x b)
      |>.set (str "topic0_2_opr") (add0x x02)
      |>.set (str "topic1_2_opr") (add0x x12)
    refine hs.congr ?_
    intro k
    simp only [Topics.specKeys, Topics.populated, topicPairs, List.filter, Option.isSome,
      List.map, List.append_nil, Bool.and_false, Bool.and_true, Bool.false_and, Bool.and_self,
      List.cons_append, List.nil_append, topicKey_0, topicKey_1, topicKey_2, topicKey_3,
      oprKey_0_1, oprKey_0_2, oprKey_0_3, oprKey_1_2, oprKey_1_3, oprKey_2_3, List.mem_cons,
      List.mem_singleton, List.not_mem_nil, or_false]
    generalize (k = str "topic0") = P_topic0
    generalize (k = str "topic1") = P_topic1
    generalize (k = str "topic0_1_opr") = P_topic0_1_opr
    generalize (k = str "topic2") = P_topic2
    generalize (k = str "topic0_2_opr") = P_topic0_2_opr
    generalize (k = str "topic1_2_opr") = P_topic1_2_opr
    clear hs e h01 h02 h03 h12 h13 h23
    tauto
  · obtain ⟨x01, hx01⟩ := Option.isSome_iff_exists.mp (h01 rfl)
    subst hx01
    obtain ⟨x02, hx02⟩ := Option.isSome_iff_exists.mp (h02 rfl)
    subst hx02
    obtain ⟨x12, hx12⟩ := Option.isSome_iff_exists.mp (h12 rfl rfl)
    subst hx12
    obtain ⟨x03, hx03⟩ := Option.isSome_iff_exists.mp (h03 rfl)
    subst hx03
    obtain ⟨x13, hx13⟩ := Option.isSome_iff_exists.mp (h13 rfl rfl)
    subst hx13
    obtain ⟨x23, hx23⟩ := Option.isSome_iff_exists.mp (h23 rfl rfl)
    subst hx23
    have e : queryBuilder.topics qb ⟨T0, some a, some b, some c,
        some x01, some x02, some x03, some x12, some x13, some x23⟩ = some (qb
          |>.set (str "topic0") (add0x T0)
          |>.set (str "topic1") (add0x a)
          |>.set (str "topic0_1_opr") (add0x x01)
          |>.set (str "topic2") (add0x b)
          |>.set (str "topic0_2_opr") (add0x x02)
          |>.set (str "topic1_2_opr") (add0x x12)
          |>.set (str "topic3") (add0x c)
          |>.set (str "topic0_3_opr") (add0x x03)
          |>.set (str "topic1_3_opr") (add0x x13)
          |>.set (str "topic2_3_opr") (add0x x23)) := by
      simp only [queryBuilder.topics]
      rfl
    refine ⟨_, e, ?_⟩
    have hs := (queryBuilder.Sets.refl qb)
      |>.set (str "topic0") (add0x T0)
      |>.set (str "topic1") (add0x a)
      |>.set (str "topic0_1_opr") (add0x x01)
      |>.set (str "topic2") (add0x b)
      |>.set (str "topic0_2_opr") (add0x x02)
      |>.set (str "topic1_2_opr") (add0x x12)
      |>.set (str "topic3") (add0x c)
      |>.set (str "topic0_3_opr") (add0x x03)
      |>.set (str "topic1_3_opr") (add0x x13)
      |>.set (str "topic2_3_opr") (add0x x23)
    refine hs.congr ?_
    intro k
    simp only [Topics.specKeys, Topics.populated, topicPairs, List.filter, Option.isSome,
      List.map, List.append_nil, Bool.and_false, Bool.and_true, Bool.false_and, Bool.and_self,
      List.cons_append, List.nil_append, topicKey_0, topicKey_1, topicKey_2, topicKey_3,
      oprKey_0_1, oprKey_0_2, oprKey_0_3, oprKey_1_2, oprKey_1_3, oprKey_2_3, List.mem_cons,
      List.mem_singleton, List.not_mem_nil, or_false]
    generalize (k = str "topic0") = P_topic0
    generalize (k = str "topic1") = P_topic1
    generalize (k = str "topic0_1_opr") = P_topic0_1_opr
    generalize (k = str "topic2") = P_topic2
    generalize (k = str "topic0_2_opr") = P_topic0_2_opr
    generalize (k = str "topic1_2_opr") = P_topic1_2_opr
    generalize (k = str "topic3") = P_topic3
    generalize (k = str "topic0_3_opr") = P_topic0_3_opr
    generalize (k = str "topic1_3_opr") = P_topic1_3_opr
    generalize (k = str "topic2_3_opr") = P_topic2_3_opr
    clear hs e h01 h02 h03 h12 h13 h23
    tauto

/-- C2, an instance: topic1 and topic3 populated, topic2 nil, on the query of `getLogsUrl`. -/
theorem C2_topics_keys_witness :
    (Topics.mk (str "aa") (some (str "bb")) none (some (str "dd"))
        (some topicOperator.And) none (some topicOperator.Or) none
        (some topicOperator.And) none).oprsPresent ∧
    ∃ qb2,
      (newQueryBuilder ⟨str "https://explorer.celo.org/api",
          (Cut 63 getLogsUrl).2, []⟩).topics
        (Topics.mk (str "aa") (some (str "bb")) none (some (str "dd"))
          (some topicOperator.And) none (some topicOperator.Or) none
          (some topicOperator.And) none) = some qb2 ∧
      (newQueryBuilder ⟨str "https://explorer.celo.org/api",
          (Cut 63 getLogsUrl).2, []⟩).Sets qb2
        (Topics.mk (str "aa") (some (str "bb")) none (some (str "dd"))
          (some topicOperator.And) none (some topicOperator.Or) none
          (some topicOperator.And) none).specKeys :=
  ⟨by decide, C2_topics_keys _ _ (by decide)⟩

/-! ## Numbers -/

theorem bigDigit_digitByte : ∀ d : Fin 10, bigDigit (digitByte d.val) = d.val := by
  decide

theorem digitByte_not_sign : ∀ d : Fin 10, digitByte d.val ≠ 45 ∧ digitByte d.val ≠ 43 := by
  decide

theorem natScan_digit (d : Nat) (hd : d < 10) (rest : GoString) (z count : Nat) :
    natScan 10 (digitByte d :: rest) z count = natScan 10 rest (z * 10 + d) (count + 1) := by
  have h := bigDigit_digitByte ⟨d, hd⟩
  simp only at h
  rw [natScan, h, if_neg (by omega)]

theorem natScan_decimalAux (fuel : Nat) :
    ∀ (n : Nat) (acc : GoString), n < fuel →
      ∃ k, 0 < k ∧ ∀ z count,
        natScan 10 (decimalAux fuel n acc) z count =
          natScan 10 acc (z * 10 ^ k + n) (count + k) := by
  induction fuel with
  | zero => intro n acc h; omega
  | succ fuel ih =>
    intro n acc h
    by_cases hn : n < 10
    · refine ⟨1, by omega, ?_⟩
      intro z count
      simp only [decimalAux, hn, if_true]
      rw [natScan_digit n hn]
      simp
    · obtain ⟨k, hk, hscan⟩ := ih (n / 10) (digitByte (n % 10) :: acc) (by omega)
      refine ⟨k + 1, by omega, ?_⟩
      intro z count
      simp only [decimalAux, hn, if_false]
      rw [hscan, natScan_digit (n % 10) (Nat.mod_lt _ (by omega))]
      have e : (z * 10 ^ k + n / 10) * 10 + n % 10 = z * 10 ^ (k + 1) + n := by
        have := Nat.div_add_mod n 10
        rw [pow_succ]
        nlinarith
      rw [e]
      rfl

theorem decimalAux_head (fuel : Nat) :
    ∀ (n : Nat) (acc : GoString), n < fuel →
      ∃ d : Fin 10, ∃ tail, decimalAux fuel n acc = digitByte d.val :: tail := by
  induction fuel with
  | zero => intro n acc h; omega
  | succ fuel ih =>
    intro n acc h
    by_cases hn : n < 10
    · exact ⟨⟨n, hn⟩, acc, by simp [decimalAux, hn]⟩
    · obtain ⟨d, tail, e⟩ := ih (n / 10) (digitByte (n % 10) :: acc) (by omega)
      exact ⟨d, tail, by simp only [decimalAux, hn, if_false]; exact e⟩

/-- The decimal numeral of `n` converts back to `n`. -/
theorem toBigInt_formatNat (n : Nat) : toBigInt (formatNat n) 10 = some (n : Int) := by
  obtain ⟨k, hk, hscan⟩ := natScan_decimalAux (n + 1) n [] (by omega)
  obtain ⟨d, tail, hhead⟩ := decimalAux_head (n + 1) n [] (by omega)
  have hsign := digitByte_not_sign d
  have h0 := hscan 0 0
  unfold toBigInt bigSetString formatNat
  simp only
  rw [hhead] at h0 ⊢
  simp only [hsign.1, hsign.2, or_self, if_false, decide_False, Bool.and_false]
  rw [h0]
  simp [natScan]
  rw [if_neg (by omega)]

/-! ## The response envelope -/

theorem storeString_of_string? (doc : Json) (s cur : GoString) (h : doc.string? = some s) :
    storeString doc cur = s := by
  cases doc <;> simp [Json.string?] at h
  simp [storeString, h]

/-- C3: for every natural number `n`, when the answer to the balance request is an envelope
with status "1" whose result is the JSON string holding the decimal numeral of `n`,
`Client.Balance` returns the big integer `n` and no error. -/
theorem C3_Balance_decimal (c : Client) (address : GoString) (n : Nat) (u : URL)
    (code : Int) (body : Json)
    (hu : buildUrl [c.req.base, balanceUrl] = some u)
    (hr : c.req.http ((newQueryBuilder u).address address).url =
      HttpResult.response code (HttpBody.data (some body)))
    (hs : (storeBaseResponse body response.BaseResponse.zero).Status = str "1")
    (hres : (storeBaseResponse body response.BaseResponse.zero).Result.bind Json.string? =
      some (formatNat n)) :
    c.Balance address = some (some (n : Int), none) := by
  obtain ⟨res, hres1, hres2⟩ := Option.bind_eq_some.mp hres
  unfold Client.Balance RequestClient.Balance
  simp only [hu, Option.bind_eq_bind, Option.some_bind, RequestClient.jsonResponse, hr,
    jsonUnmarshal, Iface.get, hs, if_true, hres1, storeString_of_string? res _ _ hres2,
    Option.pure_def, toBigInt_formatNat]

/-- C3, the example of the specification: the envelope
`{"status":"1","message":"OK","result":"123456789000000000000"}` gives the balance
123456789000000000000. -/
theorem C3_Balance_decimal_witness :
    (Client.mk ⟨fun _ => HttpResult.response 200 (HttpBody.data (some (Json.object
        [(str "status", Json.string (str "1")), (str "message", Json.string (str "OK")),
         (str "result", Json.string (str "123456789000000000000"))]))),
      str "https://explorer.celo.org/api"⟩).Balance (str "ab") =
      some (some ((123456789000000000000 : Nat) : Int), none) :=
  C3_Balance_decimal _ (str "ab") 123456789000000000000
    ⟨str "https://explorer.celo.org/api",
      str "module=account&action=balance&address={addressHash}", []⟩ 200 _
    (by decide) rfl (by decide) (by decide)

/-- C4: for every answer whose envelope has status "0" and message `m`, `jsonResponse`
fails with an error whose message is exactly `m` and leaves the result object as it was;
so does `RequestClient.Balance` (the zero balance comes back with the error) and
`Client.Balance` (nil comes back with the error). -/
theorem C4_status0_fails (r : RequestClient) (u : URL) (code : Int) (body : Json)
    (m : GoString)
    (hr : r.http u = HttpResult.response code (HttpBody.data (some body)))
    (hs : (storeBaseResponse body response.BaseResponse.zero).Status = str "0")
    (hm : (storeBaseResponse body response.BaseResponse.zero).Message = m) :
    (∀ (α : Type) (store : Json → α → α) (respObject : Iface α),
      r.jsonResponse u store respObject = (respObject, some m)) ∧
    (∀ (address : GoString) (u0 : URL), buildUrl [r.base, balanceUrl] = some u0 →
      ((newQueryBuilder u0).address address).url = u →
      r.Balance address = some ([], some m) ∧
      (Client.mk r).Balance address = some (none, some m)) := by
  have h1 : ∀ (α : Type) (store : Json → α → α) (respObject : Iface α),
      r.jsonResponse u store respObject = (respObject, some m) := by
    intro α store respObject
    have hne : ¬ (str "0" = str "1") := by decide
    simp only [RequestClient.jsonResponse, hr, jsonUnmarshal, Iface.get, hs, hne, if_false, hm]
  refine ⟨h1, ?_⟩
  intro address u0 hu0 hu
  have h2 : r.Balance address = some ([], some m) := by
    unfold RequestClient.Balance
    simp only [hu0, Option.bind_eq_bind, Option.some_bind, hu, h1, Iface.get, Option.pure_def]
  refine ⟨h2, ?_⟩
  unfold Client.Balance
  simp only [h2, Option.bind_eq_bind, Option.some_bind, Option.pure_def]

/-- C4, the example of the specification: the envelope
`{"status":"0","message":"Invalid address"}` makes the call fail with the message
"Invalid address". -/
theorem C4_status0_fails_witness :
    (Client.mk ⟨fun _ => HttpResult.response 200 (HttpBody.data (some (Json.object
        [(str "status", Json.string (str "0")),
         (str "message", Json.string (str "Invalid address"))]))),
      str "https://explorer.celo.org/api"⟩).Balance (str "ab") =
      some (none, some (str "Invalid address")) :=
  ((C4_status0_fails
    ⟨fun _ => HttpResult.response 200 (HttpBody.data (some (Json.object
        [(str "status", Json.string (str "0")),
         (str "message", Json.string (str "Invalid address"))]))),
      str "https://explorer.celo.org/api"⟩
    ((newQueryBuilder ⟨str "https://explorer.celo.org/api",
      str "module=account&action=balance&address={addressHash}", []⟩).address (str "ab")).url
    200 _ (str "Invalid address") rfl (by decide) (by decide)).2 (str "ab")
    ⟨str "https://explorer.celo.org/api",
      str "module=account&action=balance&address={addressHash}", []⟩ (by decide) rfl).2

/-! ## The JSON-RPC style endpoints -/

/-- `jsonResponseDiff` cannot reach the caller's variables through arguments passed by
value: whatever the answer, `RequestClient.EthGetBalance` returns the empty string or an
error, never the result of the payload. -/
theorem RequestClient.EthGetBalance_result_empty (r : RequestClient) (address : GoString)
    (block : Option Int) (res : GoString × error)
    (h : r.EthGetBalance address block = some res) : res.1 = [] := by
  unfold RequestClient.EthGetBalance at h
  cases hb : buildUrl [r.base, ethGetBalanceUrl] with
  | none => simp [hb] at h
  | some u =>
    simp only [hb, Option.bind_eq_bind, Option.some_bind] at h
    split at h
    · simp only [Option.pure_def, Option.some.injEq] at h
      rw [← h]
    · split at h <;> simp only [Option.pure_def, Option.some.injEq] at h <;> rw [← h]

/-- C5, the failing input: at HTTP 200 with the body `{"result":"0x1a"}`,
`Client.EthGetBalance` returns a nil big integer and no error, while the conversion of the
payload, `toBigInt(trim0x("0x1a"), 16)`, is 26. -/
theorem C5_EthGetBalance_failing_input :
    (Client.mk ⟨fun _ => HttpResult.response 200 (HttpBody.data (some (Json.object
        [(str "result", Json.string (str "0x1a"))]))),
      str "https://explorer.celo.org/api"⟩).EthGetBalance (str "ab") none =
      some (none, none) ∧
    toBigInt (trim0x (str "0x1a")) 16 = some 26 := by
  decide

/-- C6, the failing input: at HTTP 400 with the body `{"error":"bad request"}`,
`RequestClient.EthGetBalance` and `RequestClient.EthBlockNumber` fail with an error whose
message is the empty string, not "bad request". -/
theorem C6_rpc_error_failing_input :
    (RequestClient.mk (fun _ => HttpResult.response 400 (HttpBody.data (some (Json.object
        [(str "error", Json.string (str "bad request"))]))))
      (str "https://explorer.celo.org/api")).EthGetBalance (str "ab") none =
      some ([], some []) ∧
    (RequestClient.mk (fun _ => HttpResult.response 400 (HttpBody.data (some (Json.object
        [(str "error", Json.string (str "bad request"))]))))
      (str "https://explorer.celo.org/api")).EthBlockNumber =
      some ([], some []) ∧
    str "bad request" ≠ [] := by
  decide

/-! ## Transaction info -/

/-- C7, the failing input: for the transaction info `{"gasPrice":"5","gasUsed":"21000"}`
the record returned by `Client.GetTxInfo` has `GasPrice` 21000, the value of the wire
`gasUsed`, and not 5. -/
theorem C7_GasPrice_failing_input :
    ((Client.mk ⟨fun _ => HttpResult.response 200 (HttpBody.data (some (Json.object
        [(str "status", Json.string (str "1")), (str "message", Json.string (str "OK")),
         (str "result", Json.object
           [(str "gasPrice", Json.string (str "5")),
            (str "gasUsed", Json.string (str "21000"))])]))),
      str "https://explorer.celo.org/api"⟩).GetTxInfo (str "ab")).map
        (fun res => (res.1.GasPrice, res.1.GasUsed, res.2)) =
      some (some 21000, 21000, none) ∧
    toBigInt (str "5") 10 = some 5 := by
  decide

/-- `Client.GetTxInfo` takes `GasPrice` from the wire `gasUsed` for every answer. -/
theorem Client.GetTxInfo_GasPrice (c : Client) (txHash : GoString)
    (txInfo : response.GetTxInfo) (res : TransactionWithLogs × error)
    (hreq : c.req.GetTxInfo txHash none = some (txInfo, none))
    (h : c.GetTxInfo txHash = some res) :
    res.1.GasPrice = toBigInt txInfo.Gasused 10 := by
  unfold Client.GetTxInfo at h
  simp only [hreq, Option.bind_eq_bind, Option.some_bind, Option.pure_def,
    Option.some.injEq] at h
  rw [← h]

/-- C8, the failing input: for the transaction info with input "0x0a" and one log with
data "0x0b", `Client.GetTxInfo` returns as `Input` the two bytes of the text "0a" and as
the log's `Data` the two bytes of the text "0b"; hex-decoding as `TxList` does gives the
single bytes 10 and 11. -/
theorem C8_Input_failing_input :
    ((Client.mk ⟨fun _ => HttpResult.response 200 (HttpBody.data (some (Json.object
        [(str "status", Json.string (str "1")), (str "message", Json.string (str "OK")),
         (str "result", Json.object
           [(str "input", Json.string (str "0x0a")),
            (str "logs", Json.array [Json.object
              [(str "data", Json.string (str "0x0b"))]])])]))),
      str "https://explorer.celo.org/api"⟩).GetTxInfo (str "ab")).map
        (fun res => (res.1.Input, res.1.Logs.map (fun l => l.Data), res.2)) =
      some ([48, 97], [[48, 98]], none) ∧
    hexToByte (trim0x (str "0x0a")) = [10] ∧
    hexToByte (trim0x (str "0x0b")) = [11] ∧
    ((Client.mk ⟨fun _ => HttpResult.response 200 (HttpBody.data (some (Json.object
        [(str "status", Json.string (str "1")), (str "message", Json.string (str "OK")),
         (str "result", Json.array [Json.object
           [(str "input", Json.string (str "0x0a"))]])]))),
      str "https://explorer.celo.org/api"⟩).TxList (str "ab") none none none none none).map
        (fun res => (res.1.map (fun t => t.Input), res.2)) =
      some ([[10]], none) := by
  decide

set_option maxRecDepth 1000000 in
theorem bigDigit_base10 : ∀ c : Byte, decide (bigDigit c ≥ 10) = !isBaseDigit 10 c := by
  decide

set_option maxRecDepth 1000000 in
theorem bigDigit_base16 : ∀ c : Byte, decide (bigDigit c ≥ 16) = !isBaseDigit 16 c := by
  decide

theorem bigDigit_base (base : Nat) (hb : base = 10 ∨ base = 16) (c : Byte) :
    bigDigit c ≥ base ↔ isBaseDigit base c = false := by
  rcases hb with rfl | rfl
  · have := bigDigit_base10 c
    cases h : isBaseDigit 10 c <;> simp [h] at this ⊢ <;> omega
  · have := bigDigit_base16 c
    cases h : isBaseDigit 16 c <;> simp [h] at this ⊢ <;> omega

theorem natScan_unread (base : Nat) (hb : base = 10 ∨ base = 16) (s : GoString) :
    ∀ z count, s.all (isBaseDigit base) = false → (natScan base s z count).2.2 ≠ [] := by
  induction s with
  | nil => intro z count h; simp at h
  | cons c cs ih =>
    intro z count h
    cases hc : isBaseDigit base c with
    | false =>
      have := (bigDigit_base base hb c).mpr hc
      simp [natScan, this]
    | true =>
      have hlt : ¬ bigDigit c ≥ base := by
        intro hge
        have := (bigDigit_base base hb c).mp hge
        rw [hc] at this
        exact absurd this (by simp)
      simp only [List.all_cons, hc, Bool.true_and] at h
      simp only [natScan, hlt, if_false]
      exact ih _ _ h

/-- C9 (as amended): for every string `v` and base `b` in {10, 16} such that `v` is not a
valid base-`b` numeral, `toBigInt(v, b)` returns the nil pointer: no big integer at all,
not the big integer zero. -/
theorem C9_toBigInt_invalid_nil (v : GoString) (b : Nat) (hb : b = 10 ∨ b = 16)
    (h : ¬ validNumeral b v) : toBigInt v b = none := by
  unfold toBigInt
  simp only [Option.some_bind]
  cases v with
  | nil => rfl
  | cons ch rest =>
    unfold bigSetString
    have hu : (if ch = 45 ∨ ch = 43 then rest else ch :: rest) = unsignedPart (ch :: rest) := rfl
    simp only [hu]
    by_cases hne : unsignedPart (ch :: rest) = []
    · rw [hne]
      simp [natScan]
    · have hall : (unsignedPart (ch :: rest)).all (isBaseDigit b) = false := by
        cases hx : (unsignedPart (ch :: rest)).all (isBaseDigit b) with
        | false => rfl
        | true => exact absurd ⟨hne, hx⟩ h
      have hun := natScan_unread b hb _ 0 0 hall
      rcases hscan : natScan b (unsignedPart (ch :: rest)) 0 0 with ⟨z, count, unread⟩
      rw [hscan] at hun
      simp only at hun ⊢
      split_ifs <;> rfl

/-- C9 as amended, instances: "abc" is no base-10 numeral and the empty string is no
base-16 numeral; both give the nil pointer. -/
theorem C9_toBigInt_invalid_nil_witness :
    (¬ validNumeral 10 (str "abc") ∧ toBigInt (str "abc") 10 = none) ∧
    (¬ validNumeral 16 (str "") ∧ toBigInt (str "") 16 = none) :=
  ⟨⟨by decide, C9_toBigInt_invalid_nil (str "abc") 10 (Or.inl rfl) (by decide)⟩,
   ⟨by decide, C9_toBigInt_invalid_nil (str "") 16 (Or.inr rfl) (by decide)⟩⟩

/-- C9, the claim as stated fails: for the empty string and for "abc" in base 10, and for
"xyz" in base 16, none of them a valid numeral, `toBigInt` returns the nil pointer and not
a big integer zero. -/
theorem C9_counterexample :
    ¬ validNumeral 10 (str "") ∧ toBigInt (str "") 10 = none ∧
    ¬ validNumeral 10 (str "abc") ∧ toBigInt (str "abc") 10 = none ∧
    ¬ validNumeral 16 (str "xyz") ∧ toBigInt (str "xyz") 16 = none ∧
    (none : Option Int) ≠ some 0 := by
  decide

/-! ## `strconv.Atoi` -/

set_option maxRecDepth 1000000 in
theorem atoi_digit_test : ∀ c : Byte,
    (isDigit c = true → ¬ (c - 48 > 9) ∧ (c - 48).val = c.val - 48 ∧ (c - 48).val < 10 ∧
      c ≠ 43 ∧ c ≠ 45) ∧
    (isDigit c = false → c - 48 > 9) := by
  decide

set_option maxRecDepth 1000000 in
theorem parseUint_digit_test : ∀ c : Byte,
    (isDigit c = true → (48 ≤ c ∧ c ≤ 57)) ∧
    (isDigit c = false → ¬ (48 ≤ c ∧ c ≤ 57) ∧
      (97 ≤ lower c ∧ lower c ≤ 122 → (lower c - 97 + 10).val ≥ 10 % 256)) := by
  decide

theorem atoiLoop_nondigit (s : GoString) :
    s.any (fun c => !isDigit c) = true → ∀ n, atoiLoop s n = (0, some NumError.ErrSyntax) := by
  induction s with
  | nil => intro h; simp at h
  | cons c cs ih =>
    intro h n
    cases hc : isDigit c with
    | false =>
      have := (atoi_digit_test c).2 hc
      simp only [atoiLoop, this, if_true]
    | true =>
      have hd := (atoi_digit_test c).1 hc
      simp only [List.any_cons, hc, Bool.not_true, Bool.false_or] at h
      simp only [atoiLoop, hd.1, if_false]
      exact ih h _

theorem parseUintLoop_nondigit (c : Byte) (cs : GoString) (cutoff maxVal n : Nat)
    (hc : isDigit c = false) :
    parseUintLoop 10 cutoff maxVal (c :: cs) n = (0, some NumError.ErrSyntax) := by
  have h := (parseUint_digit_test c).2 hc
  unfold parseUintLoop
  simp only [h.1, if_false]
  by_cases h1 : 97 ≤ lower c ∧ lower c ≤ 122
  · simp only [h1, and_self, if_true, h.2 h1]
  · simp only [h1, if_false]

theorem parseUintLoop_digit (c : Byte) (cs : GoString) (cutoff maxVal n : Nat)
    (hc : isDigit c = true) :
    parseUintLoop 10 cutoff maxVal (c :: cs) n =
      if n ≥ cutoff then (maxVal, some NumError.ErrRange)
      else if (n * 10 % 2 ^ 64 + (c.val - 48)) % 2 ^ 64 < n * 10 % 2 ^ 64 ∨
          (n * 10 % 2 ^ 64 + (c.val - 48)) % 2 ^ 64 > maxVal then
        (maxVal, some NumError.ErrRange)
      else parseUintLoop 10 cutoff maxVal cs ((n * 10 % 2 ^ 64 + (c.val - 48)) % 2 ^ 64) := by
  have h := (parseUint_digit_test c).1 hc
  have hd := (atoi_digit_test c).1 hc
  rw [parseUintLoop]
  simp only [h, and_self, if_true, hd.2.1]
  have : ¬ (c.val - 48 ≥ 10 % 256) := by
    have := hd.2.2.1
    rw [hd.2.1] at this
    omega
  simp only [this, if_false]

theorem cutoff64 : maxUint64 / 10 + 1 = 1844674407370955162 := by decide

theorem parseUintLoop_syntax (s : GoString) :
    ∀ (m n : Nat), ((s.take m).any (fun c => !isDigit c)) = true →
      (n + 1) * 10 ^ m ≤ 10 ^ 20 →
      parseUintLoop 10 1844674407370955162 18446744073709551615 s n =
        (0, some NumError.ErrSyntax) := by
  induction s with
  | nil => intro m n h; simp at h
  | cons c cs ih =>
    intro m n h hb
    cases m with
    | zero => simp at h
    | succ m =>
      cases hc : isDigit c with
      | false => exact parseUintLoop_nondigit c cs _ _ n hc
      | true =>
        simp only [List.take_succ_cons, List.any_cons, hc, Bool.not_true, Bool.false_or] at h
        have hm : 1 ≤ m := by
          rcases Nat.eq_zero_or_pos m with h0 | h0
          · subst h0; simp at h
          · exact h0
        have hd := (atoi_digit_test c).1 hc
        have hdlt : c.val - 48 < 10 := by
          have := hd.2.2.1
          rw [hd.2.1] at this
          exact this
        have hP : 10 ≤ 10 ^ m := by
          calc 10 = 10 ^ 1 := by norm_num
            _ ≤ 10 ^ m := Nat.pow_le_pow_right (by norm_num) hm
        rw [pow_succ] at hb
        generalize hPe : 10 ^ m = P at hb hP
        have hn : n + 1 ≤ 10 ^ 18 := by
          by_contra hcon
          push_neg at hcon
          have : (10 ^ 18 + 1) * (10 * 10) ≤ (n + 1) * (P * 10) :=
            Nat.mul_le_mul (by omega) (Nat.mul_le_mul hP (le_refl _))
          omega
        rw [parseUintLoop_digit c cs _ _ n hc]
        have h1 : ¬ (n ≥ 1844674407370955162) := by omega
        have h2 : n * 10 % 2 ^ 64 = n * 10 := Nat.mod_eq_of_lt (by omega)
        have h3 : (n * 10 + (c.val - 48)) % 2 ^ 64 = n * 10 + (c.val - 48) :=
          Nat.mod_eq_of_lt (by omega)
        rw [if_neg h1, h2, h3, if_neg (by omega)]
        apply ih m
        · exact h
        · rw [hPe]
          calc (n * 10 + (c.val - 48) + 1) * P ≤ ((n + 1) * 10) * P :=
                  Nat.mul_le_mul_right _ (by omega)
            _ = (n + 1) * (P * 10) := by ring
            _ ≤ 10 ^ 20 := hb

theorem decimalValue_ge (s : GoString) : ∀ n, n ≤ decimalValue n s := by
  induction s with
  | nil => intro n; simp [decimalValue]
  | cons c cs ih =>
    intro n
    have := ih (n * 10 + (c.val - 48))
    simp only [decimalValue, List.foldl_cons] at this ⊢
    omega

theorem decimalValue_cons (n : Nat) (c : Byte) (cs : GoString) :
    decimalValue n (c :: cs) = decimalValue (n * 10 + (c.val - 48)) cs := by
  simp [decimalValue]

theorem decimalValue_lt (s : GoString) :
    ∀ n, s.all isDigit = true → decimalValue n s + 1 ≤ (n + 1) * 10 ^ s.length := by
  induction s with
  | nil => intro n _; simp [decimalValue]
  | cons c cs ih =>
    intro n h
    simp only [List.all_cons, Bool.and_eq_true] at h
    have hd := (atoi_digit_test c).1 h.1
    have hdlt : c.val - 48 < 10 := by
      have := hd.2.2.1
      rw [hd.2.1] at this
      exact this
    rw [decimalValue_cons, List.length_cons, pow_succ]
    calc decimalValue (n * 10 + (c.val - 48)) cs + 1
        ≤ (n * 10 + (c.val - 48) + 1) * 10 ^ cs.length := ih _ h.2
      _ ≤ ((n + 1) * 10) * 10 ^ cs.length := Nat.mul_le_mul_right _ (by omega)
      _ = (n + 1) * (10 ^ cs.length * 10) := by ring

theorem parseUintLoop_digits (s : GoString) :
    ∀ n, s.all isDigit = true → n ≤ 18446744073709551615 →
      parseUintLoop 10 1844674407370955162 18446744073709551615 s n =
        if decimalValue n s ≤ 18446744073709551615 then (decimalValue n s, none)
        else (18446744073709551615, some NumError.ErrRange) := by
  induction s with
  | nil =>
    intro n _ hn
    simp [parseUintLoop, decimalValue, hn]
  | cons c cs ih =>
    intro n h hn
    simp only [List.all_cons, Bool.and_eq_true] at h
    have hd := (atoi_digit_test c).1 h.1
    have hdlt : c.val - 48 < 10 := by
      have := hd.2.2.1
      rw [hd.2.1] at this
      exact this
    have hge := decimalValue_ge cs (n * 10 + (c.val - 48))
    rw [parseUintLoop_digit c cs _ _ n h.1, decimalValue_cons]
    by_cases h1 : n ≥ 1844674407370955162
    · rw [if_pos h1, if_neg (by omega)]
    · rw [if_neg h1]
      have h2 : n * 10 % 2 ^ 64 = n * 10 := Nat.mod_eq_of_lt (by omega)
      rw [h2]
      by_cases h3 : n * 10 + (c.val - 48) < 2 ^ 64
      · rw [Nat.mod_eq_of_lt h3, if_neg (by omega)]
        exact ih _ h.2 (by omega)
      · have h4 : (n * 10 + (c.val - 48)) % 2 ^ 64 = n * 10 + (c.val - 48) - 2 ^ 64 := by
          rw [Nat.mod_eq_sub_mod (by omega)]
          exact Nat.mod_eq_of_lt (by omega)
        rw [h4, if_pos (by omega), if_neg (by omega)]

theorem ParseUint_loop (s : GoString) (h : s ≠ []) :
    ParseUint s 10 0 =
      parseUintLoop 10 1844674407370955162 18446744073709551615 s 0 := by
  unfold ParseUint
  rw [if_neg h]
  simp only [if_true, cutoff64]
  norm_num

theorem ParseUint_notNumeric (u : GoString)
    (h : u = [] ∨ (u.take 20).any (fun c => !isDigit c) = true) :
    ParseUint u 10 0 = (0, some NumError.ErrSyntax) := by
  by_cases hu : u = []
  · subst hu; rfl
  · rw [ParseUint_loop u hu]
    rcases h with h | h
    · exact absurd h hu
    · exact parseUintLoop_syntax u 20 0 h (by norm_num)

theorem ParseInt_unsigned (c : Byte) (cs : GoString) :
    (if c = 43 then cs else if c = 45 then cs else c :: cs) = unsignedPart (c :: cs) := by
  unfold unsignedPart
  by_cases h1 : c = 43 <;> by_cases h2 : c = 45 <;> simp [h1, h2]

theorem unsignedPart_cons (c : Byte) (cs : GoString) :
    unsignedPart (c :: cs) = if c = 45 ∨ c = 43 then cs else c :: cs := rfl

theorem unsignedPart_length_le (s : GoString) : (unsignedPart s).length ≤ s.length := by
  cases s with
  | nil => simp [unsignedPart]
  | cons c cs =>
    rw [unsignedPart_cons]
    split_ifs <;> simp

theorem ParseInt_cons (c : Byte) (cs : GoString) :
    ParseInt (c :: cs) 10 0 =
      match ParseUint (unsignedPart (c :: cs)) 10 0 with
      | (_, some NumError.ErrSyntax) => (0, some NumError.ErrSyntax)
      | (un, _) =>
        if (!decide (c = 45)) && decide (un ≥ 2 ^ 63) then
          (2 ^ 63 - 1, some NumError.ErrRange)
        else if decide (c = 45) && decide (un > 2 ^ 63) then
          (-(2 ^ 63), some NumError.ErrRange)
        else (if decide (c = 45) then -(un : Int) else (un : Int), none) := by
  unfold ParseInt
  simp only [ParseInt_unsigned]
  norm_num

theorem ParseInt_notNumeric (s : GoString) (h : notNumeric s) : (ParseInt s 10 0).1 = 0 := by
  cases s with
  | nil => rfl
  | cons c cs =>
    rw [ParseInt_cons, ParseUint_notNumeric _ h]

theorem Atoi_short (c : Byte) (cs : GoString) (hlen : (c :: cs).length < 19) :
    Atoi (c :: cs) =
      if (c = 45 ∨ c = 43) ∧ (unsignedPart (c :: cs)).length < 1 then
        (0, some NumError.ErrSyntax)
      else
        match atoiLoop (unsignedPart (c :: cs)) 0 with
        | (_, some e) => (0, some e)
        | (n, none) => (if c = 45 then -n else n, none) := by
  unfold Atoi
  have h : 0 < (c :: cs).length ∧ (c :: cs).length < 19 := ⟨by simp, hlen⟩
  simp only [h, and_self, if_true]
  rfl

theorem Atoi_long (s : GoString) (h : ¬ (0 < s.length ∧ s.length < 19)) :
    Atoi s = ParseInt s 10 0 := by
  unfold Atoi
  simp only [h, if_false]

theorem Atoi_notNumeric (s : GoString) (h : notNumeric s) : (Atoi s).1 = 0 := by
  by_cases hlen : 0 < s.length ∧ s.length < 19
  · cases s with
    | nil => simp at hlen
    | cons c cs =>
      rw [Atoi_short c cs hlen.2]
      by_cases h1 : (c = 45 ∨ c = 43) ∧ (unsignedPart (c :: cs)).length < 1
      · rw [if_pos h1]
      · rw [if_neg h1]
        have hany : (unsignedPart (c :: cs)).any (fun c => !isDigit c) = true := by
          rcases h with h | h
          · exfalso
            by_cases hsign : c = 45 ∨ c = 43
            · exact h1 ⟨hsign, by rw [h]; simp⟩
            · rw [unsignedPart_cons, if_neg hsign] at h
              exact absurd h (by simp)
          · have hl : (unsignedPart (c :: cs)).length ≤ 20 := by
              have := unsignedPart_length_le (c :: cs)
              omega
            rw [List.take_of_length_le hl] at h
            exact h
        rw [atoiLoop_nondigit _ hany]
  · rw [Atoi_long s hlen]
    exact ParseInt_notNumeric s h

theorem digits_length_of_large (u : GoString) (h : u.all isDigit = true)
    (hv : decimalValue 0 u > 2 ^ 63 - 1) : 19 ≤ u.length := by
  by_contra hcon
  push_neg at hcon
  have h1 := decimalValue_lt u 0 h
  have h2 : 10 ^ u.length ≤ 10 ^ 18 := Nat.pow_le_pow_right (by norm_num) (by omega)
  have h3 : (10 : Nat) ^ 18 ≤ 2 ^ 63 - 1 := by norm_num
  omega

theorem ParseUint_digits (u : GoString) (h : u.all isDigit = true) (hne : u ≠ []) :
    ParseUint u 10 0 =
      if decimalValue 0 u ≤ 18446744073709551615 then (decimalValue 0 u, none)
      else (18446744073709551615, some NumError.ErrRange) := by
  rw [ParseUint_loop u hne]
  exact parseUintLoop_digits u 0 h (by norm_num)

theorem Atoi_aboveIntRange (s : GoString) (h : aboveIntRange s) :
    (Atoi s).1 = 2 ^ 63 - 1 := by
  obtain ⟨hneg, hdig, hval⟩ := h
  have hlen := digits_length_of_large _ hdig hval
  have hlen2 := unsignedPart_length_le s
  rw [Atoi_long s (by omega)]
  cases s with
  | nil => simp [unsignedPart] at hlen
  | cons c cs =>
    have hc : c ≠ 45 := by
      intro e
      exact hneg (by simp [e])
    have hne : unsignedPart (c :: cs) ≠ [] := by
      intro e
      rw [e] at hlen
      simp at hlen
    rw [ParseInt_cons, ParseUint_digits _ hdig hne]
    by_cases h1 : decimalValue 0 (unsignedPart (c :: cs)) ≤ 18446744073709551615
    · rw [if_pos h1]
      simp only [hc, decide_False, Bool.not_false, Bool.true_and]
      rw [if_pos (by simpa using (by omega : decimalValue 0 (unsignedPart (c :: cs)) ≥ 2 ^ 63))]
    · rw [if_neg h1]
      simp only [hc, decide_False, Bool.not_false, Bool.true_and]
      rw [if_pos (by norm_num)]

theorem Atoi_belowIntRange (s : GoString) (h : belowIntRange s) :
    (Atoi s).1 = -(2 ^ 63) := by
  obtain ⟨hneg, hdig, hval⟩ := h
  have hlen := digits_length_of_large _ hdig (by omega)
  have hlen2 := unsignedPart_length_le s
  rw [Atoi_long s (by omega)]
  cases s with
  | nil => simp [unsignedPart] at hlen
  | cons c cs =>
    have hc : c = 45 := by simpa using hneg
    subst hc
    have hne : unsignedPart (45 :: cs) ≠ [] := by
      intro e
      rw [e] at hlen
      simp at hlen
    rw [ParseInt_cons, ParseUint_digits _ hdig hne]
    by_cases h1 : decimalValue 0 (unsignedPart (45 :: cs)) ≤ 18446744073709551615
    · rw [if_pos h1]
      simp only [decide_True, Bool.not_true, Bool.false_and, Bool.true_and]
      rw [if_neg (by simp), if_pos (by simpa using hval)]
    · rw [if_neg h1]
      simp only [decide_True, Bool.not_true, Bool.false_and, Bool.true_and]
      rw [if_neg (by simp), if_pos (by norm_num)]

/-- C10 (as amended): each machine-integer field that `TxList` and `TokenTx` derive from a
wire string is 0 when the string is no decimal numeral (nothing after the optional sign, or
a byte that is no digit among the first 20 bytes after it); for a decimal numeral outside
the machine integer range the field is the nearest bound, `2^63 - 1` above the range and
`-2^63` below it. -/
theorem C10_int_fields (v : response.TxList) (w : response.TokenTx) :
    ∀ p ∈ Client.TxList.intFields v (Client.TxList.convert v) ++
        Client.TokenTx.intFields w (Client.TokenTx.convert w),
      (notNumeric p.1 → p.2 = 0) ∧
      (aboveIntRange p.1 → p.2 = 2 ^ 63 - 1) ∧
      (belowIntRange p.1 → p.2 = -(2 ^ 63)) := by
  have key : ∀ s : GoString,
      (notNumeric s → (Atoi s).1 = 0) ∧
      (aboveIntRange s → (Atoi s).1 = 2 ^ 63 - 1) ∧
      (belowIntRange s → (Atoi s).1 = -(2 ^ 63)) :=
    fun s => ⟨Atoi_notNumeric s, Atoi_aboveIntRange s, Atoi_belowIntRange s⟩
  intro p hp
  simp only [Client.TxList.intFields, Client.TxList.convert, Client.TokenTx.intFields,
    Client.TokenTx.convert, List.cons_append, List.nil_append, List.mem_cons,
    List.mem_singleton, List.not_mem_nil, or_false] at hp
  rcases hp with h | h | h | h | h | h | h | h | h | h | h | h | h <;>
    (rw [h]; exact key _)

/-- C10 as amended, instances: an empty `gas` gives 0, the `gasUsed` "9223372036854775808"
gives `2^63 - 1`, the `nonce` "-9223372036854775809" gives `-2^63`. -/
theorem C10_int_fields_witness :
    (notNumeric (str "") ∧ aboveIntRange (str "9223372036854775808") ∧
      belowIntRange (str "-9223372036854775809")) ∧
    (Client.TxList.convert { response.TxList.zero with
        Gas := str "", Gasused := str "9223372036854775808",
        Nonce := str "-9223372036854775809" }).Gas = 0 ∧
    (Client.TxList.convert { response.TxList.zero with
        Gas := str "", Gasused := str "9223372036854775808",
        Nonce := str "-9223372036854775809" }).GasUsed = 2 ^ 63 - 1 ∧
    (Client.TxList.convert { response.TxList.zero with
        Gas := str "", Gasused := str "9223372036854775808",
        Nonce := str "-9223372036854775809" }).Nonce = -(2 ^ 63) :=
  ⟨by decide,
   (C10_int_fields { response.TxList.zero with
        Gas := str "", Gasused := str "9223372036854775808",
        Nonce := str "-9223372036854775809" } response.TokenTx.zero
      (_, _) (List.mem_cons_of_mem _ (List.mem_cons_self _ _))).1 (by decide),
   (C10_int_fields { response.TxList.zero with
        Gas := str "", Gasused := str "9223372036854775808",
        Nonce := str "-9223372036854775809" } response.TokenTx.zero
      (_, _) (List.mem_cons_of_mem _ (List.mem_cons_of_mem _ (List.mem_cons_self _ _)))).2.1
      (by decide),
   (C10_int_fields { response.TxList.zero with
        Gas := str "", Gasused := str "9223372036854775808",
        Nonce := str "-9223372036854775809" } response.TokenTx.zero
      (_, _) (List.mem_cons_of_mem _ (List.mem_cons_of_mem _ (List.mem_cons_of_mem _
        (List.mem_cons_of_mem _ (List.mem_cons_self _ _)))))).2.2 (by decide)⟩

/-- C10, the claim as stated fails: a `gas` of "9223372036854775808", a decimal numeral
just above the machine integer range, gives the `Gas` field `2^63 - 1` and not 0, through
`Client.TxList` and through the conversion of `Client.TokenTx`; so does the non-numeric
string "18446744073709551616x". -/
theorem C10_counterexample :
    ((Client.mk ⟨fun _ => HttpResult.response 200 (HttpBody.data (some (Json.object
        [(str "status", Json.string (str "1")), (str "message", Json.string (str "OK")),
         (str "result", Json.array [Json.object
           [(str "gas", Json.string (str "9223372036854775808"))]])]))),
      str "https://explorer.celo.org/api"⟩).TxList (str "ab") none none none none none).map
        (fun res => (res.1.map (fun t => t.Gas), res.2)) =
      some ([9223372036854775807], none) ∧
    (Client.TokenTx.convert { response.TokenTx.zero with
        Gas := str "9223372036854775808" }).Gas = 9223372036854775807 ∧
    (Client.TxList.convert { response.TxList.zero with
        Gas := str "18446744073709551616x" }).Gas = 9223372036854775807 ∧
    (Atoi (str "9223372036854775808")).2 = some NumError.ErrRange := by
  decide

/-! ## `hexToByte` -/

set_option maxRecDepth 1000000 in
theorem hex_table_fact : ∀ c : Byte,
    (isHexDigit c = true →
      (reverseHexTable c).val = bigDigit c ∧ (reverseHexTable c).val < 16 ∧
        ¬ reverseHexTable c > 15) ∧
    (isHexDigit c = false → reverseHexTable c > 15) := by
  decide

set_option maxRecDepth 1000000 in
theorem shift_or_fact : ∀ a b : Fin 16,
    ((((Fin.castLE (by norm_num) a : Byte) <<< 4) ||| (Fin.castLE (by norm_num) b : Byte)) :
      Byte).val = a.val * 16 + b.val := by
  decide

theorem hex_pair_fact (p q : Byte) (hp : isHexDigit p = true) (hq : isHexDigit q = true) :
    (reverseHexTable p <<< 4) ||| reverseHexTable q = hexPairValue p q := by
  have h1 := (hex_table_fact p).1 hp
  have h2 := (hex_table_fact q).1 hq
  have h := shift_or_fact ⟨(reverseHexTable p).val, h1.2.1⟩ ⟨(reverseHexTable q).val, h2.2.1⟩
  apply Fin.ext
  have e1 : (Fin.castLE (by norm_num) (⟨(reverseHexTable p).val, h1.2.1⟩ : Fin 16) : Byte) =
      reverseHexTable p := Fin.ext rfl
  have e2 : (Fin.castLE (by norm_num) (⟨(reverseHexTable q).val, h2.2.1⟩ : Fin 16) : Byte) =
      reverseHexTable q := Fin.ext rfl
  rw [e1, e2] at h
  rw [h]
  simp only [hexPairValue, ← h1.1, ← h2.1]
  have := h1.2.1
  have := h2.2.1
  omega

theorem hexDecode_decodedPairs : ∀ (n : Nat) (s : GoString), s.length ≤ n →
    (hexDecode s).1 = decodedPairs s := by
  intro n
  induction n with
  | zero =>
    intro s h
    cases s with
    | nil => rfl
    | cons c cs => simp at h
  | succ n ih =>
    intro s h
    rcases s with _ | ⟨p, _ | ⟨q, rest⟩⟩
    · rfl
    · rfl
    · have hrest : rest.length ≤ n := by
        simp only [List.length_cons] at h
        omega
      cases hp : isHexDigit p with
      | false =>
        have := (hex_table_fact p).2 hp
        simp [hexDecode, decodedPairs, hp, this]
      | true =>
        have h1 := (hex_table_fact p).1 hp
        cases hq : isHexDigit q with
        | false =>
          have := (hex_table_fact q).2 hq
          simp [hexDecode, decodedPairs, hp, hq, this, h1.2.2]
        | true =>
          have h2 := (hex_table_fact q).1 hq
          simp only [hexDecode, decodedPairs, hp, hq, h1.2.2, h2.2.2, if_false, Bool.and_self,
            if_true, hex_pair_fact p q hp hq, ih rest hrest]

/-- C11 (as amended): for every string `s` (in particular one that is not a valid hex
encoding), `hexToByte(s)` returns the bytes of the leading pairs of hex digits of `s`, up
to the first pair that is not two hex digits or to the odd last byte; the result is empty
exactly when `s` does not start with two hex digits. -/
theorem C11_hexToByte_leading_pairs (s : GoString) :
    hexToByte s = decodedPairs s ∧
    (hexToByte s = [] ↔
      ¬ ∃ p q rest, s = p :: q :: rest ∧ isHexDigit p = true ∧ isHexDigit q = true) := by
  have h : hexToByte s = decodedPairs s := hexDecode_decodedPairs s.length s (le_refl _)
  refine ⟨h, ?_⟩
  rw [h]
  rcases s with _ | ⟨p, _ | ⟨q, rest⟩⟩
  · simp [decodedPairs]
  · simp [decodedPairs]
  · by_cases hpq : (isHexDigit p && isHexDigit q) = true
    · have hpq2 := hpq
      simp only [Bool.and_eq_true] at hpq2
      simp [decodedPairs, hpq, hpq2.1, hpq2.2]
    · have : ¬ (isHexDigit p = true ∧ isHexDigit q = true) := by
        simpa [Bool.and_eq_true] using hpq
      have hd : decodedPairs (p :: q :: rest) = [] := by
        simp [decodedPairs, hpq]
      rw [hd]
      simp only [true_iff]
      rintro ⟨p2, q2, rest2, e, h1, h2⟩
      simp only [List.cons.injEq] at e
      obtain ⟨rfl, rfl, -⟩ := e
      exact this ⟨h1, h2⟩

/-- C11, the claim as stated fails: "0a0" has odd length and "0a0g11" has the byte `g`
at its fourth position, neither is a valid hex encoding, and `hexToByte` returns the byte
10 decoded from the leading pair "0a" for both, not the empty sequence. -/
theorem C11_counterexample :
    ¬ validHex (str "0a0") ∧ hexToByte (str "0a0") = [10] ∧
    ¬ validHex (str "0a0g11") ∧ hexToByte (str "0a0g11") = [10] ∧
    ([10] : List Byte) ≠ [] := by
  decide

/-- C11 as amended, an instance: "0a0g11" gives the bytes of its leading pair. -/
theorem C11_hexToByte_leading_pairs_witness :
    hexToByte (str "0a0g11") = decodedPairs (str "0a0g11") ∧
    decodedPairs (str "0a0g11") = [10] :=
  ⟨(C11_hexToByte_leading_pairs (str "0a0g11")).1, by decide⟩

/-! ## Reading the wire -/

theorem field_storeString_foldr (name : String) (l : List (GoString × Json)) (cur : GoString) :
    l.foldr (fun kv cur => if fieldMatch (str name) kv.1 then storeString kv.2 cur else cur) cur =
      match l.find? (fun kv => fieldMatch (str name) kv.1 && kv.2.string?.isSome) with
      | some kv => kv.2.string?.getD []
      | none => cur := by
  induction l with
  | nil => rfl
  | cons kv l ih =>
    obtain ⟨k, v⟩ := kv
    simp only [List.foldr_cons, List.find?_cons]
    rw [ih]
    by_cases hm : fieldMatch (str name) k = true
    · cases v <;> simp [hm, storeString, Json.string?]
    · simp [hm]

/-- Decoding a string field into an empty string gives the wire text of the field. -/
theorem field_storeString (name : String) (ms : List (GoString × Json)) :
    field storeString name ms [] = wireString name ms := by
  unfold field wireString
  rw [← field_storeString_foldr, List.foldr_reverse]

theorem field_eq_filter {α : Type} (store : Json → α → α) (name : String)
    (ms : List (GoString × Json)) (cur : α) :
    field store name ms cur =
      (ms.filter (fun kv => fieldMatch (str name) kv.1)).foldl
        (fun cur kv => store kv.2 cur) cur := by
  unfold field
  induction ms generalizing cur with
  | nil => rfl
  | cons kv ms ih =>
    by_cases hm : fieldMatch (str name) kv.1 = true
    · simp [List.filter_cons, hm, ih]
    · simp [List.filter_cons, hm, ih]

theorem enumFrom_map_snd {α β : Type} (g : α → β) (l : List α) (n : Nat) :
    (l.enumFrom n).map (fun ie => g ie.2) = l.map g := by
  induction l generalizing n with
  | nil => rfl
  | cons a l ih => simp [List.enumFrom, ih]

/-- Decoding an array into a nil slice decodes each element into a zero element. -/
theorem storeSlice_fresh {α : Type} (zero : α) (store : Json → α → α) (elems : List Json) :
    storeSlice zero store (Json.array elems) [] = elems.map (fun e => store e zero) := by
  simp only [storeSlice, List.getD_nil, List.enum]
  exact enumFrom_map_snd (fun e => store e zero) elems 0

theorem map_storeString_strings (elems : List Json) (ts : List GoString)
    (h : Json.strings? elems = some ts) : elems.map (fun e => storeString e []) = ts := by
  induction elems generalizing ts with
  | nil =>
    simp only [Json.strings?, Option.some.injEq] at h
    rw [← h]
    rfl
  | cons e elems ih =>
    cases e <;> simp only [Json.strings?, Option.map_eq_some', reduceCtorEq] at h
    obtain ⟨ts2, h2, rfl⟩ := h
    rw [List.map_cons, ih ts2 h2]
    rfl

/-- Decoding a slice field into a nil slice gives the decoded elements of the wire array. -/
theorem field_wireArray {α : Type} (zero : α) (store : Json → α → α) (name : String)
    (ms : List (GoString × Json)) (elems : List Json) (h : wireArray name ms = some elems) :
    field (storeSlice zero store) name ms [] = elems.map (fun e => store e zero) := by
  rw [field_eq_filter]
  unfold wireArray at h
  split at h
  · rename_i he
    simp only [Option.some.injEq] at h
    rw [he, ← h]
    rfl
  · rename_i k es he
    simp only [Option.some.injEq] at h
    rw [he, ← h]
    simp only [List.foldl_cons, List.foldl_nil]
    exact storeSlice_fresh zero store es
  · rename_i k he
    simp only [Option.some.injEq] at h
    rw [he, ← h]
    rfl
  · exact absurd h (by simp)

/-- Decoding a field of strings into a nil slice gives the wire list of the field. -/
theorem field_wireStringList (name : String) (ms : List (GoString × Json))
    (ts : List GoString) (h : wireStringList name ms = some ts) :
    field (storeSlice [] storeString) name ms [] = ts := by
  unfold wireStringList at h
  obtain ⟨elems, h1, h2⟩ := Option.bind_eq_some.mp h
  rw [field_wireArray [] storeString name ms elems h1]
  exact map_storeString_strings elems ts h2

theorem map_field_wireStringList (name : String) (elems : List Json)
    (wire : List (List GoString))
    (hw : elems.map (fun e => wireStringList name e.members) = wire.map some) :
    elems.map (fun e => field (storeSlice [] storeString) name e.members []) = wire := by
  induction elems generalizing wire with
  | nil =>
    cases wire with
    | nil => rfl
    | cons w wire => simp at hw
  | cons e elems ih =>
    cases wire with
    | nil => simp at hw
    | cons w wire =>
      simp only [List.map_cons, List.cons.injEq] at hw ⊢
      exact ⟨field_wireStringList name _ w hw.1, ih wire hw.2⟩

/-- With an envelope of status "1" that carries a result, `jsonResponse` decodes the result
into the variable behind the pointer and returns no error. -/
theorem RequestClient.jsonResponse_result {α : Type} (r : RequestClient) (u : URL)
    (store : Json → α → α) (x : α) (code : Int) (body result : Json)
    (hr : r.http u = HttpResult.response code (HttpBody.data (some body)))
    (hs : (storeBaseResponse body response.BaseResponse.zero).Status = str "1")
    (hres : (storeBaseResponse body response.BaseResponse.zero).Result = some result) :
    r.jsonResponse u store (Iface.pointer x) = (Iface.pointer (store result x), none) := by
  simp only [RequestClient.jsonResponse, hr, jsonUnmarshal, Iface.get, hs, if_true, hres]

/-! ## Status flags -/

/-- C12: for every answer to the status request whose envelope has status "1" and carries a
result, `Client.GetStatus` returns `true` exactly when the `isError` the result carries on
the wire equals "0" and `false` for every other value, together with the wire
`errDescription` unchanged and no error; for the result object
`{"isError": e, "errDescription": d}` it returns `e = "0"` and `d`. -/
theorem C12_GetStatus (c : Client) (txHash : GoString) (u : URL) (code : Int)
    (body result : Json)
    (hu : buildUrl [c.req.base, getStatusUrl] = some u)
    (hr : c.req.http ((newQueryBuilder u).txHash txHash).url =
      HttpResult.response code (HttpBody.data (some body)))
    (hs : (storeBaseResponse body response.BaseResponse.zero).Status = str "1")
    (hres : (storeBaseResponse body response.BaseResponse.zero).Result = some result) :
    c.GetStatus txHash =
      some (decide (wireString "isError" result.members = str "0"),
        wireString "errDescription" result.members, none) ∧
    (wireString "isError" result.members = str "0" →
      c.GetStatus txHash = some (true, wireString "errDescription" result.members, none)) ∧
    (wireString "isError" result.members ≠ str "0" →
      c.GetStatus txHash = some (false, wireString "errDescription" result.members, none)) ∧
    (∀ e d : GoString,
      result = Json.object
        [(str "isError", Json.string e), (str "errDescription", Json.string d)] →
      c.GetStatus txHash = some (decide (e = str "0"), d, none)) := by
  have hreq : c.req.GetStatus txHash =
      some ({ Errdescription := wireString "errDescription" result.members,
              Iserror := wireString "isError" result.members }, none) := by
    unfold RequestClient.GetStatus
    simp only [hu, Option.bind_eq_bind, Option.some_bind,
      RequestClient.jsonResponse_result _ _ _ _ code body result hr hs hres, Iface.get,
      storeGetStatus, field_storeString, Option.pure_def]
  have h1 : c.GetStatus txHash =
      some (decide (wireString "isError" result.members = str "0"),
        wireString "errDescription" result.members, none) := by
    unfold Client.GetStatus
    simp only [hreq, Option.bind_eq_bind, Option.some_bind]
    by_cases h0 : wireString "isError" result.members = str "0"
    · simp [h0]
    · simp [h0]
  refine ⟨h1, ?_, ?_, ?_⟩
  · intro h0
    rw [h1, h0]
    rfl
  · intro h0
    rw [h1]
    simp [h0]
  · intro e d hobj
    have m1 : fieldMatch (str "isError") (str "isError") = true := by decide
    have m2 : fieldMatch (str "isError") (str "errDescription") = false := by decide
    have m3 : fieldMatch (str "errDescription") (str "isError") = false := by decide
    have m4 : fieldMatch (str "errDescription") (str "errDescription") = true := by decide
    have w1 : wireString "isError" result.members = e := by
      rw [hobj]
      simp [wireString, Json.members, List.find?, m1, m2, Json.string?]
    have w2 : wireString "errDescription" result.members = d := by
      rw [hobj]
      simp [wireString, Json.members, List.find?, m3, m4, Json.string?]
    rw [h1, w1, w2]

set_option maxRecDepth 1000000 in
/-- C12, instances: the answer `{"isError":"0","errDescription":""}` in a status "1"
envelope gives `true` with the empty description, and the answer
`{"isError":"1","errDescription":"Reverted"}` gives `false` with "Reverted". -/
theorem C12_GetStatus_witness :
    (Client.mk ⟨fun _ => HttpResult.response 200 (HttpBody.data (some (Json.object
        [(str "status", Json.string (str "1")), (str "message", Json.string (str "OK")),
         (str "result", Json.object
           [(str "isError", Json.string (str "0")),
            (str "errDescription", Json.string (str ""))])]))),
      str "https://explorer.celo.org/api"⟩).GetStatus (str "ab") =
      some (true, str "", none) ∧
    (Client.mk ⟨fun _ => HttpResult.response 200 (HttpBody.data (some (Json.object
        [(str "status", Json.string (str "1")), (str "message", Json.string (str "OK")),
         (str "result", Json.object
           [(str "isError", Json.string (str "1")),
            (str "errDescription", Json.string (str "Reverted"))])]))),
      str "https://explorer.celo.org/api"⟩).GetStatus (str "ab") =
      some (false, str "Reverted", none) :=
  ⟨(C12_GetStatus
      (Client.mk ⟨fun _ => HttpResult.response 200 (HttpBody.data (some (Json.object
        [(str "status", Json.string (str "1")), (str "message", Json.string (str "OK")),
         (str "result", Json.object
           [(str "isError", Json.string (str "0")),
            (str "errDescription", Json.string (str ""))])]))),
        str "https://explorer.celo.org/api"⟩) (str "ab")
      ⟨str "https://explorer.celo.org/api",
        str "module=transaction&action=getstatus&txhash={transactionHash}", []⟩ 200
      (Json.object
        [(str "status", Json.string (str "1")), (str "message", Json.string (str "OK")),
         (str "result", Json.object
           [(str "isError", Json.string (str "0")),
            (str "errDescription", Json.string (str ""))])])
      (Json.object
        [(str "isError", Json.string (str "0")),
         (str "errDescription", Json.string (str ""))])
      (by decide) rfl (by decide) rfl).2.2.2 (str "0") (str "") rfl,
   (C12_GetStatus
      (Client.mk ⟨fun _ => HttpResult.response 200 (HttpBody.data (some (Json.object
        [(str "status", Json.string (str "1")), (str "message", Json.string (str "OK")),
         (str "result", Json.object
           [(str "isError", Json.string (str "1")),
            (str "errDescription", Json.string (str "Reverted"))])]))),
        str "https://explorer.celo.org/api"⟩) (str "ab")
      ⟨str "https://explorer.celo.org/api",
        str "module=transaction&action=getstatus&txhash={transactionHash}", []⟩ 200
      (Json.object
        [(str "status", Json.string (str "1")), (str "message", Json.string (str "OK")),
         (str "result", Json.object
           [(str "isError", Json.string (str "1")),
            (str "errDescription", Json.string (str "Reverted"))])])
      (Json.object
        [(str "isError", Json.string (str "1")),
         (str "errDescription", Json.string (str "Reverted"))])
      (by decide) rfl (by decide) rfl).2.2.2 (str "1") (str "Reverted") rfl⟩

/-- C13: for every client, (1) for every answer to the receipt status request whose
envelope has status "1" and carries a result, `Client.GetTxReceiptStatus` returns `true`
exactly when the `status` the result carries on the wire equals "1"; (2) for every answer
to the transaction list request whose envelope has status "1" and whose result is an array
of records, `Client.TxList` returns one `Transaction` per record, in order, whose
`TxReceiptStatus` is `true` exactly when the wire `txreceipt_status` of the record equals
"1" and whose `IsError` is `false` exactly when its wire `isError` equals "0"; so a record
with `isError` "0" and `txreceipt_status` "1" has `TxReceiptStatus` true and `IsError`
false. -/
theorem C13_receipt_status (c : Client) :
    (∀ (txHash : GoString) (u : URL) (code : Int) (body result : Json),
      buildUrl [c.req.base, getTxReceiptStatusUrl] = some u →
      c.req.http ((newQueryBuilder u).txHash txHash).url =
        HttpResult.response code (HttpBody.data (some body)) →
      (storeBaseResponse body response.BaseResponse.zero).Status = str "1" →
      (storeBaseResponse body response.BaseResponse.zero).Result = some result →
      c.GetTxReceiptStatus txHash =
        some (decide (wireString "status" result.members = str "1"), none)) ∧
    (∀ (address : GoString) (sort : Option sortDirection) (block : Option BlockRange)
      (page : Option PageRange) (filter : Option filterDirection)
      (timeRange : Option TimeRange) (u : URL) (code : Int) (body : Json)
      (elems : List Json),
      buildUrl [c.req.base, txListUrl] = some u →
      c.req.http (((((((newQueryBuilder u).address address).sort sort).blockRange
          block).pageRange page).filterByDirection filter).timeRange timeRange).url =
        HttpResult.response code (HttpBody.data (some body)) →
      (storeBaseResponse body response.BaseResponse.zero).Status = str "1" →
      (storeBaseResponse body response.BaseResponse.zero).Result =
        some (Json.array elems) →
      ∃ txs, c.TxList address sort block page filter timeRange = some (txs, none) ∧
        txs.map (fun t => t.TxReceiptStatus) =
          elems.map (fun e =>
            decide (wireString "txreceipt_status" e.members = str "1")) ∧
        txs.map (fun t => t.IsError) =
          elems.map (fun e => !decide (wireString "isError" e.members = str "0")) ∧
        (∀ (k : Nat) (e : Json), elems[k]? = some e →
          wireString "isError" e.members = str "0" →
          wireString "txreceipt_status" e.members = str "1" →
          (txs[k]?).map (fun t => (t.TxReceiptStatus, t.IsError)) =
            some (true, false))) := by
  refine ⟨?_, ?_⟩
  · intro txHash u code body result hu hr hs hres
    have hreq : c.req.GetTxReceiptStatus txHash =
        some ({ Status := wireString "status" result.members }, none) := by
      unfold RequestClient.GetTxReceiptStatus
      simp only [hu, Option.bind_eq_bind, Option.some_bind,
        RequestClient.jsonResponse_result _ _ _ _ code body result hr hs hres, Iface.get,
        storeGetTxReceiptStatus, field_storeString, Option.pure_def]
    unfold Client.GetTxReceiptStatus
    simp only [hreq, Option.bind_eq_bind, Option.some_bind]
    by_cases h1 : wireString "status" result.members = str "1"
    · simp [h1]
    · simp [h1]
  · intro address sort block page filter timeRange u code body elems hu hr hs hres
    have hreq : c.req.TxList address sort block page filter timeRange =
        some (elems.map (fun e => storeTxList e response.TxList.zero), none) := by
      unfold RequestClient.TxList
      simp only [hu, Option.bind_eq_bind, Option.some_bind,
        RequestClient.jsonResponse_result _ _ _ _ code body (Json.array elems) hr hs hres,
        Iface.get, storeSlice_fresh, Option.pure_def]
    have e1 : ∀ e : Json,
        (Client.TxList.convert (storeTxList e response.TxList.zero)).TxReceiptStatus =
          decide (wireString "txreceipt_status" e.members = str "1") := by
      intro e
      simp only [Client.TxList.convert, storeTxList, response.TxList.zero, field_storeString]
      by_cases h1 : wireString "txreceipt_status" e.members = str "1" <;> simp [h1]
    have e2 : ∀ e : Json,
        (Client.TxList.convert (storeTxList e response.TxList.zero)).IsError =
          !decide (wireString "isError" e.members = str "0") := by
      intro e
      simp only [Client.TxList.convert, storeTxList, response.TxList.zero, field_storeString]
      by_cases h1 : wireString "isError" e.members = str "0" <;> simp [h1]
    refine ⟨(elems.map (fun e => storeTxList e response.TxList.zero)).map
      Client.TxList.convert, ?_, ?_, ?_, ?_⟩
    · unfold Client.TxList
      simp only [hreq, Option.bind_eq_bind, Option.some_bind, Option.pure_def]
    · simp only [List.map_map]
      apply List.map_congr_left
      intro e _
      exact e1 e
    · simp only [List.map_map]
      apply List.map_congr_left
      intro e _
      exact e2 e
    · intro k e hk h0 h1
      simp only [List.getElem?_map, hk, Option.map_some', e1, e2, h0, h1]
      rfl

set_option maxRecDepth 1000000 in
/-- C13, instances: the receipt status `{"status":"1"}` in a status "1" envelope gives
`true` and `{"status":"0"}` gives `false`; the list of the two records
`{"isError":"0","txreceipt_status":"1"}` and `{"isError":"1","txreceipt_status":"0"}`
gives two transactions, the first with `TxReceiptStatus` true and `IsError` false, the
second with `TxReceiptStatus` false and `IsError` true. -/
theorem C13_receipt_status_witness :
    (Client.mk ⟨fun _ => HttpResult.response 200 (HttpBody.data (some (Json.object
        [(str "status", Json.string (str "1")), (str "message", Json.string (str "OK")),
         (str "result", Json.object [(str "status", Json.string (str "1"))])]))),
      str "https://explorer.celo.org/api"⟩).GetTxReceiptStatus (str "ab") =
      some (true, none) ∧
    (Client.mk ⟨fun _ => HttpResult.response 200 (HttpBody.data (some (Json.object
        [(str "status", Json.string (str "1")), (str "message", Json.string (str "OK")),
         (str "result", Json.object [(str "status", Json.string (str "0"))])]))),
      str "https://explorer.celo.org/api"⟩).GetTxReceiptStatus (str "ab") =
      some (false, none) ∧
    (∃ txs,
      (Client.mk ⟨fun _ => HttpResult.response 200 (HttpBody.data (some (Json.object
        [(str "status", Json.string (str "1")), (str "message", Json.string (str "OK")),
         (str "result", Json.array
           [Json.object [(str "isError", Json.string (str "0")),
              (str "txreceipt_status", Json.string (str "1"))],
            Json.object [(str "isError", Json.string (str "1")),
              (str "txreceipt_status", Json.string (str "0"))]])]))),
        str "https://explorer.celo.org/api"⟩).TxList (str "ab") none none none none none =
        some (txs, none) ∧
      txs.map (fun t => t.TxReceiptStatus) = [true, false] ∧
      txs.map (fun t => t.IsError) = [false, true]) :=
  ⟨(C13_receipt_status _).1 (str "ab")
      ⟨str "https://explorer.celo.org/api",
        str "module=transaction&action=gettxreceiptstatus&txhash={transactionHash}", []⟩
      200
      (Json.object
        [(str "status", Json.string (str "1")), (str "message", Json.string (str "OK")),
         (str "result", Json.object [(str "status", Json.string (str "1"))])])
      (Json.object [(str "status", Json.string (str "1"))])
      (by decide) rfl (by decide) rfl,
   (C13_receipt_status _).1 (str "ab")
      ⟨str "https://explorer.celo.org/api",
        str "module=transaction&action=gettxreceiptstatus&txhash={transactionHash}", []⟩
      200
      (Json.object
        [(str "status", Json.string (str "1")), (str "message", Json.string (str "OK")),
         (str "result", Json.object [(str "status", Json.string (str "0"))])])
      (Json.object [(str "status", Json.string (str "0"))])
      (by decide) rfl (by decide) rfl,
   (C13_receipt_status _).2 (str "ab") none none none none none
      ⟨str "https://explorer.celo.org/api",
        str "module=account&action=txlist&address={addressHash}", []⟩
      200
      (Json.object
        [(str "status", Json.string (str "1")), (str "message", Json.string (str "OK")),
         (str "result", Json.array
           [Json.object [(str "isError", Json.string (str "0")),
              (str "txreceipt_status", Json.string (str "1"))],
            Json.object [(str "isError", Json.string (str "1")),
              (str "txreceipt_status", Json.string (str "0"))]])])
      [Json.object [(str "isError", Json.string (str "0")),
          (str "txreceipt_status", Json.string (str "1"))],
        Json.object [(str "isError", Json.string (str "1")),
          (str "txreceipt_status", Json.string (str "0"))]]
      (by decide) rfl (by decide) rfl |>.imp fun _ h => ⟨h.1, h.2.1, h.2.2.1⟩⟩

/-! ## Optional parameters -/

/-- C14, the failing input: `RequestClient.GetBlockReward` with a nil block number requests
the query `module=block&action=getblockreward&blockno={blockNumber}`, in which the key
`blockno` carries the placeholder of the URL template; with the block number 5 the
placeholder is replaced by "5". -/
theorem C14_GetBlockReward_failing_input :
    (RequestClient.GetBlockReward.url
        ⟨fun _ => HttpResult.failed [], str "https://explorer.celo.org/api"⟩ none).map
        (fun u => (u.RawQuery, u.Query.lookup (str "blockno"))) =
      some (str "module=block&action=getblockreward&blockno={blockNumber}",
        some [str "{blockNumber}"]) ∧
    ((RequestClient.mk (fun u => HttpResult.failed u.RawQuery)
        (str "https://explorer.celo.org/api")).GetBlockReward none).map (fun res => res.2) =
      some (some (str "module=block&action=getblockreward&blockno={blockNumber}")) ∧
    (RequestClient.GetBlockReward.url
        ⟨fun _ => HttpResult.failed [], str "https://explorer.celo.org/api"⟩ (some 5)).map
        (fun u => (u.RawQuery, u.Query.lookup (str "blockno"))) =
      some (str "action=getblockreward&blockno=5&module=block", some [str "5"]) := by
  decide

/-- C15: every optional builder operation applied to an absent (nil) argument returns the
builder as it was, so the URL and its query string are unchanged: `setIfExist`, `block`,
`blockNo`, `pageRange`, `sort`, `blockRange` (also with both bounds nil),
`filterByDirection`, `filterContract`, `notDecompiledWithVersion`, `ignoreProxy`,
`timeRange` and `index`. -/
theorem C15_absent_argument_no_change (qb : queryBuilder) (key : GoString) :
    qb.setIfExist key none = qb ∧ qb.block none = qb ∧ qb.blockNo none = qb ∧
    qb.pageRange none = qb ∧ qb.sort none = qb ∧ qb.blockRange none = qb ∧
    qb.blockRange (some { StartBlock := none, EndBlock := none }) = qb ∧
    qb.filterByDirection none = qb ∧ qb.filterContract none = qb ∧
    qb.notDecompiledWithVersion none = qb ∧ qb.ignoreProxy none = qb ∧
    qb.timeRange none = qb ∧ qb.index none = qb ∧
    (qb.setIfExist key none).url.RawQuery = qb.url.RawQuery :=
  ⟨rfl, rfl, rfl, rfl, rfl, rfl, rfl, rfl, rfl, rfl, rfl, rfl, rfl, rfl⟩

theorem Join_eq_intercalate (elems : List GoString) (sep : GoString) :
    Join elems sep = sep.intercalate elems := by
  induction elems with
  | nil => simp [Join, List.intercalate]
  | cons e es ih =>
    cases es with
    | nil => simp [Join, List.intercalate]
    | cons e2 es2 =>
      rw [Join]
      · rw [ih]
        simp [List.intercalate, List.intersperse]
      · simp

theorem splitOn_Join (elems : List GoString) (sep : Byte) (e : GoString)
    (h : ∀ x ∈ e :: elems, sep ∉ x) :
    splitOn sep (Join (e :: elems) [sep]) = e :: elems := by
  induction elems generalizing e with
  | nil =>
    simpa [Join] using splitOn_absent sep e (h e (by simp))
  | cons e2 es ih =>
    have h2 : ∀ x ∈ e2 :: es, sep ∉ x := fun x hx => h x (by simp [hx])
    rw [Join]
    · simp only [List.append_assoc, List.singleton_append]
      rw [splitOn_append sep e _ (h e (by simp)), ih e2 h2]
    · simp

/-- C16: for every list of addresses, `queryBuilder.addressMulti` sets the `address`
parameter to the single value "0x"+a1 + "," + ... + "," + "0x"+an, every other parameter
keeping its entry; when the list is not empty and no address holds a comma, cutting the
value at its commas gives back "0x"+a1, ..., "0x"+an, in the input order and count. -/
theorem C16_addressMulti (qb : queryBuilder) (address : List GoString) :
    (qb.addressMulti address).url.Query.lookup (str "address") =
      some [prefixedJoined address] ∧
    (qb.addressMulti address).url.Query.Get (str "address") = prefixedJoined address ∧
    (∀ k, k ≠ str "address" →
      (qb.addressMulti address).url.Query.lookup k = qb.url.Query.lookup k) ∧
    (address ≠ [] → (∀ a ∈ address, (44 : Byte) ∉ a) →
      splitOn 44 (prefixedJoined address) = address.map (fun a => str "0x" ++ a)) := by
  have hj : Join (address.map add0x) (str ",") = prefixedJoined address := by
    rw [Join_eq_intercalate]
    rfl
  have h : (qb.addressMulti address).url.Query.lookup (str "address") =
      some [prefixedJoined address] := by
    unfold queryBuilder.addressMulti
    simp only
    rw [queryBuilder.lookup_set, if_pos rfl, hj]
  refine ⟨h, ?_, ?_, ?_⟩
  · unfold Values.Get
    rw [h]
  · intro k hk
    unfold queryBuilder.addressMulti
    simp only
    rw [queryBuilder.lookup_set, if_neg hk]
  · intro hne hcomma
    cases address with
    | nil => exact absurd rfl hne
    | cons a rest =>
      have e : prefixedJoined (a :: rest) =
          Join ((str "0x" ++ a) :: rest.map (fun x => str "0x" ++ x)) [44] := by
        rw [Join_eq_intercalate]
        rfl
      rw [e, List.map_cons]
      apply splitOn_Join
      intro x hx
      rw [← List.map_cons (fun a => str "0x" ++ a), List.mem_map] at hx
      obtain ⟨y, hy, rfl⟩ := hx
      have := hcomma y hy
      rw [str_0x]
      simp only [List.cons_append, List.nil_append, List.mem_cons, not_or]
      exact ⟨by decide, by decide, this⟩

/-- C16, an instance: the addresses "aa", "bb", "cc" give "0xaa,0xbb,0xcc", which cut at
the commas is "0xaa", "0xbb", "0xcc". -/
theorem C16_addressMulti_witness :
    prefixedJoined [str "aa", str "bb", str "cc"] = str "0xaa,0xbb,0xcc" ∧
    splitOn 44 (prefixedJoined [str "aa", str "bb", str "cc"]) =
      [str "aa", str "bb", str "cc"].map (fun a => str "0x" ++ a) :=
  ⟨by decide,
   (C16_addressMulti (newQueryBuilder ⟨[], [], []⟩) [str "aa", str "bb", str "cc"]).2.2.2
     (by decide) (by decide)⟩

/-! ## Contract verification parameters -/

theorem queryBuilder.lookup_setIfExist (qb : queryBuilder) (key k : GoString)
    (v : Option GoString) :
    (qb.setIfExist key v).url.Query.lookup k =
      match v with
      | some x => if k = key then some [x] else qb.url.Query.lookup k
      | none => qb.url.Query.lookup k := by
  cases v <;> simp [queryBuilder.setIfExist, queryBuilder.lookup_set]

theorem queryBuilder.lookup_setIfExist_ne (qb : queryBuilder) (key k : GoString)
    (v : Option GoString) (h : k ≠ key) :
    (qb.setIfExist key v).url.Query.lookup k = qb.url.Query.lookup k := by
  cases v <;> simp [queryBuilder.setIfExist, queryBuilder.lookup_set, h]

theorem queryBuilder.lookup_set_ne (qb : queryBuilder) (key value k : GoString) (h : k ≠ key) :
    (qb.set key value).url.Query.lookup k = qb.url.Query.lookup k := by
  rw [queryBuilder.lookup_set, if_neg h]

theorem queryBuilder.lookup_ite_set_ne (qb : queryBuilder) (b : Bool) (key v1 v2 k : GoString)
    (h : k ≠ key) :
    (if b = true then qb.set key v1 else qb.set key v2).url.Query.lookup k =
      qb.url.Query.lookup k := by
  cases b <;> simp [queryBuilder.lookup_set, h]

theorem verify_lookup_library1Name (qb : queryBuilder) (c : ContractInfo) :
    (qb.verify c).url.Query.lookup (str "library1Name") =
      match c.Library1Name with
      | some n => some [n]
      | none => qb.url.Query.lookup (str "library1Name") := by
  unfold queryBuilder.verify
  lift_lets
  extract_lets q1 q2 q3 q4 q5 q6 q7 q8 q9 q10 q11 q12 q13 q14 q15 q16 q17 q18 q19 q20
  have h1 : q1.url.Query.lookup (str "library1Name") = qb.url.Query.lookup (str "library1Name") := by
    refine queryBuilder.lookup_set_ne _ _ _ _ ?_
    decide
  have h2 : q2.url.Query.lookup (str "library1Name") = q1.url.Query.lookup (str "library1Name") := by
    refine queryBuilder.lookup_set_ne _ _ _ _ ?_
    decide
  have h3 : q3.url.Query.lookup (str "library1Name") = q2.url.Query.lookup (str "library1Name") := by
    refine queryBuilder.lookup_set_ne _ _ _ _ ?_
    decide
  have h4 : q4.url.Query.lookup (str "library1Name") = q3.url.Query.lookup (str "library1Name") := by
    refine queryBuilder.lookup_ite_set_ne _ _ _ _ _ _ ?_
    decide
  have h5 : q5.url.Query.lookup (str "library1Name") = q4.url.Query.lookup (str "library1Name") := by
    refine queryBuilder.lookup_set_ne _ _ _ _ ?_
    decide
  have h6 : q6.url.Query.lookup (str "library1Name") = q5.url.Query.lookup (str "library1Name") := by
    refine queryBuilder.lookup_setIfExist_ne _ _ _ _ ?_
    decide
  have h7 : q7.url.Query.lookup (str "library1Name") = q6.url.Query.lookup (str "library1Name") := by
    simp only [q7]
    split
    · split <;> (refine queryBuilder.lookup_set_ne _ _ _ _ ?_; decide)
    · rfl
  have h8 : q8.url.Query.lookup (str "library1Name") = q7.url.Query.lookup (str "library1Name") := by
    refine queryBuilder.lookup_setIfExist_ne _ _ _ _ ?_
    decide
  have h9 : q9.url.Query.lookup (str "library1Name") = q8.url.Query.lookup (str "library1Name") := by
    simp only [q9]
    split
    · refine queryBuilder.lookup_set_ne _ _ _ _ ?_
      decide
    · rfl
  have h10 : q10.url.Query.lookup (str "library1Name") = q9.url.Query.lookup (str "library1Name") := by
    refine queryBuilder.lookup_setIfExist_ne _ _ _ _ ?_
    decide
  have h12 : q12.url.Query.lookup (str "library1Name") = q11.url.Query.lookup (str "library1Name") := by
    refine queryBuilder.lookup_setIfExist_ne _ _ _ _ ?_
    decide
  have h13 : q13.url.Query.lookup (str "library1Name") = q12.url.Query.lookup (str "library1Name") := by
    refine queryBuilder.lookup_setIfExist_ne _ _ _ _ ?_
    decide
  have h14 : q14.url.Query.lookup (str "library1Name") = q13.url.Query.lookup (str "library1Name") := by
    refine queryBuilder.lookup_setIfExist_ne _ _ _ _ ?_
    decide
  have h15 : q15.url.Query.lookup (str "library1Name") = q14.url.Query.lookup (str "library1Name") := by
    refine queryBuilder.lookup_setIfExist_ne _ _ _ _ ?_
    decide
  have h16 : q16.url.Query.lookup (str "library1Name") = q15.url.Query.lookup (str "library1Name") := by
    simp only [q16]
    split
    · refine queryBuilder.lookup_set_ne _ _ _ _ ?_
      decide
    · rfl
  have h17 : q17.url.Query.lookup (str "library1Name") = q16.url.Query.lookup (str "library1Name") := by
    simp only [q17]
    split
    · refine queryBuilder.lookup_set_ne _ _ _ _ ?_
      decide
    · rfl
  have h18 : q18.url.Query.lookup (str "library1Name") = q17.url.Query.lookup (str "library1Name") := by
    simp only [q18]
    split
    · refine queryBuilder.lookup_set_ne _ _ _ _ ?_
      decide
    · rfl
  have h19 : q19.url.Query.lookup (str "library1Name") = q18.url.Query.lookup (str "library1Name") := by
    simp only [q19]
    split
    · refine queryBuilder.lookup_set_ne _ _ _ _ ?_
      decide
    · rfl
  have h20 : q20.url.Query.lookup (str "library1Name") = q19.url.Query.lookup (str "library1Name") := by
    simp only [q20]
    split
    · refine queryBuilder.lookup_set_ne _ _ _ _ ?_
      decide
    · rfl
  have hpre : q10.url.Query.lookup (str "library1Name") = qb.url.Query.lookup (str "library1Name") := by
    rw [h10, h9, h8, h7, h6, h5, h4, h3, h2, h1]
  rw [h20, h19, h18, h17, h16, h15, h14, h13, h12]
  rw [queryBuilder.lookup_setIfExist]
  split
  · rw [if_pos rfl]
  · exact hpre

theorem verify_lookup_library1Address (qb : queryBuilder) (c : ContractInfo) :
    (qb.verify c).url.Query.lookup (str "library1Address") =
      match c.Library1Address with
      | some a => some [str "0x" ++ a]
      | none => qb.url.Query.lookup (str "library1Address") := by
  unfold queryBuilder.verify
  lift_lets
  extract_lets q1 q2 q3 q4 q5 q6 q7 q8 q9 q10 q11 q12 q13 q14 q15 q16 q17 q18 q19 q20
  have h1 : q1.url.Query.lookup (str "library1Address") = qb.url.Query.lookup (str "library1Address") := by
    refine queryBuilder.lookup_set_ne _ _ _ _ ?_
    decide
  have h2 : q2.url.Query.lookup (str "library1Address") = q1.url.Query.lookup (str "library1Address") := by
    refine queryBuilder.lookup_set_ne _ _ _ _ ?_
    decide
  have h3 : q3.url.Query.lookup (str "library1Address") = q2.url.Query.lookup (str "library1Address") := by
    refine queryBuilder.lookup_set_ne _ _ _ _ ?_
    decide
  have h4 : q4.url.Query.lookup (str "library1Address") = q3.url.Query.lookup (str "library1Address") := by
    refine queryBuilder.lookup_ite_set_ne _ _ _ _ _ _ ?_
    decide
  have h5 : q5.url.Query.lookup (str "library1Address") = q4.url.Query.lookup (str "library1Address") := by
    refine queryBuilder.lookup_set_ne _ _ _ _ ?_
    decide
  have h6 : q6.url.Query.lookup (str "library1Address") = q5.url.Query.lookup (str "library1Address") := by
    refine queryBuilder.lookup_setIfExist_ne _ _ _ _ ?_
    decide
  have h7 : q7.url.Query.lookup (str "library1Address") = q6.url.Query.lookup (str "library1Address") := by
    simp only [q7]
    split
    · split <;> (refine queryBuilder.lookup_set_ne _ _ _ _ ?_; decide)
    · rfl
  have h8 : q8.url.Query.lookup (str "library1Address") = q7.url.Query.lookup (str "library1Address") := by
    refine queryBuilder.lookup_setIfExist_ne _ _ _ _ ?_
    decide
  have h9 : q9.url.Query.lookup (str "library1Address") = q8.url.Query.lookup (str "library1Address") := by
    simp only [q9]
    split
    · refine queryBuilder.lookup_set_ne _ _ _ _ ?_
      decide
    · rfl
  have h10 : q10.url.Query.lookup (str "library1Address") = q9.url.Query.lookup (str "library1Address") := by
    refine queryBuilder.lookup_setIfExist_ne _ _ _ _ ?_
    decide
  have h11 : q11.url.Query.lookup (str "library1Address") = q10.url.Query.lookup (str "library1Address") := by
    refine queryBuilder.lookup_setIfExist_ne _ _ _ _ ?_
    decide
  have h12 : q12.url.Query.lookup (str "library1Address") = q11.url.Query.lookup (str "library1Address") := by
    refine queryBuilder.lookup_setIfExist_ne _ _ _ _ ?_
    decide
  have h13 : q13.url.Query.lookup (str "library1Address") = q12.url.Query.lookup (str "library1Address") := by
    refine queryBuilder.lookup_setIfExist_ne _ _ _ _ ?_
    decide
  have h14 : q14.url.Query.lookup (str "library1Address") = q13.url.Query.lookup (str "library1Address") := by
    refine queryBuilder.lookup_setIfExist_ne _ _ _ _ ?_
    decide
  have h15 : q15.url.Query.lookup (str "library1Address") = q14.url.Query.lookup (str "library1Address") := by
    refine queryBuilder.lookup_setIfExist_ne _ _ _ _ ?_
    decide
  have h17 : q17.url.Query.lookup (str "library1Address") = q16.url.Query.lookup (str "library1Address") := by
    simp only [q17]
    split
    · refine queryBuilder.lookup_set_ne _ _ _ _ ?_
      decide
    · rfl
  have h18 : q18.url.Query.lookup (str "library1Address") = q17.url.Query.lookup (str "library1Address") := by
    simp only [q18]
    split
    · refine queryBuilder.lookup_set_ne _ _ _ _ ?_
      decide
    · rfl
  have h19 : q19.url.Query.lookup (str "library1Address") = q18.url.Query.lookup (str "library1Address") := by
    simp only [q19]
    split
    · refine queryBuilder.lookup_set_ne _ _ _ _ ?_
      decide
    · rfl
  have h20 : q20.url.Query.lookup (str "library1Address") = q19.url.Query.lookup (str "library1Address") := by
    simp only [q20]
    split
    · refine queryBuilder.lookup_set_ne _ _ _ _ ?_
      decide
    · rfl
  have hpre : q15.url.Query.lookup (str "library1Address") = qb.url.Query.lookup (str "library1Address") := by
    rw [h15, h14, h13, h12, h11, h10, h9, h8, h7, h6, h5, h4, h3, h2, h1]
  rw [h20, h19, h18, h17]
  simp only [q16]
  split
  · rw [queryBuilder.lookup_set, if_pos rfl, add0x_eq]
  · exact hpre

theorem verify_lookup_library2Name (qb : queryBuilder) (c : ContractInfo) :
    (qb.verify c).url.Query.lookup (str "library2Name") =
      match c.Library2Name with
      | some n => some [n]
      | none => qb.url.Query.lookup (str "library2Name") := by
  unfold queryBuilder.verify
  lift_lets
  extract_lets q1 q2 q3 q4 q5 q6 q7 q8 q9 q10 q11 q12 q13 q14 q15 q16 q17 q18 q19 q20
  have h1 : q1.url.Query.lookup (str "library2Name") = qb.url.Query.lookup (str "library2Name") := by
    refine queryBuilder.lookup_set_ne _ _ _ _ ?_
    decide
  have h2 : q2.url.Query.lookup (str "library2Name") = q1.url.Query.lookup (str "library2Name") := by
    refine queryBuilder.lookup_set_ne _ _ _ _ ?_
    decide
  have h3 : q3.url.Query.lookup (str "library2Name") = q2.url.Query.lookup (str "library2Name") := by
    refine queryBuilder.lookup_set_ne _ _ _ _ ?_
    decide
  have h4 : q4.url.Query.lookup (str "library2Name") = q3.url.Query.lookup (str "library2Name") := by
    refine queryBuilder.lookup_ite_set_ne _ _ _ _ _ _ ?_
    decide
  have h5 : q5.url.Query.lookup (str "library2Name") = q4.url.Query.lookup (str "library2Name") := by
    refine queryBuilder.lookup_set_ne _ _ _ _ ?_
    decide
  have h6 : q6.url.Query.lookup (str "library2Name") = q5.url.Query.lookup (str "library2Name") := by
    refine queryBuilder.lookup_setIfExist_ne _ _ _ _ ?_
    decide
  have h7 : q7.url.Query.lookup (str "library2Name") = q6.url.Query.lookup (str "library2Name") := by
    simp only [q7]
    split
    · split <;> (refine queryBuilder.lookup_set_ne _ _ _ _ ?_; decide)
    · rfl
  have h8 : q8.url.Query.lookup (str "library2Name") = q7.url.Query.lookup (str "library2Name") := by
    refine queryBuilder.lookup_setIfExist_ne _ _ _ _ ?_
    decide
  have h9 : q9.url.Query.lookup (str "library2Name") = q8.url.Query.lookup (str "library2Name") := by
    simp only [q9]
    split
    · refine queryBuilder.lookup_set_ne _ _ _ _ ?_
      decide
    · rfl
  have h10 : q10.url.Query.lookup (str "library2Name") = q9.url.Query.lookup (str "library2Name") := by
    refine queryBuilder.lookup_setIfExist_ne _ _ _ _ ?_
    decide
  have h11 : q11.url.Query.lookup (str "library2Name") = q10.url.Query.lookup (str "library2Name") := by
    refine queryBuilder.lookup_setIfExist_ne _ _ _ _ ?_
    decide
  have h13 : q13.url.Query.lookup (str "library2Name") = q12.url.Query.lookup (str "library2Name") := by
    refine queryBuilder.lookup_setIfExist_ne _ _ _ _ ?_
    decide
  have h14 : q14.url.Query.lookup (str "library2Name") = q13.url.Query.lookup (str "library2Name") := by
    refine queryBuilder.lookup_setIfExist_ne _ _ _ _ ?_
    decide
  have h15 : q15.url.Query.lookup (str "library2Name") = q14.url.Query.lookup (str "library2Name") := by
    refine queryBuilder.lookup_setIfExist_ne _ _ _ _ ?_
    decide
  have h16 : q16.url.Query.lookup (str "library2Name") = q15.url.Query.lookup (str "library2Name") := by
    simp only [q16]
    split
    · refine queryBuilder.lookup_set_ne _ _ _ _ ?_
      decide
    · rfl
  have h17 : q17.url.Query.lookup (str "library2Name") = q16.url.Query.lookup (str "library2Name") := by
    simp only [q17]
    split
    · refine queryBuilder.lookup_set_ne _ _ _ _ ?_
      decide
    · rfl
  have h18 : q18.url.Query.lookup (str "library2Name") = q17.url.Query.lookup (str "library2Name") := by
    simp only [q18]
    split
    · refine queryBuilder.lookup_set_ne _ _ _ _ ?_
      decide
    · rfl
  have h19 : q19.url.Query.lookup (str "library2Name") = q18.url.Query.lookup (str "library2Name") := by
    simp only [q19]
    split
    · refine queryBuilder.lookup_set_ne _ _ _ _ ?_
      decide
    · rfl
  have h20 : q20.url.Query.lookup (str "library2Name") = q19.url.Query.lookup (str "library2Name") := by
    simp only [q20]
    split
    · refine queryBuilder.lookup_set_ne _ _ _ _ ?_
      decide
    · rfl
  have hpre : q11.url.Query.lookup (str "library2Name") = qb.url.Query.lookup (str "library2Name") := by
    rw [h11, h10, h9, h8, h7, h6, h5, h4, h3, h2, h1]
  rw [h20, h19, h18, h17, h16, h15, h14, h13]
  rw [queryBuilder.lookup_setIfExist]
  split
  · rw [if_pos rfl]
  · exact hpre

theorem verify_lookup_library2Address (qb : queryBuilder) (c : ContractInfo) :
    (qb.verify c).url.Query.lookup (str "library2Address") =
      match c.Library2Address with
      | some a => some [str "0x" ++ a]
      | none => qb.url.Query.lookup (str "library2Address") := by
  unfold queryBuilder.verify
  lift_lets
  extract_lets q1 q2 q3 q4 q5 q6 q7 q8 q9 q10 q11 q12 q13 q14 q15 q16 q17 q18 q19 q20
  have h1 : q1.url.Query.lookup (str "library2Address") = qb.url.Query.lookup (str "library2Address") := by
    refine queryBuilder.lookup_set_ne _ _ _ _ ?_
    decide
  have h2 : q2.url.Query.lookup (str "library2Address") = q1.url.Query.lookup (str "library2Address") := by
    refine queryBuilder.lookup_set_ne _ _ _ _ ?_
    decide
  have h3 : q3.url.Query.lookup (str "library2Address") = q2.url.Query.lookup (str "library2Address") := by
    refine queryBuilder.lookup_set_ne _ _ _ _ ?_
    decide
  have h4 : q4.url.Query.lookup (str "library2Address") = q3.url.Query.lookup (str "library2Address") := by
    refine queryBuilder.lookup_ite_set_ne _ _ _ _ _ _ ?_
    decide
  have h5 : q5.url.Query.lookup (str "library2Address") = q4.url.Query.lookup (str "library2Address") := by
    refine queryBuilder.lookup_set_ne _ _ _ _ ?_
    decide
  have h6 : q6.url.Query.lookup (str "library2Address") = q5.url.Query.lookup (str "library2Address") := by
    refine queryBuilder.lookup_setIfExist_ne _ _ _ _ ?_
    decide
  have h7 : q7.url.Query.lookup (str "library2Address") = q6.url.Query.lookup (str "library2Address") := by
    simp only [q7]
    split
    · split <;> (refine queryBuilder.lookup_set_ne _ _ _ _ ?_; decide)
    · rfl
  have h8 : q8.url.Query.lookup (str "library2Address") = q7.url.Query.lookup (str "library2Address") := by
    refine queryBuilder.lookup_setIfExist_ne _ _ _ _ ?_
    decide
  have h9 : q9.url.Query.lookup (str "library2Address") = q8.url.Query.lookup (str "library2Address") := by
    simp only [q9]
    split
    · refine queryBuilder.lookup_set_ne _ _ _ _ ?_
      decide
    · rfl
  have h10 : q10.url.Query.lookup (str "library2Address") = q9.url.Query.lookup (str "library2Address") := by
    refine queryBuilder.lookup_setIfExist_ne _ _ _ _ ?_
    decide
  have h11 : q11.url.Query.lookup (str "library2Address") = q10.url.Query.lookup (str "library2Address") := by
    refine queryBuilder.lookup_setIfExist_ne _ _ _ _ ?_
    decide
  have h12 : q12.url.Query.lookup (str "library2Address") = q11.url.Query.lookup (str "library2Address") := by
    refine queryBuilder.lookup_setIfExist_ne _ _ _ _ ?_
    decide
  have h13 : q13.url.Query.lookup (str "library2Address") = q12.url.Query.lookup (str "library2Address") := by
    refine queryBuilder.lookup_setIfExist_ne _ _ _ _ ?_
    decide
  have h14 : q14.url.Query.lookup (str "library2Address") = q13.url.Query.lookup (str "library2Address") := by
    refine queryBuilder.lookup_setIfExist_ne _ _ _ _ ?_
    decide
  have h15 : q15.url.Query.lookup (str "library2Address") = q14.url.Query.lookup (str "library2Address") := by
    refine queryBuilder.lookup_setIfExist_ne _ _ _ _ ?_
    decide
  have h16 : q16.url.Query.lookup (str "library2Address") = q15.url.Query.lookup (str "library2Address") := by
    simp only [q16]
    split
    · refine queryBuilder.lookup_set_ne _ _ _ _ ?_
      decide
    · rfl
  have h18 : q18.url.Query.lookup (str "library2Address") = q17.url.Query.lookup (str "library2Address") := by
    simp only [q18]
    split
    · refine queryBuilder.lookup_set_ne _ _ _ _ ?_
      decide
    · rfl
  have h19 : q19.url.Query.lookup (str "library2Address") = q18.url.Query.lookup (str "library2Address") := by
    simp only [q19]
    split
    · refine queryBuilder.lookup_set_ne _ _ _ _ ?_
      decide
    · rfl
  have h20 : q20.url.Query.lookup (str "library2Address") = q19.url.Query.lookup (str "library2Address") := by
    simp only [q20]
    split
    · refine queryBuilder.lookup_set_ne _ _ _ _ ?_
      decide
    · rfl
  have hpre : q16.url.Query.lookup (str "library2Address") = qb.url.Query.lookup (str "library2Address") := by
    rw [h16, h15, h14, h13, h12, h11, h10, h9, h8, h7, h6, h5, h4, h3, h2, h1]
  rw [h20, h19, h18]
  simp only [q17]
  split
  · rw [queryBuilder.lookup_set, if_pos rfl, add0x_eq]
  · exact hpre

theorem verify_lookup_library3Name (qb : queryBuilder) (c : ContractInfo) :
    (qb.verify c).url.Query.lookup (str "library3Name") =
      match c.Library3Name with
      | some n => some [n]
      | none => qb.url.Query.lookup (str "library3Name") := by
  unfold queryBuilder.verify
  lift_lets
  extract_lets q1 q2 q3 q4 q5 q6 q7 q8 q9 q10 q11 q12 q13 q14 q15 q16 q17 q18 q19 q20
  have h1 : q1.url.Query.lookup (str "library3Name") = qb.url.Query.lookup (str "library3Name") := by
    refine queryBuilder.lookup_set_ne _ _ _ _ ?_
    decide
  have h2 : q2.url.Query.lookup (str "library3Name") = q1.url.Query.lookup (str "library3Name") := by
    refine queryBuilder.lookup_set_ne _ _ _ _ ?_
    decide
  have h3 : q3.url.Query.lookup (str "library3Name") = q2.url.Query.lookup (str "library3Name") := by
    refine queryBuilder.lookup_set_ne _ _ _ _ ?_
    decide
  have h4 : q4.url.Query.lookup (str "library3Name") = q3.url.Query.lookup (str "library3Name") := by
    refine queryBuilder.lookup_ite_set_ne _ _ _ _ _ _ ?_
    decide
  have h5 : q5.url.Query.lookup (str "library3Name") = q4.url.Query.lookup (str "library3Name") := by
    refine queryBuilder.lookup_set_ne _ _ _ _ ?_
    decide
  have h6 : q6.url.Query.lookup (str "library3Name") = q5.url.Query.lookup (str "library3Name") := by
    refine queryBuilder.lookup_setIfExist_ne _ _ _ _ ?_
    decide
  have h7 : q7.url.Query.lookup (str "library3Name") = q6.url.Query.lookup (str "library3Name") := by
    simp only [q7]
    split
    · split <;> (refine queryBuilder.lookup_set_ne _ _ _ _ ?_; decide)
    · rfl
  have h8 : q8.url.Query.lookup (str "library3Name") = q7.url.Query.lookup (str "library3Name") := by
    refine queryBuilder.lookup_setIfExist_ne _ _ _ _ ?_
    decide
  have h9 : q9.url.Query.lookup (str "library3Name") = q8.url.Query.lookup (str "library3Name") := by
    simp only [q9]
    split
    · refine queryBuilder.lookup_set_ne _ _ _ _ ?_
      decide
    · rfl
  have h10 : q10.url.Query.lookup (str "library3Name") = q9.url.Query.lookup (str "library3Name") := by
    refine queryBuilder.lookup_setIfExist_ne _ _ _ _ ?_
    decide
  have h11 : q11.url.Query.lookup (str "library3Name") = q10.url.Query.lookup (str "library3Name") := by
    refine queryBuilder.lookup_setIfExist_ne _ _ _ _ ?_
    decide
  have h12 : q12.url.Query.lookup (str "library3Name") = q11.url.Query.lookup (str "library3Name") := by
    refine queryBuilder.lookup_setIfExist_ne _ _ _ _ ?_
    decide
  have h14 : q14.url.Query.lookup (str "library3Name") = q13.url.Query.lookup (str "library3Name") := by
    refine queryBuilder.lookup_setIfExist_ne _ _ _ _ ?_
    decide
  have h15 : q15.url.Query.lookup (str "library3Name") = q14.url.Query.lookup (str "library3Name") := by
    refine queryBuilder.lookup_setIfExist_ne _ _ _ _ ?_
    decide
  have h16 : q16.url.Query.lookup (str "library3Name") = q15.url.Query.lookup (str "library3Name") := by
    simp only [q16]
    split
    · refine queryBuilder.lookup_set_ne _ _ _ _ ?_
      decide
    · rfl
  have h17 : q17.url.Query.lookup (str "library3Name") = q16.url.Query.lookup (str "library3Name") := by
    simp only [q17]
    split
    · refine queryBuilder.lookup_set_ne _ _ _ _ ?_
      decide
    · rfl
  have h18 : q18.url.Query.lookup (str "library3Name") = q17.url.Query.lookup (str "library3Name") := by
    simp only [q18]
    split
    · refine queryBuilder.lookup_set_ne _ _ _ _ ?_
      decide
    · rfl
  have h19 : q19.url.Query.lookup (str "library3Name") = q18.url.Query.lookup (str "library3Name") := by
    simp only [q19]
    split
    · refine queryBuilder.lookup_set_ne _ _ _ _ ?_
      decide
    · rfl
  have h20 : q20.url.Query.lookup (str "library3Name") = q19.url.Query.lookup (str "library3Name") := by
    simp only [q20]
    split
    · refine queryBuilder.lookup_set_ne _ _ _ _ ?_
      decide
    · rfl
  have hpre : q12.url.Query.lookup (str "library3Name") = qb.url.Query.lookup (str "library3Name") := by
    rw [h12, h11, h10, h9, h8, h7, h6, h5, h4, h3, h2, h1]
  rw [h20, h19, h18, h17, h16, h15, h14]
  rw [queryBuilder.lookup_setIfExist]
  split
  · rw [if_pos rfl]
  · exact hpre

theorem verify_lookup_library3Address (qb : queryBuilder) (c : ContractInfo) :
    (qb.verify c).url.Query.lookup (str "library3Address") =
      match c.Library3Address with
      | some a => some [str "0x" ++ a]
      | none => qb.url.Query.lookup (str "library3Address") := by
  unfold queryBuilder.verify
  lift_lets
  extract_lets q1 q2 q3 q4 q5 q6 q7 q8 q9 q10 q11 q12 q13 q14 q15 q16 q17 q18 q19 q20
  have h1 : q1.url.Query.lookup (str "library3Address") = qb.url.Query.lookup (str "library3Address") := by
    refine queryBuilder.lookup_set_ne _ _ _ _ ?_
    decide
  have h2 : q2.url.Query.lookup (str "library3Address") = q1.url.Query.lookup (str "library3Address") := by
    refine queryBuilder.lookup_set_ne _ _ _ _ ?_
    decide
  have h3 : q3.url.Query.lookup (str "library3Address") = q2.url.Query.lookup (str "library3Address") := by
    refine queryBuilder.lookup_set_ne _ _ _ _ ?_
    decide
  have h4 : q4.url.Query.lookup (str "library3Address") = q3.url.Query.lookup (str "library3Address") := by
    refine queryBuilder.lookup_ite_set_ne _ _ _ _ _ _ ?_
    decide
  have h5 : q5.url.Query.lookup (str "library3Address") = q4.url.Query.lookup (str "library3Address") := by
    refine queryBuilder.lookup_set_ne _ _ _ _ ?_
    decide
  have h6 : q6.url.Query.lookup (str "library3Address") = q5.url.Query.lookup (str "library3Address") := by
    refine queryBuilder.lookup_setIfExist_ne _ _ _ _ ?_
    decide
  have h7 : q7.url.Query.lookup (str "library3Address") = q6.url.Query.lookup (str "library3Address") := by
    simp only [q7]
    split
    · split <;> (refine queryBuilder.lookup_set_ne _ _ _ _ ?_; decide)
    · rfl
  have h8 : q8.url.Query.lookup (str "library3Address") = q7.url.Query.lookup (str "library3Address") := by
    refine queryBuilder.lookup_setIfExist_ne _ _ _ _ ?_
    decide
  have h9 : q9.url.Query.lookup (str "library3Address") = q8.url.Query.lookup (str "library3Address") := by
    simp only [q9]
    split
    · refine queryBuilder.lookup_set_ne _ _ _ _ ?_
      decide
    · rfl
  have h10 : q10.url.Query.lookup (str "library3Address") = q9.url.Query.lookup (str "library3Address") := by
    refine queryBuilder.lookup_setIfExist_ne _ _ _ _ ?_
    decide
  have h11 : q11.url.Query.lookup (str "library3Address") = q10.url.Query.lookup (str "library3Address") := by
    refine queryBuilder.lookup_setIfExist_ne _ _ _ _ ?_
    decide
  have h12 : q12.url.Query.lookup (str "library3Address") = q11.url.Query.lookup (str "library3Address") := by
    refine queryBuilder.lookup_setIfExist_ne _ _ _ _ ?_
    decide
  have h13 : q13.url.Query.lookup (str "library3Address") = q12.url.Query.lookup (str "library3Address") := by
    refine queryBuilder.lookup_setIfExist_ne _ _ _ _ ?_
    decide
  have h14 : q14.url.Query.lookup (str "library3Address") = q13.url.Query.lookup (str "library3Address") := by
    refine queryBuilder.lookup_setIfExist_ne _ _ _ _ ?_
    decide
  have h15 : q15.url.Query.lookup (str "library3Address") = q14.url.Query.lookup (str "library3Address") := by
    refine queryBuilder.lookup_setIfExist_ne _ _ _ _ ?_
    decide
  have h16 : q16.url.Query.lookup (str "library3Address") = q15.url.Query.lookup (str "library3Address") := by
    simp only [q16]
    split
    · refine queryBuilder.lookup_set_ne _ _ _ _ ?_
      decide
    · rfl
  have h17 : q17.url.Query.lookup (str "library3Address") = q16.url.Query.lookup (str "library3Address") := by
    simp only [q17]
    split
    · refine queryBuilder.lookup_set_ne _ _ _ _ ?_
      decide
    · rfl
  have h19 : q19.url.Query.lookup (str "library3Address") = q18.url.Query.lookup (str "library3Address") := by
    simp only [q19]
    split
    · refine queryBuilder.lookup_set_ne _ _ _ _ ?_
      decide
    · rfl
  have h20 : q20.url.Query.lookup (str "library3Address") = q19.url.Query.lookup (str "library3Address") := by
    simp only [q20]
    split
    · refine queryBuilder.lookup_set_ne _ _ _ _ ?_
      decide
    · rfl
  have hpre : q17.url.Query.lookup (str "library3Address") = qb.url.Query.lookup (str "library3Address") := by
    rw [h17, h16, h15, h14, h13, h12, h11, h10, h9, h8, h7, h6, h5, h4, h3, h2, h1]
  rw [h20, h19]
  simp only [q18]
  split
  · rw [queryBuilder.lookup_set, if_pos rfl, add0x_eq]
  · exact hpre

theorem verify_lookup_library4Name (qb : queryBuilder) (c : ContractInfo) :
    (qb.verify c).url.Query.lookup (str "library4Name") =
      match c.Library4Name with
      | some n => some [n]
      | none => qb.url.Query.lookup (str "library4Name") := by
  unfold queryBuilder.verify
  lift_lets
  extract_lets q1 q2 q3 q4 q5 q6 q7 q8 q9 q10 q11 q12 q13 q14 q15 q16 q17 q18 q19 q20
  have h1 : q1.url.Query.lookup (str "library4Name") = qb.url.Query.lookup (str "library4Name") := by
    refine queryBuilder.lookup_set_ne _ _ _ _ ?_
    decide
  have h2 : q2.url.Query.lookup (str "library4Name") = q1.url.Query.lookup (str "library4Name") := by
    refine queryBuilder.lookup_set_ne _ _ _ _ ?_
    decide
  have h3 : q3.url.Query.lookup (str "library4Name") = q2.url.Query.lookup (str "library4Name") := by
    refine queryBuilder.lookup_set_ne _ _ _ _ ?_
    decide
  have h4 : q4.url.Query.lookup (str "library4Name") = q3.url.Query.lookup (str "library4Name") := by
    refine queryBuilder.lookup_ite_set_ne _ _ _ _ _ _ ?_
    decide
  have h5 : q5.url.Query.lookup (str "library4Name") = q4.url.Query.lookup (str "library4Name") := by
    refine queryBuilder.lookup_set_ne _ _ _ _ ?_
    decide
  have h6 : q6.url.Query.lookup (str "library4Name") = q5.url.Query.lookup (str "library4Name") := by
    refine queryBuilder.lookup_setIfExist_ne _ _ _ _ ?_
    decide
  have h7 : q7.url.Query.lookup (str "library4Name") = q6.url.Query.lookup (str "library4Name") := by
    simp only [q7]
    split
    · split <;> (refine queryBuilder.lookup_set_ne _ _ _ _ ?_; decide)
    · rfl
  have h8 : q8.url.Query.lookup (str "library4Name") = q7.url.Query.lookup (str "library4Name") := by
    refine queryBuilder.lookup_setIfExist_ne _ _ _ _ ?_
    decide
  have h9 : q9.url.Query.lookup (str "library4Name") = q8.url.Query.lookup (str "library4Name") := by
    simp only [q9]
    split
    · refine queryBuilder.lookup_set_ne _ _ _ _ ?_
      decide
    · rfl
  have h10 : q10.url.Query.lookup (str "library4Name") = q9.url.Query.lookup (str "library4Name") := by
    refine queryBuilder.lookup_setIfExist_ne _ _ _ _ ?_
    decide
  have h11 : q11.url.Query.lookup (str "library4Name") = q10.url.Query.lookup (str "library4Name") := by
    refine queryBuilder.lookup_setIfExist_ne _ _ _ _ ?_
    decide
  have h12 : q12.url.Query.lookup (str "library4Name") = q11.url.Query.lookup (str "library4Name") := by
    refine queryBuilder.lookup_setIfExist_ne _ _ _ _ ?_
    decide
  have h13 : q13.url.Query.lookup (str "library4Name") = q12.url.Query.lookup (str "library4Name") := by
    refine queryBuilder.lookup_setIfExist_ne _ _ _ _ ?_
    decide
  have h15 : q15.url.Query.lookup (str "library4Name") = q14.url.Query.lookup (str "library4Name") := by
    refine queryBuilder.lookup_setIfExist_ne _ _ _ _ ?_
    decide
  have h16 : q16.url.Query.lookup (str "library4Name") = q15.url.Query.lookup (str "library4Name") := by
    simp only [q16]
    split
    · refine queryBuilder.lookup_set_ne _ _ _ _ ?_
      decide
    · rfl
  have h17 : q17.url.Query.lookup (str "library4Name") = q16.url.Query.lookup (str "library4Name") := by
    simp only [q17]
    split
    · refine queryBuilder.lookup_set_ne _ _ _ _ ?_
      decide
    · rfl
  have h18 : q18.url.Query.lookup (str "library4Name") = q17.url.Query.lookup (str "library4Name") := by
    simp only [q18]
    split
    · refine queryBuilder.lookup_set_ne _ _ _ _ ?_
      decide
    · rfl
  have h19 : q19.url.Query.lookup (str "library4Name") = q18.url.Query.lookup (str "library4Name") := by
    simp only [q19]
    split
    · refine queryBuilder.lookup_set_ne _ _ _ _ ?_
      decide
    · rfl
  have h20 : q20.url.Query.lookup (str "library4Name") = q19.url.Query.lookup (str "library4Name") := by
    simp only [q20]
    split
    · refine queryBuilder.lookup_set_ne _ _ _ _ ?_
      decide
    · rfl
  have hpre : q13.url.Query.lookup (str "library4Name") = qb.url.Query.lookup (str "library4Name") := by
    rw [h13, h12, h11, h10, h9, h8, h7, h6, h5, h4, h3, h2, h1]
  rw [h20, h19, h18, h17, h16, h15]
  rw [queryBuilder.lookup_setIfExist]
  split
  · rw [if_pos rfl]
  · exact hpre

theorem verify_lookup_library4Address (qb : queryBuilder) (c : ContractInfo) :
    (qb.verify c).url.Query.lookup (str "library4Address") =
      match c.Library4Address with
      | some a => some [str "0x" ++ a]
      | none => qb.url.Query.lookup (str "library4Address") := by
  unfold queryBuilder.verify
  lift_lets
  extract_lets q1 q2 q3 q4 q5 q6 q7 q8 q9 q10 q11 q12 q13 q14 q15 q16 q17 q18 q19 q20
  have h1 : q1.url.Query.lookup (str "library4Address") = qb.url.Query.lookup (str "library4Address") := by
    refine queryBuilder.lookup_set_ne _ _ _ _ ?_
    decide
  have h2 : q2.url.Query.lookup (str "library4Address") = q1.url.Query.lookup (str "library4Address") := by
    refine queryBuilder.lookup_set_ne _ _ _ _ ?_
    decide
  have h3 : q3.url.Query.lookup (str "library4Address") = q2.url.Query.lookup (str "library4Address") := by
    refine queryBuilder.lookup_set_ne _ _ _ _ ?_
    decide
  have h4 : q4.url.Query.lookup (str "library4Address") = q3.url.Query.lookup (str "library4Address") := by
    refine queryBuilder.lookup_ite_set_ne _ _ _ _ _ _ ?_
    decide
  have h5 : q5.url.Query.lookup (str "library4Address") = q4.url.Query.lookup (str "library4Address") := by
    refine queryBuilder.lookup_set_ne _ _ _ _ ?_
    decide
  have h6 : q6.url.Query.lookup (str "library4Address") = q5.url.Query.lookup (str "library4Address") := by
    refine queryBuilder.lookup_setIfExist_ne _ _ _ _ ?_
    decide
  have h7 : q7.url.Query.lookup (str "library4Address") = q6.url.Query.lookup (str "library4Address") := by
    simp only [q7]
    split
    · split <;> (refine queryBuilder.lookup_set_ne _ _ _ _ ?_; decide)
    · rfl
  have h8 : q8.url.Query.lookup (str "library4Address") = q7.url.Query.lookup (str "library4Address") := by
    refine queryBuilder.lookup_setIfExist_ne _ _ _ _ ?_
    decide
  have h9 : q9.url.Query.lookup (str "library4Address") = q8.url.Query.lookup (str "library4Address") := by
    simp only [q9]
    split
    · refine queryBuilder.lookup_set_ne _ _ _ _ ?_
      decide
    · rfl
  have h10 : q10.url.Query.lookup (str "library4Address") = q9.url.Query.lookup (str "library4Address") := by
    refine queryBuilder.lookup_setIfExist_ne _ _ _ _ ?_
    decide
  have h11 : q11.url.Query.lookup (str "library4Address") = q10.url.Query.lookup (str "library4Address") := by
    refine queryBuilder.lookup_setIfExist_ne _ _ _ _ ?_
    decide
  have h12 : q12.url.Query.lookup (str "library4Address") = q11.url.Query.lookup (str "library4Address") := by
    refine queryBuilder.lookup_setIfExist_ne _ _ _ _ ?_
    decide
  have h13 : q13.url.Query.lookup (str "library4Address") = q12.url.Query.lookup (str "library4Address") := by
    refine queryBuilder.lookup_setIfExist_ne _ _ _ _ ?_
    decide
  have h14 : q14.url.Query.lookup (str "library4Address") = q13.url.Query.lookup (str "library4Address") := by
    refine queryBuilder.lookup_setIfExist_ne _ _ _ _ ?_
    decide
  have h15 : q15.url.Query.lookup (str "library4Address") = q14.url.Query.lookup (str "library4Address") := by
    refine queryBuilder.lookup_setIfExist_ne _ _ _ _ ?_
    decide
  have h16 : q16.url.Query.lookup (str "library4Address") = q15.url.Query.lookup (str "library4Address") := by
    simp only [q16]
    split
    · refine queryBuilder.lookup_set_ne _ _ _ _ ?_
      decide
    · rfl
  have h17 : q17.url.Query.lookup (str "library4Address") = q16.url.Query.lookup (str "library4Address") := by
    simp only [q17]
    split
    · refine queryBuilder.lookup_set_ne _ _ _ _ ?_
      decide
    · rfl
  have h18 : q18.url.Query.lookup (str "library4Address") = q17.url.Query.lookup (str "library4Address") := by
    simp only [q18]
    split
    · refine queryBuilder.lookup_set_ne _ _ _ _ ?_
      decide
    · rfl
  have h20 : q20.url.Query.lookup (str "library4Address") = q19.url.Query.lookup (str "library4Address") := by
    simp only [q20]
    split
    · refine queryBuilder.lookup_set_ne _ _ _ _ ?_
      decide
    · rfl
  have hpre : q18.url.Query.lookup (str "library4Address") = qb.url.Query.lookup (str "library4Address") := by
    rw [h18, h17, h16, h15, h14, h13, h12, h11, h10, h9, h8, h7, h6, h5, h4, h3, h2, h1]
  rw [h20]
  simp only [q19]
  split
  · rw [queryBuilder.lookup_set, if_pos rfl, add0x_eq]
  · exact hpre

theorem verify_lookup_library5Name (qb : queryBuilder) (c : ContractInfo) :
    (qb.verify c).url.Query.lookup (str "library5Name") =
      match c.Library5Name with
      | some n => some [n]
      | none => qb.url.Query.lookup (str "library5Name") := by
  unfold queryBuilder.verify
  lift_lets
  extract_lets q1 q2 q3 q4 q5 q6 q7 q8 q9 q10 q11 q12 q13 q14 q15 q16 q17 q18 q19 q20
  have h1 : q1.url.Query.lookup (str "library5Name") = qb.url.Query.lookup (str "library5Name") := by
    refine queryBuilder.lookup_set_ne _ _ _ _ ?_
    decide
  have h2 : q2.url.Query.lookup (str "library5Name") = q1.url.Query.lookup (str "library5Name") := by
    refine queryBuilder.lookup_set_ne _ _ _ _ ?_
    decide
  have h3 : q3.url.Query.lookup (str "library5Name") = q2.url.Query.lookup (str "library5Name") := by
    refine queryBuilder.lookup_set_ne _ _ _ _ ?_
    decide
  have h4 : q4.url.Query.lookup (str "library5Name") = q3.url.Query.lookup (str "library5Name") := by
    refine queryBuilder.lookup_ite_set_ne _ _ _ _ _ _ ?_
    decide
  have h5 : q5.url.Query.lookup (str "library5Name") = q4.url.Query.lookup (str "library5Name") := by
    refine queryBuilder.lookup_set_ne _ _ _ _ ?_
    decide
  have h6 : q6.url.Query.lookup (str "library5Name") = q5.url.Query.lookup (str "library5Name") := by
    refine queryBuilder.lookup_setIfExist_ne _ _ _ _ ?_
    decide
  have h7 : q7.url.Query.lookup (str "library5Name") = q6.url.Query.lookup (str "library5Name") := by
    simp only [q7]
    split
    · split <;> (refine queryBuilder.lookup_set_ne _ _ _ _ ?_; decide)
    · rfl
  have h8 : q8.url.Query.lookup (str "library5Name") = q7.url.Query.lookup (str "library5Name") := by
    refine queryBuilder.lookup_setIfExist_ne _ _ _ _ ?_
    decide
  have h9 : q9.url.Query.lookup (str "library5Name") = q8.url.Query.lookup (str "library5Name") := by
    simp only [q9]
    split
    · refine queryBuilder.lookup_set_ne _ _ _ _ ?_
      decide
    · rfl
  have h10 : q10.url.Query.lookup (str "library5Name") = q9.url.Query.lookup (str "library5Name") := by
    refine queryBuilder.lookup_setIfExist_ne _ _ _ _ ?_
    decide
  have h11 : q11.url.Query.lookup (str "library5Name") = q10.url.Query.lookup (str "library5Name") := by
    refine queryBuilder.lookup_setIfExist_ne _ _ _ _ ?_
    decide
  have h12 : q12.url.Query.lookup (str "library5Name") = q11.url.Query.lookup (str "library5Name") := by
    refine queryBuilder.lookup_setIfExist_ne _ _ _ _ ?_
    decide
  have h13 : q13.url.Query.lookup (str "library5Name") = q12.url.Query.lookup (str "library5Name") := by
    refine queryBuilder.lookup_setIfExist_ne _ _ _ _ ?_
    decide
  have h14 : q14.url.Query.lookup (str "library5Name") = q13.url.Query.lookup (str "library5Name") := by
    refine queryBuilder.lookup_setIfExist_ne _ _ _ _ ?_
    decide
  have h16 : q16.url.Query.lookup (str "library5Name") = q15.url.Query.lookup (str "library5Name") := by
    simp only [q16]
    split
    · refine queryBuilder.lookup_set_ne _ _ _ _ ?_
      decide
    · rfl
  have h17 : q17.url.Query.lookup (str "library5Name") = q16.url.Query.lookup (str "library5Name") := by
    simp only [q17]
    split
    · refine queryBuilder.lookup_set_ne _ _ _ _ ?_
      decide
    · rfl
  have h18 : q18.url.Query.lookup (str "library5Name") = q17.url.Query.lookup (str "library5Name") := by
    simp only [q18]
    split
    · refine queryBuilder.lookup_set_ne _ _ _ _ ?_
      decide
    · rfl
  have h19 : q19.url.Query.lookup (str "library5Name") = q18.url.Query.lookup (str "library5Name") := by
    simp only [q19]
    split
    · refine queryBuilder.lookup_set_ne _ _ _ _ ?_
      decide
    · rfl
  have h20 : q20.url.Query.lookup (str "library5Name") = q19.url.Query.lookup (str "library5Name") := by
    simp only [q20]
    split
    · refine queryBuilder.lookup_set_ne _ _ _ _ ?_
      decide
    · rfl
  have hpre : q14.url.Query.lookup (str "library5Name") = qb.url.Query.lookup (str "library5Name") := by
    rw [h14, h13, h12, h11, h10, h9, h8, h7, h6, h5, h4, h3, h2, h1]
  rw [h20, h19, h18, h17, h16]
  rw [queryBuilder.lookup_setIfExist]
  split
  · rw [if_pos rfl]
  · exact hpre

theorem verify_lookup_library5Address (qb : queryBuilder) (c : ContractInfo) :
    (qb.verify c).url.Query.lookup (str "library5Address") =
      match c.Library5Address with
      | some a => some [str "0x" ++ a]
      | none => qb.url.Query.lookup (str "library5Address") := by
  unfold queryBuilder.verify
  lift_lets
  extract_lets q1 q2 q3 q4 q5 q6 q7 q8 q9 q10 q11 q12 q13 q14 q15 q16 q17 q18 q19 q20
  have h1 : q1.url.Query.lookup (str "library5Address") = qb.url.Query.lookup (str "library5Address") := by
    refine queryBuilder.lookup_set_ne _ _ _ _ ?_
    decide
  have h2 : q2.url.Query.lookup (str "library5Address") = q1.url.Query.lookup (str "library5Address") := by
    refine queryBuilder.lookup_set_ne _ _ _ _ ?_
    decide
  have h3 : q3.url.Query.lookup (str "library5Address") = q2.url.Query.lookup (str "library5Address") := by
    refine queryBuilder.lookup_set_ne _ _ _ _ ?_
    decide
  have h4 : q4.url.Query.lookup (str "library5Address") = q3.url.Query.lookup (str "library5Address") := by
    refine queryBuilder.lookup_ite_set_ne _ _ _ _ _ _ ?_
    decide
  have h5 : q5.url.Query.lookup (str "library5Address") = q4.url.Query.lookup (str "library5Address") := by
    refine queryBuilder.lookup_set_ne _ _ _ _ ?_
    decide
  have h6 : q6.url.Query.lookup (str "library5Address") = q5.url.Query.lookup (str "library5Address") := by
    refine queryBuilder.lookup_setIfExist_ne _ _ _ _ ?_
    decide
  have h7 : q7.url.Query.lookup (str "library5Address") = q6.url.Query.lookup (str "library5Address") := by
    simp only [q7]
    split
    · split <;> (refine queryBuilder.lookup_set_ne _ _ _ _ ?_; decide)
    · rfl
  have h8 : q8.url.Query.lookup (str "library5Address") = q7.url.Query.lookup (str "library5Address") := by
    refine queryBuilder.lookup_setIfExist_ne _ _ _ _ ?_
    decide
  have h9 : q9.url.Query.lookup (str "library5Address") = q8.url.Query.lookup (str "library5Address") := by
    simp only [q9]
    split
    · refine queryBuilder.lookup_set_ne _ _ _ _ ?_
      decide
    · rfl
  have h10 : q10.url.Query.lookup (str "library5Address") = q9.url.Query.lookup (str "library5Address") := by
    refine queryBuilder.lookup_setIfExist_ne _ _ _ _ ?_
    decide
  have h11 : q11.url.Query.lookup (str "library5Address") = q10.url.Query.lookup (str "library5Address") := by
    refine queryBuilder.lookup_setIfExist_ne _ _ _ _ ?_
    decide
  have h12 : q12.url.Query.lookup (str "library5Address") = q11.url.Query.lookup (str "library5Address") := by
    refine queryBuilder.lookup_setIfExist_ne _ _ _ _ ?_
    decide
  have h13 : q13.url.Query.lookup (str "library5Address") = q12.url.Query.lookup (str "library5Address") := by
    refine queryBuilder.lookup_setIfExist_ne _ _ _ _ ?_
    decide
  have h14 : q14.url.Query.lookup (str "library5Address") = q13.url.Query.lookup (str "library5Address") := by
    refine queryBuilder.lookup_setIfExist_ne _ _ _ _ ?_
    decide
  have h15 : q15.url.Query.lookup (str "library5Address") = q14.url.Query.lookup (str "library5Address") := by
    refine queryBuilder.lookup_setIfExist_ne _ _ _ _ ?_
    decide
  have h16 : q16.url.Query.lookup (str "library5Address") = q15.url.Query.lookup (str "library5Address") := by
    simp only [q16]
    split
    · refine queryBuilder.lookup_set_ne _ _ _ _ ?_
      decide
    · rfl
  have h17 : q17.url.Query.lookup (str "library5Address") = q16.url.Query.lookup (str "library5Address") := by
    simp only [q17]
    split
    · refine queryBuilder.lookup_set_ne _ _ _ _ ?_
      decide
    · rfl
  have h18 : q18.url.Query.lookup (str "library5Address") = q17.url.Query.lookup (str "library5Address") := by
    simp only [q18]
    split
    · refine queryBuilder.lookup_set_ne _ _ _ _ ?_
      decide
    · rfl
  have h19 : q19.url.Query.lookup (str "library5Address") = q18.url.Query.lookup (str "library5Address") := by
    simp only [q19]
    split
    · refine queryBuilder.lookup_set_ne _ _ _ _ ?_
      decide
    · rfl
  have hpre : q19.url.Query.lookup (str "library5Address") = qb.url.Query.lookup (str "library5Address") := by
    rw [h19, h18, h17, h16, h15, h14, h13, h12, h11, h10, h9, h8, h7, h6, h5, h4, h3, h2, h1]
  simp only [q20]
  split
  · rw [queryBuilder.lookup_set, if_pos rfl, add0x_eq]
  · exact hpre


theorem libraryNameKey_1 : libraryNameKey 1 = str "library1Name" := by decide

theorem libraryAddressKey_1 : libraryAddressKey 1 = str "library1Address" := by decide

theorem libraryNameKey_2 : libraryNameKey 2 = str "library2Name" := by decide

theorem libraryAddressKey_2 : libraryAddressKey 2 = str "library2Address" := by decide

theorem libraryNameKey_3 : libraryNameKey 3 = str "library3Name" := by decide

theorem libraryAddressKey_3 : libraryAddressKey 3 = str "library3Address" := by decide

theorem libraryNameKey_4 : libraryNameKey 4 = str "library4Name" := by decide

theorem libraryAddressKey_4 : libraryAddressKey 4 = str "library4Address" := by decide

theorem libraryNameKey_5 : libraryNameKey 5 = str "library5Name" := by decide

theorem libraryAddressKey_5 : libraryAddressKey 5 = str "library5Address" := by decide

/-- C17: for every `ContractInfo` and every `i` in 1..5, after `queryBuilder.verify` the
key `library{i}Name` carries the single value `*Library{i}Name` when that pointer is
non-nil and keeps the entry it had (none, when it had none) when the pointer is nil; the
key `library{i}Address` carries the single value "0x" + `*Library{i}Address` when that
pointer is non-nil and keeps its entry when it is nil; whatever the other library names
and addresses are. -/
theorem C17_verify_libraries (qb : queryBuilder) (c : ContractInfo) (i : Nat)
    (hi : 1 ≤ i ∧ i ≤ 5) :
    (qb.verify c).url.Query.lookup (libraryNameKey i) =
      (match c.libraryName i with
        | some n => some [n]
        | none => qb.url.Query.lookup (libraryNameKey i)) ∧
    (qb.verify c).url.Query.lookup (libraryAddressKey i) =
      (match c.libraryAddress i with
        | some a => some [str "0x" ++ a]
        | none => qb.url.Query.lookup (libraryAddressKey i)) := by
  obtain ⟨h1, h5⟩ := hi
  interval_cases i
  · rw [libraryNameKey_1, libraryAddressKey_1]
    exact ⟨verify_lookup_library1Name qb c, verify_lookup_library1Address qb c⟩
  · rw [libraryNameKey_2, libraryAddressKey_2]
    exact ⟨verify_lookup_library2Name qb c, verify_lookup_library2Address qb c⟩
  · rw [libraryNameKey_3, libraryAddressKey_3]
    exact ⟨verify_lookup_library3Name qb c, verify_lookup_library3Address qb c⟩
  · rw [libraryNameKey_4, libraryAddressKey_4]
    exact ⟨verify_lookup_library4Name qb c, verify_lookup_library4Address qb c⟩
  · rw [libraryNameKey_5, libraryAddressKey_5]
    exact ⟨verify_lookup_library5Name qb c, verify_lookup_library5Address qb c⟩

/-- C17, an instance: `library3Name` set while every other library name and address is
absent, on a query without library keys. -/
theorem C17_verify_libraries_witness :
    ((newQueryBuilder ⟨[], str "module=contract&action=verify", []⟩).verify
        { AddressHash := str "ab", Name := str "T", CompilerVersion := str "v0.8",
          Optimization := false, ContractSourceCode := str "code",
          ConstructorArguments := none, AutodetectConstructorArguments := none,
          EvmVersion := none, OptimizationRuns := none, ProxyAddress := none,
          Library1Name := none, Library1Address := none, Library2Name := none,
          Library2Address := none, Library3Name := some (str "SafeMath"),
          Library3Address := none, Library4Name := none, Library4Address := none,
          Library5Name := none, Library5Address := none }).url.Query.lookup
        (libraryNameKey 3) = some [str "SafeMath"] :=
  (C17_verify_libraries _ _ 3 (by decide)).1

/-! ## The "0x" prefix -/

theorem trim0x_add0x (t : GoString) : trim0x (add0x t) = t := by
  simp [trim0x, TrimPrefix, HasPrefix, add0x_eq, str_0x]

theorem add0x_trim0x_of_prefix (s : GoString) (h : HasPrefix s (str "0x") = true) :
    add0x (trim0x s) = s := by
  rw [str_0x] at h
  have h2 := h
  simp only [HasPrefix, Bool.and_eq_true, decide_eq_true_eq, beq_iff_eq,
    List.length_cons, List.length_nil] at h2
  simp only [trim0x, TrimPrefix, h, if_true, add0x_eq, str_0x, List.length_cons,
    List.length_nil]
  have := List.take_append_drop 2 s
  simp only [Nat.zero_add, Nat.reduceAdd] at h2
  rw [h2.2] at this
  simpa using this

theorem trim0x_eq_stripOne0x (s : GoString) : trim0x s = stripOne0x s := by
  rcases s with _ | ⟨a, _ | ⟨b, rest⟩⟩
  · rfl
  · simp [trim0x, TrimPrefix, HasPrefix, str_0x, stripOne0x]
  · by_cases ha : a = 48
    · by_cases hb : b = 120
      · subst ha hb
        simp [trim0x, TrimPrefix, HasPrefix, str_0x, stripOne0x]
      · subst ha
        simp [trim0x, TrimPrefix, HasPrefix, str_0x, stripOne0x, hb]
    · simp [trim0x, TrimPrefix, HasPrefix, str_0x, stripOne0x, ha]

/-- C18: for every string `s`, with `f(s) = add0x(trim0x(s))`, `f(f(s)) = f(s)`; and
`f(s) = s` whenever `s` already starts with "0x". -/
theorem C18_strip_then_add (s : GoString) :
    add0x (trim0x (add0x (trim0x s))) = add0x (trim0x s) ∧
    (HasPrefix s (str "0x") = true → add0x (trim0x s) = s) := by
  refine ⟨?_, add0x_trim0x_of_prefix s⟩
  rw [trim0x_add0x]

/-- C18, instances: "0xab" is a fixed point, and "ab" is sent to "0xab". -/
theorem C18_strip_then_add_witness :
    HasPrefix (str "0xab") (str "0x") = true ∧
    add0x (trim0x (str "0xab")) = str "0xab" ∧
    add0x (trim0x (add0x (trim0x (str "ab")))) = add0x (trim0x (str "ab")) :=
  ⟨by decide, (C18_strip_then_add (str "0xab")).2 (by decide),
   (C18_strip_then_add (str "ab")).1⟩

/-! ## Results that do not decode -/

theorem storeString_of_not_string (doc : Json) (cur : GoString) (h : doc.string? = none) :
    storeString doc cur = cur := by
  cases doc <;> simp [Json.string?] at h <;> rfl

/-- C19 (as amended): for every answer whose envelope has status "1", `jsonResponse`
returns no error, whether or not the result decodes into the type of the endpoint: the
result object is whatever `json.Unmarshal` left in it.  For `Balance`, a result that is
absent or is no JSON string leaves the balance at its zero value: `RequestClient.Balance`
returns the empty string with a nil error and `Client.Balance` a nil big integer with a nil
error. -/
theorem C19_status1_no_error (r : RequestClient) (u : URL) (code : Int) (body : Json)
    (hr : r.http u = HttpResult.response code (HttpBody.data (some body)))
    (hs : (storeBaseResponse body response.BaseResponse.zero).Status = str "1") :
    (∀ (α : Type) (store : Json → α → α) (respObject : Iface α),
      r.jsonResponse u store respObject =
        (jsonUnmarshal store (storeBaseResponse body response.BaseResponse.zero).Result
          respObject, none)) ∧
    ((storeBaseResponse body response.BaseResponse.zero).Result.bind Json.string? = none →
      ∀ (address : GoString) (u0 : URL), buildUrl [r.base, balanceUrl] = some u0 →
        ((newQueryBuilder u0).address address).url = u →
        r.Balance address = some ([], none) ∧
        (Client.mk r).Balance address = some (none, none)) := by
  have h1 : ∀ (α : Type) (store : Json → α → α) (respObject : Iface α),
      r.jsonResponse u store respObject =
        (jsonUnmarshal store (storeBaseResponse body response.BaseResponse.zero).Result
          respObject, none) := by
    intro α store respObject
    simp only [RequestClient.jsonResponse, hr, jsonUnmarshal, Iface.get, hs, if_true]
  refine ⟨h1, ?_⟩
  intro hres address u0 hu0 hu
  have h2 : r.Balance address = some ([], none) := by
    unfold RequestClient.Balance
    simp only [hu0, Option.bind_eq_bind, Option.some_bind, hu, h1, Option.pure_def]
    cases hR : (storeBaseResponse body response.BaseResponse.zero).Result with
    | none => rfl
    | some res =>
      rw [hR] at hres
      simp only [Option.some_bind] at hres
      simp only [jsonUnmarshal, Iface.get, storeString_of_not_string res [] hres]
  refine ⟨h2, ?_⟩
  unfold Client.Balance
  simp only [h2, Option.bind_eq_bind, Option.some_bind, Option.pure_def]
  rfl

/-- C19 as amended, an instance: the envelope `{"status":"1","message":"OK","result":5}`
answered to `Balance`. -/
theorem C19_status1_no_error_witness :
    (RequestClient.mk (fun _ => HttpResult.response 200 (HttpBody.data (some (Json.object
        [(str "status", Json.string (str "1")), (str "message", Json.string (str "OK")),
         (str "result", Json.number (str "5"))]))))
      (str "https://explorer.celo.org/api")).Balance (str "ab") = some ([], none) :=
  ((C19_status1_no_error
    (RequestClient.mk (fun _ => HttpResult.response 200 (HttpBody.data (some (Json.object
        [(str "status", Json.string (str "1")), (str "message", Json.string (str "OK")),
         (str "result", Json.number (str "5"))]))))
      (str "https://explorer.celo.org/api"))
    ((newQueryBuilder ⟨str "https://explorer.celo.org/api",
      str "module=account&action=balance&address={addressHash}", []⟩).address (str "ab")).url
    200 _ rfl (by decide)).2 (by decide) (str "ab")
    ⟨str "https://explorer.celo.org/api",
      str "module=account&action=balance&address={addressHash}", []⟩ (by decide) rfl).1

/-- C19, the claim as stated fails: with status "1" and the result `5`, a number where
`Balance` declares a string, `RequestClient.Balance` returns the zero balance with a nil
error; with status "1" and a transaction info whose `gasUsed` is a number and whose `hash`
is a string, `RequestClient.GetTxInfo` returns a nil error and a record with `Hash` filled
and `Gasused` left empty. -/
theorem C19_counterexample :
    (RequestClient.mk (fun _ => HttpResult.response 200 (HttpBody.data (some (Json.object
        [(str "status", Json.string (str "1")), (str "message", Json.string (str "OK")),
         (str "result", Json.number (str "5"))]))))
      (str "https://explorer.celo.org/api")).Balance (str "ab") = some ([], none) ∧
    ((RequestClient.mk (fun _ => HttpResult.response 200 (HttpBody.data (some (Json.object
        [(str "status", Json.string (str "1")), (str "message", Json.string (str "OK")),
         (str "result", Json.object
           [(str "gasUsed", Json.number (str "21000")),
            (str "hash", Json.string (str "0xab"))])]))))
      (str "https://explorer.celo.org/api")).GetTxInfo (str "ab") none).map
        (fun res => (res.1.Hash, res.1.Gasused, res.2)) =
      some (str "0xab", [], none) := by
  decide

/-! ## Topic lists -/

/-- C20: for every client, (1) for every answer to the logs request whose envelope has
status "1" and whose result is an array of logs, each carrying a wire `topics` list,
`Client.GetLogs` returns one event log per wire log, in order, whose `Topics` is the wire
list with one leading "0x" removed from each element that has it and every other element
unchanged; (2) the same holds of the logs inside the record `Client.GetTxInfo` returns,
against the wire `logs` array of the result; (3) the normalised list has the length and
the order of the wire list, element by element. -/
theorem C20_topics_normalised (c : Client) :
    (∀ (block : BlockRangeAdv) (contractAddress : GoString) (topics : Topics) (u : URL)
      (qb : queryBuilder) (code : Int) (body : Json) (elems : List Json)
      (wire : List (List GoString)),
      buildUrl [c.req.base, getLogsUrl] = some u →
      (((newQueryBuilder u).blockRangeAdv block).address contractAddress).topics topics =
        some qb →
      c.req.http qb.url = HttpResult.response code (HttpBody.data (some body)) →
      (storeBaseResponse body response.BaseResponse.zero).Status = str "1" →
      (storeBaseResponse body response.BaseResponse.zero).Result =
        some (Json.array elems) →
      elems.map (fun e => wireStringList "topics" e.members) = wire.map some →
      ∃ logs, c.GetLogs block contractAddress topics = some (logs, none) ∧
        logs.map (fun l => l.Topics) = wire.map (fun ts => ts.map stripOne0x)) ∧
    (∀ (txHash : GoString) (u : URL) (code : Int) (body result : Json)
      (logElems : List Json) (wire : List (List GoString)),
      buildUrl [c.req.base, getTxInfoUrl] = some u →
      c.req.http (((newQueryBuilder u).txHash txHash).index none).url =
        HttpResult.response code (HttpBody.data (some body)) →
      (storeBaseResponse body response.BaseResponse.zero).Status = str "1" →
      (storeBaseResponse body response.BaseResponse.zero).Result = some result →
      wireArray "logs" result.members = some logElems →
      logElems.map (fun e => wireStringList "topics" e.members) = wire.map some →
      ∃ tx, c.GetTxInfo txHash = some (tx, none) ∧
        tx.Logs.map (fun l => l.Topics) = wire.map (fun ts => ts.map stripOne0x)) ∧
    (∀ (wire : List GoString) (k : Nat),
      (wire.map stripOne0x).length = wire.length ∧
      (wire.map stripOne0x)[k]? = (wire[k]?).map stripOne0x) := by
  have hfun : trim0x = stripOne0x := funext trim0x_eq_stripOne0x
  refine ⟨?_, ?_, ?_⟩
  · intro block contractAddress topics u qb code body elems wire hu hq hr hs hres hw
    have hreq : c.req.GetLogs block contractAddress topics =
        some (elems.map (fun e => storeGetLogs e response.GetLogs.zero), none) := by
      unfold RequestClient.GetLogs
      simp only [hu, hq, Option.bind_eq_bind, Option.some_bind,
        RequestClient.jsonResponse_result _ _ _ _ code body (Json.array elems) hr hs hres,
        Iface.get, storeSlice_fresh, Option.pure_def]
    refine ⟨(elems.map (fun e => storeGetLogs e response.GetLogs.zero)).map
      Client.GetLogs.convert, ?_, ?_⟩
    · unfold Client.GetLogs
      simp only [hreq, Option.bind_eq_bind, Option.some_bind, Option.pure_def]
    · rw [← map_field_wireStringList "topics" elems wire hw]
      simp only [List.map_map]
      apply List.map_congr_left
      intro e _
      simp only [Function.comp, Client.GetLogs.convert, storeGetLogs,
        response.GetLogs.zero, hfun]
  · intro txHash u code body result logElems wire hu hr hs hres hlogs hw
    have hreq : c.req.GetTxInfo txHash none =
        some (storeGetTxInfo result response.GetTxInfo.zero, none) := by
      unfold RequestClient.GetTxInfo
      simp only [hu, Option.bind_eq_bind, Option.some_bind,
        RequestClient.jsonResponse_result _ _ _ _ code body result hr hs hres,
        Iface.get, Option.pure_def]
    have hl : (storeGetTxInfo result response.GetTxInfo.zero).Logs =
        logElems.map (fun e => storeGetTxInfoLog e response.GetTxInfoLog.zero) := by
      simp only [storeGetTxInfo, response.GetTxInfo.zero]
      exact field_wireArray _ _ "logs" _ _ hlogs
    unfold Client.GetTxInfo
    simp only [hreq, Option.bind_eq_bind, Option.some_bind, Option.pure_def]
    refine ⟨_, rfl, ?_⟩
    simp only [hl]
    rw [← map_field_wireStringList "topics" logElems wire hw]
    simp only [List.map_map]
    apply List.map_congr_left
    intro e _
    simp only [Function.comp, Client.GetTxInfo.convertLog, storeGetTxInfoLog,
      response.GetTxInfoLog.zero, hfun]
  · intro wire k
    exact ⟨List.length_map _ _, List.getElem?_map _ _ _⟩

set_option maxRecDepth 1000000 in
/-- C20, instances: a log with the wire topics "0xaa", "bb", "0x0xcc" in the answer to
`GetLogs`, and a log with the same wire topics inside the answer to `GetTxInfo`, have the
topics "aa", "bb", "0xcc". -/
theorem C20_topics_normalised_witness :
    (∃ logs,
      (Client.mk ⟨fun _ => HttpResult.response 200 (HttpBody.data (some (Json.object
          [(str "status", Json.string (str "1")), (str "message", Json.string (str "OK")),
           (str "result", Json.array [Json.object
             [(str "topics", Json.array [Json.string (str "0xaa"), Json.string (str "bb"),
                Json.string (str "0x0xcc")])]])]))),
        str "https://explorer.celo.org/api"⟩).GetLogs
          { FromBlock := some 1, ToBlock := none, ToLatest := true } (str "ab")
          (Topics.mk (str "aa") none none none none none none none none none) =
        some (logs, none) ∧
      logs.map (fun l => l.Topics) =
        [[str "0xaa", str "bb", str "0x0xcc"]].map (fun ts => ts.map stripOne0x)) ∧
    (∃ tx,
      (Client.mk ⟨fun _ => HttpResult.response 200 (HttpBody.data (some (Json.object
          [(str "status", Json.string (str "1")), (str "message", Json.string (str "OK")),
           (str "result", Json.object
             [(str "hash", Json.string (str "0xab")),
              (str "logs", Json.array [Json.object
                [(str "address", Json.string (str "0xcd")),
                 (str "topics", Json.array [Json.string (str "0xaa"),
                    Json.string (str "bb"), Json.string (str "0x0xcc")])]])])]))),
        str "https://explorer.celo.org/api"⟩).GetTxInfo (str "ab") = some (tx, none) ∧
      tx.Logs.map (fun l => l.Topics) =
        [[str "0xaa", str "bb", str "0x0xcc"]].map (fun ts => ts.map stripOne0x)) ∧
    [[str "0xaa", str "bb", str "0x0xcc"]].map (fun ts => ts.map stripOne0x) =
      [[str "aa", str "bb", str "0xcc"]] :=
  ⟨(C20_topics_normalised _).1
      { FromBlock := some 1, ToBlock := none, ToLatest := true } (str "ab")
      (Topics.mk (str "aa") none none none none none none none none none)
      ⟨str "https://explorer.celo.org/api",
        str ("module=logs&action=getLogs&fromBlock={blockNumber}&toBlock={blockNumber}" ++
          "&address={addressHash}&topic0={firstTopic}"), []⟩
      ⟨⟨str "https://explorer.celo.org/api",
        str ("action=getLogs&address=0xab&fromBlock=1&module=logs&toBlock=latest" ++
          "&topic0=0xaa"), []⟩⟩
      200
      (Json.object
          [(str "status", Json.string (str "1")), (str "message", Json.string (str "OK")),
           (str "result", Json.array [Json.object
             [(str "topics", Json.array [Json.string (str "0xaa"), Json.string (str "bb"),
                Json.string (str "0x0xcc")])]])])
      [Json.object
        [(str "topics", Json.array [Json.string (str "0xaa"), Json.string (str "bb"),
          Json.string (str "0x0xcc")])]]
      [[str "0xaa", str "bb", str "0x0xcc"]]
      (by decide) (by decide) rfl (by decide) rfl (by decide),
   (C20_topics_normalised _).2.1 (str "ab")
      ⟨str "https://explorer.celo.org/api",
        str "module=transaction&action=gettxinfo&txhash={transactionHash}", []⟩
      200
      (Json.object
          [(str "status", Json.string (str "1")), (str "message", Json.string (str "OK")),
           (str "result", Json.object
             [(str "hash", Json.string (str "0xab")),
              (str "logs", Json.array [Json.object
                [(str "address", Json.string (str "0xcd")),
                 (str "topics", Json.array [Json.string (str "0xaa"),
                    Json.string (str "bb"), Json.string (str "0x0xcc")])]])])])
      (Json.object
             [(str "hash", Json.string (str "0xab")),
              (str "logs", Json.array [Json.object
                [(str "address", Json.string (str "0xcd")),
                 (str "topics", Json.array [Json.string (str "0xaa"),
                    Json.string (str "bb"), Json.string (str "0x0xcc")])]])])
      [Json.object
                [(str "address", Json.string (str "0xcd")),
                 (str "topics", Json.array [Json.string (str "0xaa"),
                    Json.string (str "bb"), Json.string (str "0x0xcc")])]]
      [[str "0xaa", str "bb", str "0x0xcc"]]
      (by decide) rfl (by decide) rfl rfl (by decide),
   by decide⟩

/-! ## Hexadecimal numbers -/

set_option maxRecDepth 1000000 in
theorem hex_digit_fact : ∀ c : Byte, isHexDigit c = true →
    bigDigit c = hexDigitValue c ∧ bigDigit c < 16 ∧ c ≠ 45 ∧ c ≠ 43 ∧ c ≠ 120 := by
  decide

set_option maxRecDepth 1000000 in
/-- The hex digits are exactly the bytes `0`..`9`, `a`..`f` and `A`..`F`. -/
theorem isHexDigit_ranges : ∀ c : Byte, isHexDigit c = true ↔
    ((48 ≤ c ∧ c ≤ 57) ∨ (97 ≤ c ∧ c ≤ 102) ∨ (65 ≤ c ∧ c ≤ 70)) := by
  decide

theorem hexDigitByte_fact : ∀ (upper : Bool) (d : Fin 16),
    isHexDigit (hexDigitByte upper d.val) = true ∧
      hexDigitValue (hexDigitByte upper d.val) = d.val := by
  decide

theorem natScan_hex (h : GoString) :
    ∀ z count, h.all isHexDigit = true →
      natScan 16 h z count =
        (h.foldl (fun a c => a * 16 + hexDigitValue c) z, count + h.length, []) := by
  induction h with
  | nil => intro z count _; simp [natScan]
  | cons c cs ih =>
    intro z count hall
    simp only [List.all_cons, Bool.and_eq_true] at hall
    have hc := hex_digit_fact c hall.1
    rw [natScan, if_neg (by omega), ih _ _ hall.2, hc.1]
    simp only [List.foldl_cons, List.length_cons, Prod.mk.injEq, and_true, true_and]
    omega

theorem toBigInt_hex (h : GoString) (hh : isHexNumeral h) :
    toBigInt h 16 = some (hexValue h : Int) := by
  obtain ⟨hne, hall⟩ := hh
  cases h with
  | nil => exact absurd rfl hne
  | cons c cs =>
    have hall2 := hall
    simp only [List.all_cons, Bool.and_eq_true] at hall2
    have hc := hex_digit_fact c hall2.1
    unfold toBigInt bigSetString
    simp only [Option.some_bind, hc.2.2.1, hc.2.2.2.1, or_self, if_false, decide_False,
      Bool.and_false]
    rw [natScan_hex (c :: cs) 0 0 hall]
    simp [hexValue]

theorem trim0x_hex (h : GoString) (hall : h.all isHexDigit = true) : trim0x h = h := by
  rcases h with _ | ⟨a, _ | ⟨b, rest⟩⟩
  · rfl
  · simp [trim0x, TrimPrefix, HasPrefix, str_0x]
  · simp only [List.all_cons, Bool.and_eq_true] at hall
    have hb := (hex_digit_fact b hall.2.1).2.2.2.2
    simp [trim0x, TrimPrefix, HasPrefix, str_0x, hb]

theorem foldl_hexAux (upper : Bool) (fuel : Nat) :
    ∀ (n : Nat) (acc : GoString), n < fuel →
      (∃ k, 0 < k ∧ ∀ z,
        (hexAux upper fuel n acc).foldl (fun a c => a * 16 + hexDigitValue c) z =
          acc.foldl (fun a c => a * 16 + hexDigitValue c) (z * 16 ^ k + n)) ∧
      hexAux upper fuel n acc ≠ [] ∧
      ((hexAux upper fuel n acc).all isHexDigit = acc.all isHexDigit) := by
  induction fuel with
  | zero => intro n acc h; omega
  | succ fuel ih =>
    intro n acc h
    by_cases hn : n < 16
    · have hd := hexDigitByte_fact upper ⟨n, hn⟩
      simp only at hd
      refine ⟨⟨1, by omega, ?_⟩, ?_, ?_⟩
      · intro z
        simp only [hexAux, hn, if_true, List.foldl_cons, hd.2, pow_one]
      · simp [hexAux, hn]
      · simp [hexAux, hn, hd.1]
    · have hd := hexDigitByte_fact upper ⟨n % 16, Nat.mod_lt _ (by norm_num)⟩
      simp only at hd
      obtain ⟨⟨k, hk, hfold⟩, hne, hall⟩ :=
        ih (n / 16) (hexDigitByte upper (n % 16) :: acc) (by omega)
      refine ⟨⟨k + 1, by omega, ?_⟩, ?_, ?_⟩
      · intro z
        simp only [hexAux, hn, if_false]
        rw [hfold, List.foldl_cons, hd.2]
        have e : (z * 16 ^ k + n / 16) * 16 + n % 16 = z * 16 ^ (k + 1) + n := by
          have := Nat.div_add_mod n 16
          rw [pow_succ]
          nlinarith
        rw [e]
      · simp only [hexAux, hn, if_false]
        exact hne
      · simp only [hexAux, hn, if_false]
        rw [hall]
        simp [hd.1]

theorem formatHex_numeral (upper : Bool) (n : Nat) :
    isHexNumeral (formatHex upper n) ∧ hexValue (formatHex upper n) = n := by
  obtain ⟨⟨k, _, hfold⟩, hne, hall⟩ := foldl_hexAux upper (n + 1) n [] (by omega)
  refine ⟨⟨hne, ?_⟩, ?_⟩
  · unfold formatHex
    rw [hall]
    rfl
  · unfold hexValue formatHex
    rw [hfold 0]
    simp

/-- C21: for every natural number `n` and every hexadecimal representation `h` of it
(at least one hex digit, lower or upper case, value `n`), `toBigInt(trim0x("0x"+h), 16)`
and `toBigInt(trim0x(h), 16)` are both the big integer `n`; the numerals of `n` written
with lower case and with upper case digits are such representations. -/
theorem C21_hex_conversion (n : Nat) :
    (∀ h : GoString, isHexNumeral h → hexValue h = n →
      toBigInt (trim0x (str "0x" ++ h)) 16 = some (n : Int) ∧
      toBigInt (trim0x h) 16 = some (n : Int)) ∧
    (∀ upper : Bool,
      isHexNumeral (formatHex upper n) ∧ hexValue (formatHex upper n) = n ∧
      toBigInt (trim0x (str "0x" ++ formatHex upper n)) 16 = some (n : Int) ∧
      toBigInt (trim0x (formatHex upper n)) 16 = some (n : Int)) := by
  have key : ∀ h : GoString, isHexNumeral h → hexValue h = n →
      toBigInt (trim0x (str "0x" ++ h)) 16 = some (n : Int) ∧
      toBigInt (trim0x h) 16 = some (n : Int) := by
    intro h hh hv
    have e1 : trim0x (str "0x" ++ h) = h := by
      rw [← add0x_eq, trim0x_add0x]
    rw [e1, trim0x_hex h hh.2, toBigInt_hex h hh, hv]
    exact ⟨rfl, rfl⟩
  refine ⟨key, ?_⟩
  intro upper
  have hf := formatHex_numeral upper n
  exact ⟨hf.1, hf.2, key _ hf.1 hf.2⟩

/-- C21, instances: "1a", "1A" and "001a" are hexadecimal representations of 26. -/
theorem C21_hex_conversion_witness :
    (isHexNumeral (str "1a") ∧ hexValue (str "1a") = 26 ∧
      toBigInt (trim0x (str "0x" ++ str "1a")) 16 = some ((26 : Nat) : Int) ∧
      toBigInt (trim0x (str "1a")) 16 = some ((26 : Nat) : Int)) ∧
    (toBigInt (trim0x (str "0x" ++ str "1A")) 16 = some ((26 : Nat) : Int)) ∧
    (toBigInt (trim0x (str "001a")) 16 = some ((26 : Nat) : Int)) ∧
    formatHex false 26 = str "1a" ∧ formatHex true 26 = str "1A" :=
  ⟨⟨by decide, by decide, (C21_hex_conversion 26).1 (str "1a") (by decide) (by decide)⟩,
   ((C21_hex_conversion 26).1 (str "1A") (by decide) (by decide)).1,
   ((C21_hex_conversion 26).1 (str "001a") (by decide) (by decide)).2,
   by decide, by decide⟩

/-! ## The algebra of `set` -/

theorem Values.Set_Set_same (m : Values) (k v0 v : GoString) :
    Values.Set (Values.Set m k v0) k v = Values.Set m k v := by
  induction m with
  | nil => simp [Values.Set]
  | cons a rest ih =>
    obtain ⟨k0, vs⟩ := a
    by_cases h1 : k = k0
    · simp [Values.Set, h1]
    · by_cases h2 : strLt k k0 = true
      · simp [Values.Set, h1, h2]
      · simp [Values.Set, h1, h2, ih]

theorem Values.Set_comm (m : Values) (k1 k2 v1 v2 : GoString) (h : k1 ≠ k2) :
    Values.Set (Values.Set m k1 v1) k2 v2 = Values.Set (Values.Set m k2 v2) k1 v1 := by
  have h' : k2 ≠ k1 := fun e => h e.symm
  induction m with
  | nil =>
    by_cases h12 : strLt k1 k2 = true
    · have h21 : strLt k2 k1 = false := by
        by_contra hc
        have := strLt_trans _ _ _ h12 (by simpa using hc)
        rw [strLt_irrefl] at this
        exact absurd this (by simp)
      simp [Values.Set, h, h', h12, h21]
    · have h21 : strLt k2 k1 = true := strLt_connex _ _ (by simpa using h12) h
      simp [Values.Set, h, h', h12, h21]
  | cons a rest ih =>
    obtain ⟨k0, vs⟩ := a
    have asym : ∀ a b : GoString, strLt a b = true → strLt b a = false := by
      intro a b hab
      by_contra hc
      have := strLt_trans _ _ _ hab (by simpa using hc)
      rw [strLt_irrefl] at this
      exact absurd this (by simp)
    by_cases e1 : k1 = k0
    · subst e1
      by_cases l2 : strLt k2 k1 = true
      · have := asym _ _ l2
        simp [Values.Set, h, h', l2, this]
      · simp [Values.Set, h, h', l2]
    · by_cases e2 : k2 = k0
      · subst e2
        by_cases l1 : strLt k1 k2 = true
        · have := asym _ _ l1
          simp [Values.Set, h, h', l1, this]
        · simp [Values.Set, h, h', l1]
      · by_cases l1 : strLt k1 k0 = true
        · by_cases l2 : strLt k2 k0 = true
          · by_cases h12 : strLt k1 k2 = true
            · have := asym _ _ h12
              simp [Values.Set, h, h', e1, e2, l1, l2, h12, this]
            · have h21 : strLt k2 k1 = true := strLt_connex _ _ (by simpa using h12) h
              simp [Values.Set, h, h', e1, e2, l1, l2, h12, h21]
          · have h21 : strLt k2 k1 = false := by
              by_contra hc
              exact l2 (strLt_trans _ _ _ (by simpa using hc) l1)
            simp [Values.Set, h, h', e1, e2, l1, l2, h21]
        · by_cases l2 : strLt k2 k0 = true
          · have h12 : strLt k1 k2 = false := by
              by_contra hc
              exact l1 (strLt_trans _ _ _ (by simpa using hc) l2)
            simp [Values.Set, h, h', e1, e2, l1, l2, h12]
          · simp [Values.Set, h, h', e1, e2, l1, l2, ih]

/-- The builder after two `set` calls, in terms of the map read from the first URL. -/
theorem queryBuilder.set_set (qb : queryBuilder) (k1 v1 k2 v2 : GoString) :
    (qb.set k1 v1).set k2 v2 =
      { url := { qb.url with
          RawQuery := ((qb.url.Query.Set k1 v1).Set k2 v2).Encode } } := by
  have e := queryBuilder.Query_set qb k1 v1
  unfold queryBuilder.set at e ⊢
  simp only at e ⊢
  rw [e]

/-- The query string `set` writes is the encoding of the map it reads back. -/
theorem queryBuilder.Encode_Query_set (qb : queryBuilder) (k v : GoString) :
    (qb.set k v).url.Query.Encode = (qb.set k v).url.RawQuery := by
  rw [queryBuilder.Query_set]
  rfl

/-- C22: for every URL, keys `k1 ≠ k2` and values, `set(k1,v1)` then `set(k2,v2)` gives
the same builder, hence the same query string, as the two calls in the other order;
`set(k1,v1)` applied twice, or applied after `set(k1,v0)` for any earlier value `v0`,
equals applying it once; after `set(k1,v1)` the key `k1` carries exactly the single value
`v1` and every other key keeps its values; the query string written is canonical (it is
the sorted-key encoding of the map read back from it, whose keys are strictly increasing)
and the rest of the URL is unchanged. -/
theorem C22_set_canonical (qb : queryBuilder) (k1 k2 v1 v2 : GoString) (h : k1 ≠ k2) :
    ((qb.set k1 v1).set k2 v2).url.RawQuery = ((qb.set k2 v2).set k1 v1).url.RawQuery ∧
    (qb.set k1 v1).set k2 v2 = (qb.set k2 v2).set k1 v1 ∧
    (qb.set k1 v1).set k1 v1 = qb.set k1 v1 ∧
    (∀ v0 : GoString, (qb.set k1 v0).set k1 v1 = qb.set k1 v1) ∧
    (qb.set k1 v1).url.Query.lookup k1 = some [v1] ∧
    (qb.set k1 v1).url.Query.Get k1 = v1 ∧
    (∀ k : GoString, k ≠ k1 →
      (qb.set k1 v1).url.Query.lookup k = qb.url.Query.lookup k) ∧
    (qb.set k1 v1).url.Query.Canonical ∧
    (qb.set k1 v1).url.Query.Encode = (qb.set k1 v1).url.RawQuery ∧
    (qb.set k1 v1).url.Rest = qb.url.Rest ∧
    (qb.set k1 v1).url.Fragment = qb.url.Fragment := by
  have hcomm : (qb.set k1 v1).set k2 v2 = (qb.set k2 v2).set k1 v1 := by
    rw [queryBuilder.set_set, queryBuilder.set_set, Values.Set_comm _ _ _ _ _ h]
  have hsame : ∀ v0 : GoString, (qb.set k1 v0).set k1 v1 = qb.set k1 v1 := by
    intro v0
    rw [queryBuilder.set_set, Values.Set_Set_same]
    rfl
  have hl : (qb.set k1 v1).url.Query.lookup k1 = some [v1] := by
    rw [queryBuilder.lookup_set, if_pos rfl]
  refine ⟨by rw [hcomm], hcomm, hsame v1, hsame, hl, ?_, ?_, ?_,
    queryBuilder.Encode_Query_set qb k1 v1, rfl, rfl⟩
  · unfold Values.Get
    rw [hl]
  · intro k hk
    exact queryBuilder.lookup_set_ne qb k1 v1 k hk
  · exact ParseQuery_Canonical _

set_option maxRecDepth 1000000 in
/-- C22, an instance on the query of the balance template: setting "address" replaces the
placeholder, and setting "tag" before or after it gives the same query string. -/
theorem C22_set_canonical_witness :
    str "address" ≠ str "tag" ∧
    (((newQueryBuilder ⟨[], (Cut 63 balanceUrl).2, []⟩).set (str "address")
        (str "0xab")).set (str "tag") (str "latest")).url.RawQuery =
      (((newQueryBuilder ⟨[], (Cut 63 balanceUrl).2, []⟩).set (str "tag")
        (str "latest")).set (str "address") (str "0xab")).url.RawQuery ∧
    (((newQueryBuilder ⟨[], (Cut 63 balanceUrl).2, []⟩).set (str "address")
        (str "0xab")).set (str "tag") (str "latest")).url.RawQuery =
      str "action=balance&address=0xab&module=account&tag=latest" ∧
    (newQueryBuilder ⟨[], (Cut 63 balanceUrl).2, []⟩).url.Query.lookup (str "address") =
      some [str "{addressHash}"] ∧
    ((newQueryBuilder ⟨[], (Cut 63 balanceUrl).2, []⟩).set (str "address")
        (str "0xab")).url.Query.lookup (str "address") = some [str "0xab"] :=
  ⟨by decide,
   (C22_set_canonical (newQueryBuilder ⟨[], (Cut 63 balanceUrl).2, []⟩) (str "address")
      (str "tag") (str "0xab") (str "latest") (by decide)).1,
   by decide, by decide,
   (C22_set_canonical (newQueryBuilder ⟨[], (Cut 63 balanceUrl).2, []⟩) (str "address")
      (str "tag") (str "0xab") (str "latest") (by decide)).2.2.2.2.1⟩

/-! ## Topic operators -/

set_option maxRecDepth 1000000 in
/-- C23, evaluated: for topics "aa" and "bb" joined by `And`, and for topics "aa" and "cc"
(third slot) joined by `Or`, `queryBuilder.topics` on the query of the logs template
writes "0xand" under `topic0_1_opr` and "0xor" under `topic0_2_opr`, not the
combinators "and" and "or" held in `Opr01` and `Opr02`. -/
theorem C23_operator_failing_input :
    ((newQueryBuilder ⟨[], (Cut 63 getLogsUrl).2, []⟩).topics
        (Topics.mk (str "aa") (some (str "bb")) none none
          (some topicOperator.And) none none none none none)).map
      (fun qb => qb.url.Query.lookup (str "topic0_1_opr")) = some (some [str "0xand"]) ∧
    ((newQueryBuilder ⟨[], (Cut 63 getLogsUrl).2, []⟩).topics
        (Topics.mk (str "aa") none (some (str "cc")) none
          none (some topicOperator.Or) none none none none)).map
      (fun qb => qb.url.Query.lookup (str "topic0_2_opr")) = some (some [str "0xor"]) ∧
    ((newQueryBuilder ⟨[], (Cut 63 getLogsUrl).2, []⟩).topics
        (Topics.mk (str "aa") (some (str "bb")) none none
          (some topicOperator.And) none none none none none)).map
      (fun qb => qb.url.RawQuery) =
      some (str ("action=getLogs&address=%7BaddressHash%7D&fromBlock=%7BblockNumber%7D" ++
        "&module=logs&toBlock=%7BblockNumber%7D&topic0=0xaa&topic0_1_opr=0xand" ++
        "&topic1=0xbb")) ∧
    str "0xand" ≠ topicOperator.And ∧ str "0xor" ≠ topicOperator.Or := by
  refine ⟨?_, ?_, ?_, ?_, ?_⟩ <;> decide

end CeloExplorer
